import Mathlib

/-! KeeperRL creature core: damage formula, lasting-effect ledger, action validation, death,
movement planning, taking damage, the per-tick update, time cost, and the effect tagged union.

A shallow embedding of parts of `creature.cpp` and of `effect_type.h`.  Floating-point
`double` values are embedded as exact rationals (`ℚ`), machine `int` values as `Int`.
-/

namespace KeeperRL

/-! ## Combat resolver: the damage fraction (`getDamage`, creature.cpp) -/

/-- The ratio at which the damage drops to 0 (`constexpr double minRatio = 0.6`). -/
def minRatio : ℚ := 0.6

/-- The ratio at which the damage reaches 1 (`constexpr double maxRatio = 2.2`). -/
def maxRatio : ℚ := 2.2

/-- Damage dealt at a ratio of 1 (`constexpr double damageAtOne = 0.12`). -/
def damageAtOne : ℚ := 0.12

/-- The function `getDamage(double damageRatio)` of creature.cpp, over exact rationals. -/
def getDamage (damageRatio : ℚ) : ℚ :=
  if damageRatio ≤ minRatio then
    0
  else if damageRatio ≤ 1 then
    damageAtOne * (damageRatio - minRatio) / (1.0 - minRatio)
  else if damageRatio ≤ maxRatio then
    damageAtOne + (1.0 - damageAtOne) * (damageRatio - 1.0) / (maxRatio - 1.0)
  else
    1.0

/-- The four segments of the damage fraction in the words of the specification:
segment 0 is the constant 0 (ratio ≤ 0.6), segment 1 the linear ramp from 0 to the
damage at parity 0.12 (0.6 < ratio ≤ 1.0), segment 2 the linear ramp from 0.12 to 1.0
(1.0 < ratio ≤ 2.2), segment 3 the constant 1.0 (ratio > 2.2). -/
def specSegment (i : Fin 4) (r : ℚ) : ℚ :=
  match i with
  | 0 => 0
  | 1 => 0 + (0.12 - 0) * (r - 0.6) / (1.0 - 0.6)
  | 2 => 0.12 + (1.0 - 0.12) * (r - 1.0) / (2.2 - 1.0)
  | 3 => 1.0

/-! ## Data model

Types declared in headers that are not part of the embedded sources are modelled by the
data the embedded functions read and write. -/

/-- Modelled from the spec: the enumeration `LastingEffect` (lasting_effect.h), the finite
enumerated set of effect kinds.  The kinds named in creature.cpp are listed; any further
kind is given by its ordinal. -/
inductive LastingEffect where
  | BLIND | COLLAPSED | DARKNESS_SOURCE | ENTANGLED | FIRE_RESISTANT | FLYING | INVISIBLE
  | SATIATED | SLEEP | SLOWED | SPEED | SUNLIGHT_VULNERABLE | TIED_UP
  | other (ordinal : Nat)
  deriving DecidableEq, Repr

/-- Modelled from the spec: the enumeration `AttrType` (attr_type.h); the attributes named
in creature.cpp, any further one by its ordinal. -/
inductive AttrType where
  | DAMAGE | DEFENSE | SPELL_DAMAGE | RANGED_DAMAGE
  | other (ordinal : Nat)
  deriving DecidableEq, Repr

/-- Modelled from the spec: the enumeration `ExperienceType` (experience_type.h); the
experience channels named in creature.cpp, any further one by its ordinal. -/
inductive ExperienceType where
  | MELEE | SPELL
  | other (ordinal : Nat)
  deriving DecidableEq, Repr

/-- Modelled from the spec: the enumeration `CreatureCondition`; creature.cpp names
SLEEPING and RESTRICTED_MOVEMENT. -/
inductive CreatureCondition where
  | SLEEPING | RESTRICTED_MOVEMENT
  | other (ordinal : Nat)
  deriving DecidableEq, Repr

/-- Modelled from the spec: `ItemClass` (item_class.h); creature.cpp names these classes. -/
inductive ItemClass where
  | WEAPON | GOLD | TOOL | POTION | FOOD | BOOK | SCROLL
  | other (ordinal : Nat)
  deriving DecidableEq, Repr

/-- Modelled from the spec: `EquipmentSlot` (equipment.h); creature.cpp names WEAPON. -/
inductive EquipmentSlot where
  | WEAPON
  | other (ordinal : Nat)
  deriving DecidableEq, Repr

/-- Modelled from the spec: `StatId` (statistics.h); the counters creature.cpp adds to in
the death transition and in casting. -/
inductive StatId where
  | INNOCENT_KILLED | DEATH | SPELL_CAST
  | other (ordinal : Nat)
  deriving DecidableEq, Repr

/-- The three-way drop policy `Creature::DropType` of the death transition. -/
inductive DropType where
  | NOTHING | ONLY_INVENTORY | EVERYTHING
  deriving DecidableEq, Repr

/-- Modelled from the spec: `GlobalTime` (game_time.h), a timestamp of the world clock. -/
abbrev GlobalTime := Int

/-- Modelled from the spec: `TimeInterval` (game_time.h), a difference of timestamps. -/
abbrev TimeInterval := Int

/-- Modelled from the spec: `UniqueEntity<Creature>::Id`, the identity of a creature; weak
references to creatures (`WCreature`) are embedded as optional identities. -/
abbrev UniqueId := Nat

/-- Modelled from the spec: `TribeId` (tribe.h), the identity of a faction. -/
abbrev TribeId := Nat

/-- Modelled from the spec: `Vec2` (util.h), an integer coordinate vector. -/
structure Vec2 where
  x : Int
  y : Int
  deriving DecidableEq, Repr

/-- Modelled from the spec: `Vec2::length8`, the length of a vector in the 8-neighbourhood
(the larger of the absolute coordinates), so that length 1 means orthogonal or diagonal
adjacency. -/
def Vec2.length8 (v : Vec2) : Int := max |v.x| |v.y|

/-- Modelled from the spec: `Position` (position.h), a handle into the spatial model:
a level and a coordinate on it. -/
structure Position where
  level : Nat
  coord : Vec2
  deriving DecidableEq, Repr

/-- Modelled from the spec: `Position::isSameLevel`. -/
def Position.isSameLevel (p q : Position) : Bool := p.level == q.level

/-- Modelled from the spec: `Position::getDir`, the direction vector from this position to
`p` (difference of the coordinates). -/
def Position.getDir (self p : Position) : Vec2 := ⟨p.coord.x - self.coord.x, p.coord.y - self.coord.y⟩

/-- Modelled from the spec: `Position::plus`. -/
def Position.plus (self : Position) (v : Vec2) : Position :=
  ⟨self.level, ⟨self.coord.x + v.x, self.coord.y + v.y⟩⟩

/-- Modelled from the spec: `Position::neighbors8`, the eight surrounding positions. -/
def Position.neighbors8 (self : Position) : List Position :=
  [⟨-1, -1⟩, ⟨-1, 0⟩, ⟨-1, 1⟩, ⟨0, -1⟩, ⟨0, 1⟩, ⟨1, -1⟩, ⟨1, 0⟩, ⟨1, 1⟩].map self.plus

/-- A value of type `double` where it need not be a number (the result of a division, a
value read from data): a number, an infinity, or not a number. -/
inductive DoubleValue where
  | finite (q : ℚ)
  | posInf
  | negInf
  | nan
  deriving DecidableEq

/-- The comparison `x <= q` of a double with a number; false for not-a-number. -/
def DoubleValue.le (x : DoubleValue) (q : ℚ) : Bool :=
  match x with
  | .finite a => decide (a ≤ q)
  | .posInf => false
  | .negInf => true
  | .nan => false

/-- The comparison `x > q` of a double with a number; false for not-a-number. -/
def DoubleValue.gt (x : DoubleValue) (q : ℚ) : Bool :=
  match x with
  | .finite a => decide (a > q)
  | .posInf => true
  | .negInf => false
  | .nan => false

/-- Modelled from the spec: `Item` (item.h) by what creature.cpp reads of an item: its
identity, class, the attribute its weapon info names as melee attack attribute, its
attribute modifiers, its weight (a double) and its name with the definite article. -/
structure Item where
  id : Nat
  itemClass : ItemClass
  meleeAttackAttr : AttrType
  getModifier : AttrType → Int
  weight : DoubleValue
  theName : String

/-- Modelled from the spec: `Equipment` (equipment.h): the owned items, each with the slot
it is equipped in, if any. -/
structure Equipment where
  entries : List (Item × Option EquipmentSlot)

/-- Modelled from the spec: `Equipment::getItems`. -/
def Equipment.getItems (e : Equipment) : List Item := e.entries.map Prod.fst

/-- Modelled from the spec: `Equipment::getAllEquipped`. -/
def Equipment.getAllEquipped (e : Equipment) : List Item :=
  (e.entries.filter fun p => p.2.isSome).map Prod.fst

/-- Modelled from the spec: `Equipment::getSlotItems`. -/
def Equipment.getSlotItems (e : Equipment) (slot : EquipmentSlot) : List Item :=
  (e.entries.filter fun p => p.2 == some slot).map Prod.fst

/-- Modelled from the spec: `Equipment::removeAllItems`: hands over every item and leaves
the equipment empty. -/
def Equipment.removeAllItems (e : Equipment) : List Item × Equipment := (e.getItems, ⟨[]⟩)

/-- Modelled from the spec: the enumeration `BodyPart` (body_part.h); creature.cpp names
the arm in the embedded functions, any further part by its ordinal. -/
inductive BodyPart where
  | ARM
  | other (ordinal : Nat)
  deriving DecidableEq, Repr

/-- Modelled from the spec: `Body` (body.h) by the queries creature.cpp makes: immunity to
an effect kind, the body's modification of a raw attribute, the weapon chosen given the
equipped one (possibly an intrinsic attack, possibly none), the corpse items, whether
the body has a death sound, the number of good parts of a kind and whether the body is
humanoid. -/
structure Body where
  isImmuneTo : LastingEffect → Bool
  modifyAttr : AttrType → ℚ → ℚ
  chooseWeapon : Option Item → Option Item
  getCorpseItems : List Item
  hasDeathSound : Bool
  numGood : BodyPart → Int
  isHumanoid : Bool

/-- Modelled from the spec: `CreatureAttributes` (creature_attributes.h).  The lasting
effect ledger is the pair `lastingEffects` (expiry timestamp per kind) and
`permanentEffects` (permanent stack count per kind). -/
structure CreatureAttributes where
  body : Body
  lastingEffects : LastingEffect → GlobalTime
  permanentEffects : LastingEffect → Int
  rawAttr : AttrType → Int
  expLevel : ExperienceType → ℚ
  innocent : Bool
  boulder : Bool

/-- Modelled from the spec: `CreatureAttributes::isAffected(effect, time)`: an effect is
active iff permanent-count > 0 or current global time < expiry. -/
def CreatureAttributes.isAffected (a : CreatureAttributes) (effect : LastingEffect)
    (time : GlobalTime) : Bool :=
  decide (0 < a.permanentEffects effect) || decide (time < a.lastingEffects effect)

/-- Modelled from the spec: `CreatureAttributes::getTimeOut`, the expiry timestamp. -/
def CreatureAttributes.getTimeOut (a : CreatureAttributes) (effect : LastingEffect) : GlobalTime :=
  a.lastingEffects effect

/-- Modelled from the spec: `CreatureAttributes::addLastingEffect(effect, endTime)`: only
extends the expiry timestamp, never shortens it, and leaves the permanent counts alone. -/
def CreatureAttributes.addLastingEffect (a : CreatureAttributes) (effect : LastingEffect)
    (endTime : GlobalTime) : CreatureAttributes :=
  if a.lastingEffects effect < endTime then
    { a with lastingEffects := Function.update a.lastingEffects effect endTime }
  else a

/-- Modelled from the spec: `CreatureAttributes::clearLastingEffect(effect, globalTime)`,
the non-permanent removal: it ends the time-based grant (the expiry is set to the current
time, so that current time < expiry no longer holds) and leaves the permanent count
unaffected. -/
def CreatureAttributes.clearLastingEffect (a : CreatureAttributes) (effect : LastingEffect)
    (globalTime : GlobalTime) : CreatureAttributes :=
  { a with lastingEffects := Function.update a.lastingEffects effect globalTime }

/-- Modelled from the spec: `CreatureAttributes::addPermanentEffect(effect, count)`. -/
def CreatureAttributes.addPermanentEffect (a : CreatureAttributes) (effect : LastingEffect)
    (count : Int) : CreatureAttributes :=
  { a with permanentEffects := Function.update a.permanentEffects effect (a.permanentEffects effect + count) }

/-- Modelled from the spec: `CreatureAttributes::removePermanentEffect(effect, count)`. -/
def CreatureAttributes.removePermanentEffect (a : CreatureAttributes) (effect : LastingEffect)
    (count : Int) : CreatureAttributes :=
  { a with permanentEffects := Function.update a.permanentEffects effect (a.permanentEffects effect - count) }

/-- Modelled from the spec: `CreatureAttributes::increaseExpLevel(type, increase)`: the
experience level of the channel grows by the increase. -/
def CreatureAttributes.increaseExpLevel (a : CreatureAttributes) (type : ExperienceType)
    (increase : ℚ) : CreatureAttributes :=
  { a with expLevel := Function.update a.expLevel type (a.expLevel type + increase) }

/-- Modelled from the spec: `Controller` (controller.h) by its identity and by whether it is
the player's controller. -/
structure Controller where
  id : Nat
  isPlayer : Bool
  deriving DecidableEq, Repr

/-- Modelled from the spec: `DoNothingController`, the terminal no-op controller installed
on death. -/
def DoNothingController : Controller := ⟨0, false⟩

/-- Modelled from the spec: `Game` (game.h) by the global time it reports. -/
structure Game where
  globalTime : GlobalTime
  deriving DecidableEq, Repr

/-- Modelled from the spec: `Position::dist8`, the 8-neighbourhood distance of two positions
(of one level): the length of the direction vector between them. -/
def Position.dist8 (self p : Position) : Int := (self.getDir p).length8

/-- Modelled from the spec: `LevelShortestPath` (shortest_path.h), the reusable plan of the
shortest-path service: the target it was computed for, whether it is reversed (computed for
fleeing), and the queries "is reachable" and "next step". -/
structure ShortestPath where
  target : Position
  reversed : Bool
  isReachable : Position → Bool
  getNextMove : Position → Position

/-- Modelled from the spec: `Effect` (effect.h), the effect an attack can trigger, by its
identity; what applying it does is a service of the combat environment. -/
structure Effect where
  id : Nat
  deriving DecidableEq, Repr

/-- Modelled from the spec: `AttackType` (attack_type.h), by its ordinal. -/
structure AttackType where
  ordinal : Nat
  deriving DecidableEq, Repr

/-- Modelled from the spec: `DestroyAction` (destroy_action.h), by its ordinal. -/
structure DestroyAction where
  ordinal : Nat
  deriving DecidableEq, Repr

/-- Calls to external collaborators (hooks of the LastingEffects module, controller
notifications, statistics, the event bus, tribe and level notifications, narration), in the
order in which they are made. -/
inductive Event where
  | onAffected (effect : LastingEffect) (msg : Bool)
  | onRemoved (effect : LastingEffect) (msg : Bool)
  | onTimedOut (effect : LastingEffect) (msg : Bool)
  | controllerOnKilled (controller : Controller) (attacker : Option UniqueId)
  | onStartedControl (controller : Controller)
  | onEndedControl (controller : Controller)
  | deathSound
  | statistics (stat : StatId)
  | moreExperienced (type : ExperienceType) (newLevel : Int)
  | spellExpLevelReached (level : ℚ)
  | creatureKilled (victim : UniqueId) (attacker : Option UniqueId)
  | tribeOnMemberKilled (tribe : TribeId) (victim : UniqueId) (attacker : Option UniqueId)
  | levelKillCreature (victim : UniqueId)
  | shortestPathComputed (target origin : Position) (mult : Option ℚ)
  | attackSound
  | bodyTakeDamage (damage : ℚ)
  | getHitNoDamage
  | effectApplied (effect : Effect) (attacker : Option UniqueId)
  | afterCreatureDamage (effect : LastingEffect)
  deriving DecidableEq, Repr

/-- The state of class `Creature` (creature.h) read or written by the embedded member
functions.  `game` is the game reached through the creature's position (`getGame()`), absent
for a creature outside an active world; `log` collects the calls the creature makes to
external collaborators. -/
structure Creature where
  id : UniqueId
  attributes : CreatureAttributes
  position : Position
  equipment : Equipment
  tribe : TribeId
  game : Option Game
  deathTime : Option GlobalTime
  deathReason : Option String
  lastAttacker : Option UniqueId
  lastDamageType : Option ExperienceType
  holding : Option UniqueId
  swapPositionCooldown : Int
  controllerStack : List Controller
  privateEnemies : List UniqueId
  kills : List UniqueId
  points : Int
  difficultyPoints : Int
  highestAttackValueEver : Int
  log : List Event
  shortestPath : Option ShortestPath
  unknownAttackers : List UniqueId
  visibleCreatures : List Position
  hidden : Bool
  knownHiding : List UniqueId
  morale : ℚ
  lastMoveCounter : Int

/-- Result of a state-changing member function: it either runs to completion, or stops in a
fatal error (a failed `CHECK`, or the dereference of an absent optional or null pointer),
in which case the state reached at that point is kept for inspection. -/
inductive Outcome (σ : Type) where
  | done (state : σ)
  | fatal (msg : String) (state : σ)

/-- The state an outcome ends in. -/
def Outcome.state {σ : Type} : Outcome σ → σ
  | .done s => s
  | .fatal _ s => s

/-- Whether an outcome is a fatal error. -/
def Outcome.isFatal {σ : Type} : Outcome σ → Bool
  | .done _ => false
  | .fatal _ _ => true

/-- Modelled from the spec: the namespace `LastingEffects` (lasting_effect.cpp) by its
functions that return a value to creature.cpp: the global gate "does this effect apply to
this creature at all", the attribute modifier, the adjustment of the enemy relation and the
effect kinds causing a condition.  Its hooks are recorded in the creature's log. -/
structure LastingEffects where
  affects : Creature → LastingEffect → Bool
  modifyAttr : Creature → AttrType → ℚ → ℚ
  modifyIsEnemyResult : Creature → Creature → Bool → Bool
  getCausingCondition : CreatureCondition → List LastingEffect

/-! ## Lasting effect ledger (creature.cpp) -/

/-- Record a call to an external collaborator. -/
def Creature.emit (c : Creature) (e : Event) : Creature := { c with log := c.log ++ [e] }

/-- Member function `Creature::getBody`. -/
def Creature.getBody (c : Creature) : Body := c.attributes.body

/-- Member function `Creature::getGlobalTime`: the game's global time, none without a game. -/
def Creature.getGlobalTime (c : Creature) : Option GlobalTime :=
  match c.game with
  | some g => some g.globalTime
  | none => none

/-- Member function `Creature::isAffected`. -/
def Creature.isAffected (c : Creature) (effect : LastingEffect) : Bool :=
  match c.getGlobalTime with
  | some time => c.attributes.isAffected effect time
  | none => false

/-- Member function `Creature::getTimeRemaining`. -/
def Creature.getTimeRemaining (c : Creature) (effect : LastingEffect) : Option TimeInterval :=
  let t := c.attributes.getTimeOut effect
  match c.getGlobalTime with
  | some global => if t ≥ global then some (t - global) else none
  | none => none

/-- Member function `Creature::addEffect(effect, time, msg)`. -/
def Creature.addEffect (L : LastingEffects) (c : Creature) (effect : LastingEffect)
    (time : TimeInterval) (msg : Bool) : Outcome Creature :=
  if L.affects c effect && !c.getBody.isImmuneTo effect then
    let was := c.isAffected effect
    match c.getGlobalTime with
    | none => .fatal "*getGlobalTime(): no global time" c
    | some now =>
      let c1 := { c with attributes := c.attributes.addLastingEffect effect (now + time) }
      if !was && c1.isAffected effect then
        .done (c1.emit (.onAffected effect msg))
      else .done c1
  else .done c

/-- Member function `Creature::removeEffect(effect, msg)`. -/
def Creature.removeEffect (c : Creature) (effect : LastingEffect) (msg : Bool) :
    Outcome Creature :=
  let was := c.isAffected effect
  match c.getGlobalTime with
  | none => .fatal "*getGlobalTime(): no global time" c
  | some now =>
    let c1 := { c with attributes := c.attributes.clearLastingEffect effect now }
    if was && !c1.isAffected effect then
      .done (c1.emit (.onRemoved effect msg))
    else .done c1

/-- Member function `Creature::addPermanentEffect(effect, count)`. -/
def Creature.addPermanentEffect (c : Creature) (effect : LastingEffect) (count : Int) :
    Creature :=
  let was := c.isAffected effect
  let c1 := { c with attributes := c.attributes.addPermanentEffect effect count }
  if !was && c1.isAffected effect then
    c1.emit (.onAffected effect true)
  else c1

/-- Member function `Creature::removePermanentEffect(effect, count)`. -/
def Creature.removePermanentEffect (c : Creature) (effect : LastingEffect) (count : Int) :
    Creature :=
  let was := c.isAffected effect
  let c1 := { c with attributes := c.attributes.removePermanentEffect effect count }
  if was && !c1.isAffected effect then
    c1.emit (.onRemoved effect true)
  else c1

/-! ## The world around a creature -/

/-- Modelled from the spec: the spatial/world service and the tribes, by the queries
creature.cpp makes: the registry of creatures, the creature occupying a position
(`Position::getCreature`), whether the creature standing on a position can be moved in a
direction (`Position::canMoveCreature`), whether a creature could enter a position if it
were empty (`Position::canEnterEmpty`), whether a tribe regards a creature as an enemy
(`Tribe::isEnemy`); further the items lying on each position and the calls made to the
game, the tribes and the level. -/
structure World where
  creature : UniqueId → Option Creature
  occupant : Position → Option UniqueId
  canMoveCreature : Position → Vec2 → Bool
  canEnterEmpty : Position → Creature → Bool
  tribeIsEnemy : TribeId → Creature → Bool
  items : Position → List Item
  log : List Event

/-- Modelled from the spec: `Position::getCreature`, the creature occupying the position. -/
def World.getCreature (w : World) (pos : Position) : Option Creature :=
  match w.occupant pos with
  | some id => w.creature id
  | none => none

/-! ## Action command layer (creature.cpp) -/

/-- Modelled from the spec: `AttackLevel` (attack_level.h). -/
inductive AttackLevel where
  | LOW | MIDDLE | HIGH
  deriving DecidableEq, Repr

/-- Modelled from the spec: `Creature::AttackParams` (creature.h): an optional attack level
and an optional overriding weapon. -/
structure AttackParams where
  level : Option AttackLevel
  weapon : Option Item

/-- The apply procedure captured by a valid action, given by the member function that built
it and the values it closes over.  The apply step itself is not part of validation. -/
inductive ActionBody where
  | attack (other : UniqueId) (weapon : Item) (dir : Vec2) (params : Option AttackParams)
  | move (direction : Vec2)
  | destroy (direction : Vec2) (action : DestroyAction)
  | throwItem (item : Item) (direction : Vec2) (dist : Int) (damage : Int)

/-- Modelled from the spec: `CreatureAction` (creature_action.h): either invalid, carrying a
rejection reason or none, or valid, bound to one creature and carrying its apply
procedure. -/
inductive CreatureAction where
  | invalid (failedReason : Option String)
  | valid (self : UniqueId) (apply : ActionBody)

/-- Whether an action is valid (`CreatureAction::operator bool`). -/
def CreatureAction.isValid : CreatureAction → Bool
  | .invalid _ => false
  | .valid _ _ => true

/-- Member function `Creature::isDead`. -/
def Creature.isDead (c : Creature) : Bool := c.deathTime.isSome

/-- Member function `Creature::getController`: the top of the controller stack, none if it is empty. -/
def Creature.getController (c : Creature) : Option Controller := c.controllerStack.getLast?

/-- Member function `Creature::isPlayer`: dereferences the controller. -/
def Creature.isPlayer (c : Creature) : Except String Bool :=
  match c.getController with
  | some controller => .ok controller.isPlayer
  | none => .error "getController()->isPlayer(): no controller"

/-- Member function `Creature::getWeapon`. -/
def Creature.getWeapon (c : Creature) : Option Item :=
  let it := c.equipment.getSlotItems EquipmentSlot.WEAPON
  let weapon : Option Item := if it.isEmpty then none else it.head?
  c.getBody.chooseWeapon weapon

/-- Member function `Creature::attack(other, attackParams)`, the validation phase. -/
def Creature.attack (self other : Creature) (attackParams : Option AttackParams) :
    Except String CreatureAction :=
  if other.isDead then .error "CHECK(!other->isDead()) failed"
  else if !self.position.isSameLevel other.position then .ok (.invalid none)
  else
    let dir := self.position.getDir other.position
    if dir.length8 ≠ 1 then .ok (.invalid none)
    else
      let weapon := self.getWeapon
      let weapon :=
        match attackParams with
        | some params =>
          match params.weapon with
          | some w => some w
          | none => weapon
        | none => weapon
      match weapon with
      | none => .ok (.invalid (some "No available weapon or intrinsic attack"))
      | some w => .ok (.valid self.id (.attack other.id w dir attackParams))

/-- The weapon `attack` resolves: the overriding weapon of the parameters if there is
one, else the weapon `getWeapon` yields. -/
def resolvedWeapon (self : Creature) (attackParams : Option AttackParams) : Option Item :=
  match attackParams with
  | some params =>
    match params.weapon with
    | some w => some w
    | none => self.getWeapon
  | none => self.getWeapon

/-- Member function `Creature::getHoldingCreature`. -/
def Creature.getHoldingCreature (w : World) (self : Creature) : Option Creature :=
  match self.holding with
  | some holding =>
    self.position.neighbors8.findSome? fun pos =>
      match w.getCreature pos with
      | some c => if c.id = holding then some c else none
      | none => none
  | none => none

/-- Member function `Creature::hasCondition`. -/
def Creature.hasCondition (L : LastingEffects) (c : Creature) (condition : CreatureCondition) :
    Bool :=
  (L.getCausingCondition condition).any fun effect => c.isAffected effect

/-- Member function `Creature::getTribe`: looks the tribe up in the game, which is dereferenced. -/
def Creature.getTribe (c : Creature) : Except String TribeId :=
  match c.game with
  | some _ => .ok c.tribe
  | none => .error "getGame()->getTribe(tribe): no game"

/-- Member function `Creature::isEnemy(c)`, called on `self`. -/
def Creature.isEnemy (L : LastingEffects) (w : World) (self c : Creature) : Except String Bool :=
  if c.id = self.id then .ok false
  else
    match self.getTribe with
    | .error e => .error e
    | .ok selfTribe =>
      if w.tribeIsEnemy selfTribe c then .ok (L.modifyIsEnemyResult self c true)
      else
        match c.getTribe with
        | .error e => .error e
        | .ok otherTribe =>
          let result := w.tribeIsEnemy otherTribe self ||
            self.privateEnemies.contains c.id || c.privateEnemies.contains self.id
          .ok (L.modifyIsEnemyResult self c result)

/-- Short-circuit conjunction of two conditions whose evaluation may fail: the second is
evaluated only if the first is true. -/
def andThen (a b : Except String Bool) : Except String Bool :=
  match a with
  | .error e => .error e
  | .ok false => .ok false
  | .ok true => b

/-- Short-circuit disjunction: the second is evaluated only if the first is false. -/
def orElse (a b : Except String Bool) : Except String Bool :=
  match a with
  | .error e => .error e
  | .ok true => .ok true
  | .ok false => b

/-- Negation of a condition whose evaluation may fail. -/
def notE (a : Except String Bool) : Except String Bool :=
  match a with
  | .error e => .error e
  | .ok b => .ok (!b)

/-- Member function `Creature::canSwapPositionInMovement(other)`. -/
def Creature.canSwapPositionInMovement (L : LastingEffects) (w : World) (self other : Creature) :
    Except String Bool :=
  andThen (.ok (!other.hasCondition L CreatureCondition.RESTRICTED_MOVEMENT))
  (andThen (orElse (.ok (decide (self.swapPositionCooldown = 0))) self.isPlayer)
  (andThen (.ok (!other.attributes.boulder))
  (andThen (orElse (notE other.isPlayer) self.isPlayer)
  (andThen (notE (other.isEnemy L w self))
  (andThen (.ok (w.canEnterEmpty other.position self))
  (.ok (w.canEnterEmpty self.position other)))))))

/-- Member function `Creature::move(pos)`, the validation phase. -/
def Creature.move (L : LastingEffects) (w : World) (self : Creature) (pos : Position) :
    Except String CreatureAction :=
  let direction := self.position.getDir pos
  if (self.getHoldingCreature w).isSome then .ok (.invalid (some "You can't break free!"))
  else if direction.length8 ≠ 1 then .ok (.invalid none)
  else if !w.canMoveCreature self.position direction then
    match w.getCreature pos with
    | some other =>
      match self.canSwapPositionInMovement L w other with
      | .error e => .error e
      | .ok false => .ok (.invalid none)
      | .ok true => .ok (.valid self.id (.move direction))
    | none => .ok (.invalid none)
  else .ok (.valid self.id (.move direction))

/-- A call returned a valid action. -/
def returnsValid (r : Except String CreatureAction) : Bool :=
  match r with
  | .ok a => a.isValid
  | .error _ => false

/-- A call returned an invalid action. -/
def returnsInvalid (r : Except String CreatureAction) : Bool :=
  match r with
  | .ok a => !a.isValid
  | .error _ => false

/-! ## Movement planner (creature.cpp) -/

/-- Modelled from the spec: `Creature::NavigationFlags` (creature.h): whether the target tile
itself must be enterable, and whether obstructions may be destroyed. -/
structure NavigationFlags where
  stepOnTile : Bool
  destroy : Bool

/-- Modelled from the spec: `Furniture` (furniture.h) by the query creature.cpp makes in
`destroy`: whether a creature (its movement type) can destroy it with an action. -/
structure Furniture where
  canDestroy : Creature → DestroyAction → Bool

/-- Modelled from the spec: the shortest-path service and the spatial queries of the
movement planner: sector connectivity (`Position::isConnectedTo`), the constructor of
`LevelShortestPath` (creature, target, origin and the flee bias, absent for the default),
`Position::getBestDestroyAction` and the furniture of a position. -/
structure Navigation where
  isConnectedTo : Position → Position → Creature → Bool
  levelShortestPath : Creature → Position → Position → Option ℚ → ShortestPath
  getBestDestroyAction : Position → Creature → Option DestroyAction
  getFurniture : Position → Option Furniture

/-- Member function `Creature::destroy(direction, action)`, the validation phase. -/
def Creature.destroy (N : Navigation) (self : Creature) (direction : Vec2)
    (action : DestroyAction) : CreatureAction :=
  let pos := self.position.plus direction
  match N.getFurniture pos with
  | some furniture =>
    if direction.length8 ≤ 1 ∧ furniture.canDestroy self action = true then
      .valid self.id (.destroy direction action)
    else .invalid none
  | none => .invalid none

/-- Member function `Creature::canNavigateTo(pos)`. -/
def Creature.canNavigateTo (N : Navigation) (self : Creature) (pos : Position) : Bool :=
  pos.neighbors8.any fun v => N.isConnectedTo v self.position self

/-- The test `targetChanged` of `Creature::moveTowards`: there is a cached path and its
target is farther from `pos` than a tenth (integer division) of the creature's distance to
`pos`. -/
def Creature.targetChanged (self : Creature) (pos : Position) : Bool :=
  match self.shortestPath with
  | some path => decide (path.target.dist8 pos > (self.position.dist8 pos).tdiv 10)
  | none => false

/-- The condition of `Creature::moveTowards` under which a new path is computed:
`!shortestPath || targetChanged || shortestPath->isReversed() != away`. -/
def Creature.needsNewPath (self : Creature) (pos : Position) (away : Bool) : Bool :=
  match self.shortestPath with
  | none => true
  | some path => self.targetChanged pos || (path.reversed != away)

/-- The flee bias handed to the path constructor: -1.5 when fleeing, the default
otherwise. -/
def pathBias (away : Bool) : Option ℚ := if !away then none else some (-1.5)

/-- The statement `shortestPath.reset(new LevelShortestPath(this, pos, position[, -1.5]))` of
`Creature::moveTowards`; the call of the constructor is recorded in the log. -/
def Creature.resetShortestPath (N : Navigation) (self : Creature) (pos : Position)
    (away : Bool) : Creature :=
  if !away then
    Creature.emit { self with shortestPath := some (N.levelShortestPath self pos self.position none) }
      (.shortestPathComputed pos self.position none)
  else
    Creature.emit
      { self with shortestPath := some (N.levelShortestPath self pos self.position (some (-1.5))) }
      (.shortestPathComputed pos self.position (some (-1.5)))

/-- The second half of `Creature::moveTowards`, from "Reconstructing shortest path" on. -/
def Creature.moveTowardsRetry (L : LastingEffects) (N : Navigation) (w : World)
    (self1 : Creature) (pos : Position) (away : Bool) (flags : NavigationFlags) :
    Except String CreatureAction × Creature :=
  let self2 := self1.resetShortestPath N pos away
  match self2.shortestPath with
  | none => (.error "shortestPath: null after reset", self2)
  | some path2 =>
    if path2.isReachable self2.position then
      let pos2 := path2.getNextMove self2.position
      match self2.move L w pos2 with
      | .error e => (.error e, self2)
      | .ok (.valid id body) => (.ok (.valid id body), self2)
      | .ok (.invalid _) =>
        if !w.canEnterEmpty pos2 self2 && flags.destroy then
          match N.getBestDestroyAction pos2 self2 with
          | some destroyAction =>
            match self2.destroy N (self2.position.getDir pos2) destroyAction with
            | .valid id body => (.ok (.valid id body), self2)
            | .invalid _ => (.ok (.invalid none), self2)
          | none => (.ok (.invalid none), self2)
        else (.ok (.invalid none), self2)
    else (.ok (.invalid none), self2)

/-- Member function `Creature::moveTowards(pos, away, flags)`: the action it returns (or the
fatal error) and the creature with its cached path afterwards. -/
def Creature.moveTowards (L : LastingEffects) (N : Navigation) (w : World) (self : Creature)
    (pos : Position) (away : Bool) (flags : NavigationFlags) :
    Except String CreatureAction × Creature :=
  if !pos.isSameLevel self.position then
    (.error "CHECK(pos.isSameLevel(position)) failed", self)
  else if flags.stepOnTile && !w.canEnterEmpty pos self then (.ok (.invalid none), self)
  else if !away && !self.canNavigateTo N pos then (.ok (.invalid none), self)
  else
    let self1 := if self.needsNewPath pos away then self.resetShortestPath N pos away else self
    match self1.shortestPath with
    | none => (.error "CHECK(shortestPath) failed", self1)
    | some path =>
      let first : Except String CreatureAction :=
        if path.isReachable self1.position then
          self1.move L w (path.getNextMove self1.position)
        else .ok (.invalid none)
      match first with
      | .error e => (.error e, self1)
      | .ok (.valid id body) => (.ok (.valid id body), self1)
      | .ok (.invalid _) => self1.moveTowardsRetry L N w pos away flags

/-! ## Attributes, experience and difficulty points (creature.cpp) -/

/-- The conversion `(int)` of a `double`: truncation toward zero. -/
def truncate (q : ℚ) : Int := Int.tdiv q.num q.den

/-- The conversion `(int) def` of a `double` to the 32-bit `int`: truncation toward zero when
the truncated value is representable. Otherwise the conversion is undefined in C++; the
conversion instruction of the target then delivers the most negative `int`. -/
def castInt (q : ℚ) : Int :=
  if -2 ^ 31 ≤ truncate q ∧ truncate q < 2 ^ 31 then truncate q else -2 ^ 31

/-- The sum of two `int` values as the machine computes it: the exact sum when it is
representable, wrapped around modulo 2^32 otherwise. -/
def intAdd (a b : Int) : Int := (a + b + 2 ^ 31) % 2 ^ 32 - 2 ^ 31

/-- Member function `Creature::getAttr(type)`. -/
def Creature.getAttr (L : LastingEffects) (c : Creature) (type : AttrType) : Int :=
  let def0 : ℚ := c.getBody.modifyAttr type (c.attributes.rawAttr type)
  let def1 : ℚ := c.equipment.getAllEquipped.foldl
    (fun acc item =>
      if item.itemClass ≠ ItemClass.WEAPON ∨ type ≠ item.meleeAttackAttr then
        acc + item.getModifier type
      else acc) def0
  let def2 : ℚ := L.modifyAttr c type def1
  max 0 (castInt def2)

/-- Member function `Creature::getDifficultyPoints`: returns the value and stores it in the (mutable)
cache. -/
def Creature.getDifficultyPoints (L : LastingEffects) (c : Creature) : Int × Creature :=
  let v := max c.difficultyPoints
    (intAdd (intAdd (c.getAttr L AttrType.SPELL_DAMAGE) (c.getAttr L AttrType.DEFENSE))
      (c.getAttr L AttrType.DAMAGE))
  (v, { c with difficultyPoints := v })

/-- The last statement of `Creature::increaseExpLevel`: for the SPELL channel the spell map
is told the level reached. -/
def Creature.onExpLevelReached (c : Creature) (type : ExperienceType) : Creature :=
  if type = ExperienceType.SPELL then
    c.emit (.spellExpLevelReached (c.attributes.expLevel type))
  else c

/-- Member function `Creature::increaseExpLevel(type, increase)`.  The narration `you(...)` goes through the
controller, which is dereferenced. -/
def Creature.increaseExpLevel (c : Creature) (type : ExperienceType) (increase : ℚ) :
    Outcome Creature :=
  let curLevel := truncate (c.attributes.expLevel type)
  let c1 := { c with attributes := c.attributes.increaseExpLevel type increase }
  let newLevel := truncate (c1.attributes.expLevel type)
  if curLevel ≠ newLevel then
    match c.getController with
    | none => .fatal "getController()->getMessageGenerator(): no controller" c1
    | some _ => .done ((c1.emit (.moreExperienced type newLevel)).onExpLevelReached type)
  else .done (c1.onExpLevelReached type)

/-- The experience gain `expIncrease` computed in `Creature::onKilled` from
`attackDiff = victim->highestAttackValueEver - highestAttackValueEver`. -/
def expIncrease (attackDiff : ℚ) : ℚ :=
  let maxLevelGain : ℚ := 1.0
  let minLevelGain : ℚ := 0.02
  let equalLevelGain : ℚ := 0.2
  let maxLevelDiff : ℚ := 10
  max minLevelGain (min maxLevelGain
    ((maxLevelGain - equalLevelGain) * attackDiff / maxLevelDiff + equalLevelGain))

/-! ## Controller stack (creature.cpp) -/

/-- Member function `Creature::pushController(ctrl)`. -/
def Creature.pushController (c : Creature) (ctrl : Controller) : Creature :=
  let c1 :=
    match c.getController with
    | some controller => c.emit (.onEndedControl controller)
    | none => c
  let c2 := { c1 with controllerStack := c1.controllerStack ++ [ctrl] }
  c2.emit (.onStartedControl ctrl)

/-- Member function `Creature::setController(ctrl)`. -/
def Creature.setController (c : Creature) (ctrl : Controller) : Creature :=
  let c1 :=
    match c.getController with
    | some controller => c.emit (.onEndedControl controller)
    | none => c
  let c2 := { c1 with controllerStack := [] }
  let c3 := c2.pushController ctrl
  c3.emit (.onStartedControl ctrl)

/-! ## Death transition (creature.cpp) -/

/-- Store a creature's state in the registry. -/
def World.setCreature (w : World) (id : UniqueId) (c : Creature) : World :=
  { w with creature := Function.update w.creature id (some c) }

/-- Record a call to the game, a tribe or the level. -/
def World.emit (w : World) (e : Event) : World := { w with log := w.log ++ [e] }

/-- Modelled from the spec: `Position::dropItems`: the items come to lie on the position. -/
def World.dropItems (w : World) (pos : Position) (items : List Item) : World :=
  { w with items := Function.update w.items pos (w.items pos ++ items) }

/-- Modelled from the spec: `Level::killCreature`: the creature leaves its square; the
level is notified. -/
def World.killCreature (w : World) (pos : Position) (id : UniqueId) : World :=
  ({ w with occupant := Function.update w.occupant pos none } : World).emit (.levelKillCreature id)

/-- Member function `Creature::generateCorpse`. -/
def Creature.generateCorpse (c : Creature) : List Item := c.getBody.getCorpseItems

/-- Member function `Creature::onKilled(victim, lastDamage)`, called on the creature `killerId`. -/
def World.onKilled (L : LastingEffects) (w : World) (killerId victimId : UniqueId)
    (lastDamage : Option ExperienceType) : Outcome World :=
  match w.creature killerId, w.creature victimId with
  | some killer, some victim =>
    let attackDiff : ℚ := victim.highestAttackValueEver - killer.highestAttackValueEver
    match killer.increaseExpLevel (lastDamage.getD ExperienceType.MELEE) (expIncrease attackDiff) with
    | .fatal m killer1 => .fatal m (w.setCreature killerId killer1)
    | .done killer1 =>
      let w1 := w.setCreature killerId killer1
      let victim1 := if victimId = killerId then killer1 else victim
      let difficulty := (victim1.getDifficultyPoints L).1
      let victim2 := (victim1.getDifficultyPoints L).2
      let w2 := w1.setCreature victimId victim2
      if difficulty ≥ 0 ∧ difficulty < 100000 then
        let killer2 := if victimId = killerId then victim2 else killer1
        .done (w2.setCreature killerId
          { killer2 with points := killer2.points + difficulty,
                         kills := killer2.kills.insert victimId })
      else .fatal "CHECK(difficulty >=0 && difficulty < 100000) failed" w2
  | _, _ => .fatal "reference to a creature that is not in the world" w

/-- The part of `Creature::dieWithAttacker` after the controller has been notified: drops,
statistics, kill credit, notifications and the terminal controller.  `self` is the state of
the dying creature at that point. -/
def World.dieWithAttackerRest (L : LastingEffects) (w : World) (selfId : UniqueId)
    (self : Creature) (attacker : Option UniqueId) (drops : DropType) : Outcome World :=
  let (dropped, self1) : List Item × Creature :=
    if drops = DropType.EVERYTHING ∨ drops = DropType.ONLY_INVENTORY then
      (self.equipment.removeAllItems.1, { self with equipment := self.equipment.removeAllItems.2 })
    else ([], self)
  let w1 := (w.setCreature selfId self1).dropItems self1.position dropped
  let (w2, self2) : World × Creature :=
    if drops = DropType.EVERYTHING then
      let w' := w1.dropItems self1.position self1.generateCorpse
      if self1.getBody.hasDeathSound then
        (w'.setCreature selfId (self1.emit .deathSound), self1.emit .deathSound)
      else (w', self1)
    else (w1, self1)
  let w3 := if self2.attributes.innocent then w2.emit (.statistics StatId.INNOCENT_KILLED) else w2
  let w4 := w3.emit (.statistics StatId.DEATH)
  let credited : Outcome World :=
    match attacker with
    | some attackerId => w4.onKilled L attackerId selfId self2.lastDamageType
    | none => .done w4
  match credited with
  | .fatal m w5 => .fatal m w5
  | .done w5 =>
    let w6 := w5.emit (.creatureKilled selfId attacker)
    let w7 := w6.emit (.tribeOnMemberKilled self2.tribe selfId attacker)
    let w8 := w7.killCreature self2.position selfId
    match w8.creature selfId with
    | some self3 => .done (w8.setCreature selfId (self3.setController DoNothingController))
    | none => .fatal "reference to a creature that is not in the world" w8

/-- Member function `Creature::dieWithAttacker(attacker, drops)`, called on the creature `selfId`. -/
def World.dieWithAttacker (L : LastingEffects) (w : World) (selfId : UniqueId)
    (attacker : Option UniqueId) (drops : DropType) : Outcome World :=
  match w.creature selfId with
  | none => .fatal "reference to a creature that is not in the world" w
  | some self =>
    if self.isDead then .fatal "CHECK(!isDead()) failed: is already dead." w
    else
      match self.getGlobalTime with
      | none => .fatal "*getGlobalTime(): no global time" w
      | some now =>
        let self1 := { self with deathTime := some now, lastAttacker := attacker }
        match self1.getController with
        | none => .fatal "getController()->onKilled(attacker): no controller"
            (w.setCreature selfId self1)
        | some controller =>
          let self2 := self1.emit (.controllerOnKilled controller attacker)
          (w.setCreature selfId self2).dieWithAttackerRest L selfId self2 attacker drops

/-- Member function `Creature::dieNoReason(drops)`. -/
def World.dieNoReason (L : LastingEffects) (w : World) (selfId : UniqueId) (drops : DropType) :
    Outcome World :=
  w.dieWithAttacker L selfId none drops

/-- Member function `Creature::dieWithLastAttacker(drops)`. -/
def World.dieWithLastAttacker (L : LastingEffects) (w : World) (selfId : UniqueId)
    (drops : DropType) : Outcome World :=
  match w.creature selfId with
  | none => .fatal "reference to a creature that is not in the world" w
  | some self => w.dieWithAttacker L selfId self.lastAttacker drops

/-- Member function `Creature::dieWithReason(reason, drops)`. -/
def World.dieWithReason (L : LastingEffects) (w : World) (selfId : UniqueId) (reason : String)
    (drops : DropType) : Outcome World :=
  match w.creature selfId with
  | none => .fatal "reference to a creature that is not in the world" w
  | some self =>
    (w.setCreature selfId { self with deathReason := some reason }).dieNoReason L selfId drops

/-- The world and the dying creature at the point of `Creature::dieWithAttacker` where the
kill credit is given: the drops and the statistics are done.  The same statements as in
`World.dieWithAttackerRest`, named for the theorems. -/
def World.atKillCredit (w : World) (selfId : UniqueId) (self : Creature) (drops : DropType) :
    World × Creature :=
  let (dropped, self1) : List Item × Creature :=
    if drops = DropType.EVERYTHING ∨ drops = DropType.ONLY_INVENTORY then
      (self.equipment.removeAllItems.1, { self with equipment := self.equipment.removeAllItems.2 })
    else ([], self)
  let w1 := (w.setCreature selfId self1).dropItems self1.position dropped
  let (w2, self2) : World × Creature :=
    if drops = DropType.EVERYTHING then
      let w' := w1.dropItems self1.position self1.generateCorpse
      if self1.getBody.hasDeathSound then
        (w'.setCreature selfId (self1.emit .deathSound), self1.emit .deathSound)
      else (w', self1)
    else (w1, self1)
  let w3 := if self2.attributes.innocent then w2.emit (.statistics StatId.INNOCENT_KILLED) else w2
  (w3.emit (.statistics StatId.DEATH), self2)

/-- The end of `Creature::dieWithAttacker` from the kill credit on: credit to the attacker,
event, tribe and level notifications, terminal controller.  The same statements as in
`World.dieWithAttackerRest`, named for the theorems. -/
def World.finishDeath (L : LastingEffects) (w4 : World) (selfId : UniqueId) (self2 : Creature)
    (attacker : Option UniqueId) : Outcome World :=
  let credited : Outcome World :=
    match attacker with
    | some attackerId => w4.onKilled L attackerId selfId self2.lastDamageType
    | none => .done w4
  match credited with
  | .fatal m w5 => .fatal m w5
  | .done w5 =>
    let w6 := w5.emit (.creatureKilled selfId attacker)
    let w7 := w6.emit (.tribeOnMemberKilled self2.tribe selfId attacker)
    let w8 := w7.killCreature self2.position selfId
    match w8.creature selfId with
    | some self3 => .done (w8.setCreature selfId (self3.setController DoNothingController))
    | none => .fatal "reference to a creature that is not in the world" w8

/-- The statements of `Creature::dieWithAttacker` after the kill credit: event, tribe and
level notifications, terminal controller. -/
def World.afterCredit (w5 : World) (selfId : UniqueId) (self2 : Creature)
    (attacker : Option UniqueId) : Outcome World :=
  let w6 := w5.emit (.creatureKilled selfId attacker)
  let w7 := w6.emit (.tribeOnMemberKilled self2.tribe selfId attacker)
  let w8 := w7.killCreature self2.position selfId
  match w8.creature selfId with
  | some self3 => .done (w8.setCreature selfId (self3.setController DoNothingController))
  | none => .fatal "reference to a creature that is not in the world" w8

/-- The dying creature right after the guard of `Creature::dieWithAttacker`: death timestamp
and last attacker are set and the controller has been notified. -/
def Creature.deathMarked (self : Creature) (now : GlobalTime) (attacker : Option UniqueId)
    (controller : Controller) : Creature :=
  Creature.emit { self with deathTime := some now, lastAttacker := attacker }
    (.controllerOnKilled controller attacker)

/-- The items the specification has the death transition drop at the creature's position:
with EVERYTHING the equipment and the corpse, with ONLY_INVENTORY the equipment, with NOTHING
nothing. -/
def specDroppedItems (self : Creature) (drops : DropType) : List Item :=
  match drops with
  | .EVERYTHING => self.equipment.getItems ++ self.generateCorpse
  | .ONLY_INVENTORY => self.equipment.getItems
  | .NOTHING => []

/-- The equipment the specification leaves to the dead creature: untouched with NOTHING,
emptied otherwise. -/
def specEquipmentAfterDeath (self : Creature) (drops : DropType) : Equipment :=
  match drops with
  | .NOTHING => self.equipment
  | _ => ⟨[]⟩

/-- The corpse step of `Creature::dieWithAttacker` under the policy EVERYTHING, applied to
the world and the dying creature after the equipment has been dropped. -/
def World.corpseStage (selfId : UniqueId) (p : World × Creature) : World × Creature :=
  let w' := p.1.dropItems p.2.position p.2.generateCorpse
  if p.2.getBody.hasDeathSound then
    (w'.setCreature selfId (p.2.emit .deathSound), p.2.emit .deathSound)
  else (w', p.2)

/-- The statistics step of `Creature::dieWithAttacker`. -/
def World.statisticsStage (p : World × Creature) : World × Creature :=
  ((if p.2.attributes.innocent then p.1.emit (.statistics StatId.INNOCENT_KILLED)
    else p.1).emit (.statistics StatId.DEATH), p.2)

/-- The creature `id` is in the world and carries the death timestamp `t`. -/
def World.deathTimeIs (w : World) (id : UniqueId) (t : Option GlobalTime) : Prop :=
  ∃ c, w.creature id = some c ∧ c.deathTime = t

/-- The same creature seen when the game's global time has moved on to `time` (the clock
belongs to the game, not to the creature). -/
def Creature.atGlobalTime (c : Creature) (time : GlobalTime) : Creature :=
  { c with game := some ⟨time⟩ }

/-! ## Taking damage (creature.cpp) -/

/-- Modelled from the spec: `Attack` (attack.h): the attacker if any, the level, the attack
type, the strength, the attribute the damage is dealt with, and the triggered effect if
any. -/
structure Attack where
  attacker : Option UniqueId
  level : AttackLevel
  type : AttackType
  strength : Int
  damageType : AttrType
  effect : Option Effect

/-- Division of doubles, with the results of a division by (positive) zero. -/
def divDouble (a b : ℚ) : DoubleValue :=
  if b ≠ 0 then .finite (a / b)
  else if 0 < a then .posInf
  else if a < 0 then .negInf
  else .nan

/-- Function `getDamage(damageRatio)` at the value of a division: at an infinity or at
not-a-number the comparisons of the source are evaluated as for doubles (every comparison
with not-a-number is false). -/
def getDamageOfDouble : DoubleValue → ℚ
  | .finite q => getDamage q
  | .posInf => 1
  | .negInf => 0
  | .nan => 1

/-- Modelled from the spec: the collaborators of `Creature::takeDamage` outside creature.cpp:
visibility of a position, the stealth skill, the experience channel of a damage attribute,
the enumeration of all lasting effects, `LastingEffects::modifyCreatureDefense`, whether the
attributes have a sound for the attack, the body's damage application (whether the creature
died, and the creature afterwards), `Effect::applyToCreature` and
`LastingEffects::afterCreatureDamage`. -/
structure Combat where
  isVisibleBy : Position → Creature → Bool
  hasStealth : Creature → Bool
  getExperienceType : AttrType → Option ExperienceType
  allLastingEffects : List LastingEffect
  modifyCreatureDefense : LastingEffect → ℚ → AttrType → ℚ
  hasAttackSound : Creature → AttackType → Bool → Bool
  bodyTakeDamage : Creature → Attack → ℚ → Bool × Creature
  applyToCreature : Effect → Creature → Option UniqueId → Creature
  afterCreatureDamage : Creature → LastingEffect → Creature

/-- Member function `Creature::isFriend(c)`. -/
def Creature.isFriend (L : LastingEffects) (w : World) (self c : Creature) : Except String Bool :=
  notE (self.isEnemy L w c)

/-- Member function `Creature::canSeeInPosition(c)`. -/
def Creature.canSeeInPosition (L : LastingEffects) (w : World) (self c : Creature) :
    Except String Bool :=
  if !c.position.isSameLevel self.position then .ok false
  else
    andThen (.ok (!self.isAffected LastingEffect.BLIND))
    (andThen (orElse (.ok (!c.isAffected LastingEffect.INVISIBLE)) (self.isFriend L w c))
    (.ok (!c.hidden || c.knownHiding.contains self.id)))

/-- Member function `Creature::canSee(c)` for a creature `c`. -/
def Creature.canSee (S : Combat) (L : LastingEffects) (w : World) (self c : Creature) :
    Except String Bool :=
  andThen (self.canSeeInPosition L w c) (.ok (S.isVisibleBy c.position self))

/-- Member function `Creature::onAttackedBy(attacker)`. -/
def Creature.onAttackedBy (S : Combat) (L : LastingEffects) (w : World)
    (self attacker : Creature) : Outcome Creature :=
  match self.canSee S L w attacker with
  | .error e => .fatal e self
  | .ok sees =>
    let self1 :=
      if !sees then { self with unknownAttackers := self.unknownAttackers.insert attacker.id }
      else self
    let self2 :=
      if attacker.tribe ≠ self1.tribe then
        { self1 with privateEnemies := self1.privateEnemies.insert attacker.id }
      else self1
    .done { self2 with lastAttacker := some attacker.id }

/-- The loop of `Creature::takeDamage` over the visible creatures: every living creature
standing on one of the positions within 8-distance 10 has its sleep removed (with the
default message flag). -/
def World.wakeVisible (w : World) (position : Position) : List Position → Outcome World
  | [] => .done w
  | p :: rest =>
    if p.dist8 position < 10 then
      match w.occupant p with
      | some id =>
        match w.creature id with
        | some c =>
          if !c.isDead then
            match c.removeEffect LastingEffect.SLEEP true with
            | .fatal msg c1 => .fatal msg (w.setCreature id c1)
            | .done c1 => (w.setCreature id c1).wakeVisible position rest
          else w.wakeVisible position rest
        | none => w.wakeVisible position rest
      | none => w.wakeVisible position rest
    else w.wakeVisible position rest

/-- The first block of `Creature::takeDamage(attack)`, run when the attack has an attacker:
the bookkeeping of the attacker, waking the creatures in view unless the attacker is
stealthy, and the record of the damage type. -/
def World.takeDamagePrelude (S : Combat) (L : LastingEffects) (w : World) (selfId : UniqueId)
    (attack : Attack) : Outcome World :=
  match attack.attacker with
  | none => .done w
  | some attackerId =>
    match w.creature selfId with
    | none => .fatal "reference to a creature that is not in the world" w
    | some self =>
      match w.creature attackerId with
      | none => .fatal "reference to a creature that is not in the world" w
      | some attacker =>
        match self.onAttackedBy S L w attacker with
        | .fatal msg self1 => .fatal msg (w.setCreature selfId self1)
        | .done self1 =>
          let w1 := w.setCreature selfId self1
          let woken :=
            if !S.hasStealth attacker then w1.wakeVisible self1.position self1.visibleCreatures
            else .done w1
          match woken with
          | .fatal msg w2 => .fatal msg w2
          | .done w2 =>
            match w2.creature selfId with
            | none => .fatal "reference to a creature that is not in the world" w2
            | some self2 =>
              .done (w2.setCreature selfId
                { self2 with lastDamageType := S.getExperienceType attack.damageType })

/-- The defense computed by `Creature::takeDamage`: the DEFENSE attribute, passed through
`modifyCreatureDefense` for every lasting effect that affects the creature. -/
def Creature.defenseAgainst (S : Combat) (L : LastingEffects) (self : Creature)
    (attack : Attack) : ℚ :=
  S.allLastingEffects.foldl
    (fun defense effect =>
      if self.isAffected effect then S.modifyCreatureDefense effect defense attack.damageType
      else defense)
    (self.getAttr L AttrType.DEFENSE : ℚ)

/-- The local `damage` of `Creature::takeDamage`: `getDamage((double) attack.strength / defense)`. -/
def Creature.damageFraction (S : Combat) (L : LastingEffects) (self : Creature)
    (attack : Attack) : ℚ :=
  getDamageOfDouble (divDouble (attack.strength : ℚ) (self.defenseAgainst S L attack))

/-- What a call of `takeDamage` leaves behind: the world, the calls made to the
collaborators (sound, body, message, triggered effect, after-damage hooks) in order, and the
value returned (meaningful when the call ran to completion). -/
structure DamageRun where
  world : World
  calls : List Event
  result : Bool

/-- The last loop of `Creature::takeDamage`: `afterCreatureDamage` for every lasting effect
that affects the creature when its turn comes. -/
def Creature.afterDamageLoop (S : Combat) (self : Creature) (calls : List Event) :
    List LastingEffect → Creature × List Event
  | [] => (self, calls)
  | effect :: rest =>
    if self.isAffected effect then
      Creature.afterDamageLoop S (S.afterCreatureDamage self effect)
        (calls ++ [Event.afterCreatureDamage effect]) rest
    else Creature.afterDamageLoop S self calls rest

/-- The end of `Creature::takeDamage`, from `if (attack.effect)` on: the triggered effect,
the after-damage hooks, and `return false`. -/
def World.takeDamageTail (S : Combat) (w : World) (selfId : UniqueId) (self : Creature)
    (attack : Attack) (calls : List Event) : DamageRun :=
  let applied : Creature × List Event :=
    match attack.effect with
    | some effect =>
      (S.applyToCreature effect self attack.attacker,
        calls ++ [Event.effectApplied effect attack.attacker])
    | none => (self, calls)
  let looped := applied.1.afterDamageLoop S applied.2 S.allLastingEffects
  ⟨w.setCreature selfId looped.1, looped.2, false⟩

/-- The call `addSound(*sound)` guarded by `getAttackSound` in `Creature::takeDamage`; the
game is dereferenced to play a sound. -/
def Creature.attackSoundCalls (S : Combat) (self : Creature) (attack : Attack) (damage : ℚ) :
    Except String (List Event) :=
  if S.hasAttackSound self attack.type (decide (damage > 0)) then
    match self.game with
    | some _ => .ok [Event.attackSound]
    | none => .error "getGame()->getView(): no game"
  else .ok []

/-- The body of `Creature::takeDamage(attack)` after the attacker block, on the creature
`self` registered as `selfId`. -/
def World.takeDamageCore (S : Combat) (L : LastingEffects) (w : World) (selfId : UniqueId)
    (self : Creature) (attack : Attack) : Outcome DamageRun :=
  let damage := self.damageFraction S L attack
  match self.attackSoundCalls S attack damage with
  | .error e => .fatal e ⟨w, [], false⟩
  | .ok calls =>
    if damage > 0 then
      let r := S.bodyTakeDamage self attack damage
      if r.1 then
        .done ⟨w.setCreature selfId r.2, calls ++ [Event.bodyTakeDamage damage], true⟩
      else .done (w.takeDamageTail S selfId r.2 attack (calls ++ [Event.bodyTakeDamage damage]))
    else
      match self.getController with
      | none => .fatal "getController()->getMessageGenerator(): no controller" ⟨w, calls, false⟩
      | some _ => .done (w.takeDamageTail S selfId self attack (calls ++ [Event.getHitNoDamage]))

/-- Member function `Creature::takeDamage(attack)`, called on the creature `selfId`. -/
def World.takeDamage (S : Combat) (L : LastingEffects) (w : World) (selfId : UniqueId)
    (attack : Attack) : Outcome DamageRun :=
  match w.takeDamagePrelude S L selfId attack with
  | .fatal msg w1 => .fatal msg ⟨w1, [], false⟩
  | .done w1 =>
    match w1.creature selfId with
    | none => .fatal "reference to a creature that is not in the world" ⟨w1, [], false⟩
    | some self => w1.takeDamageCore S L selfId self attack

/-- Whether a recorded call is the body's damage application. -/
def Event.isBodyDamage : Event → Bool
  | .bodyTakeDamage _ => true
  | _ => false

/-- Whether a recorded call is the application of a triggered effect. -/
def Event.isEffectApplied : Event → Bool
  | .effectApplied _ _ => true
  | _ => false

/-! ## Attribute value, morale, gold (creature.cpp) -/

/-- The value `v` of an attribute in the words of the specification: the body's modification
of the raw attribute, plus the modifier of every equipped item except an equipped weapon's
modifier for its own melee attack attribute, and the lasting-effect modifiers applied to
that sum. -/
def specAttrValue (L : LastingEffects) (c : Creature) (type : AttrType) : ℚ :=
  L.modifyAttr c type
    (c.getBody.modifyAttr type (c.attributes.rawAttr type) +
      ((c.equipment.getAllEquipped.filter fun item =>
          !(item.itemClass == ItemClass.WEAPON && type == item.meleeAttackAttr)).map
        fun item => (item.getModifier type : ℚ)).sum)

/-- Member function `Creature::getMorale`; `LastingEffects::getMoraleIncrease`, which is
outside creature.cpp, is the parameter `getMoraleIncrease`. -/
def Creature.getMorale (getMoraleIncrease : Creature → ℚ) (c : Creature) : ℚ :=
  min 1 (max (-1) (c.morale + getMoraleIncrease c))

/-- Member function `Creature::addMorale(val)`. -/
def Creature.addMorale (c : Creature) (val : ℚ) : Creature :=
  { c with morale := min 1 (max (-1) (c.morale + val)) }

/-- A run of calls of `getDifficultyPoints`, each made after a change of the creature and
under its own lasting-effect modifiers: the values returned, in order, and the creature
afterwards. -/
def difficultyRun : Creature → List (LastingEffects × (Creature → Creature)) → List Int × Creature
  | c, [] => ([], c)
  | c, step :: steps =>
    let r := (step.2 c).getDifficultyPoints step.1
    let rest := difficultyRun r.2 steps
    (r.1 :: rest.1, rest.2)

/-- The conversion of an `int` to `size_t` (64 bits) made by a comparison of the two. -/
def toSizeT (n : Int) : Int := n % 2 ^ 64

/-- The loop of `Creature::getGold(num)` over the gold items, with the vector `ret`
collected so far. -/
def getGoldLoop (num : Int) : List Item → List Item → List Item
  | [], ret => ret
  | item :: rest, ret =>
    let ret1 := ret ++ [item]
    if (ret1.length : Int) = toSizeT num then ret1 else getGoldLoop num rest ret1

/-- The gold items of the equipment: `equipment->getItems(predicate)` for the predicate
"is of class GOLD". -/
def Creature.goldItems (c : Creature) : List Item :=
  c.equipment.getItems.filter fun it => it.itemClass == ItemClass.GOLD

/-- Member function `Creature::getGold(num)`. -/
def Creature.getGold (c : Creature) (num : Int) : List Item :=
  getGoldLoop num c.goldItems []

/-- Member function `Creature::popController`. -/
def Creature.popController (c : Creature) : Creature :=
  if !c.controllerStack.isEmpty then
    match c.getController with
    | some controller =>
      let c1 := c.emit (.onEndedControl controller)
      let c2 := { c1 with controllerStack := c1.controllerStack.dropLast }
      match c2.getController with
      | some controller2 => c2.emit (.onStartedControl controller2)
      | none => c2
    | none => c
  else c

/-! ## Throwing an item (creature.cpp) -/

/-- The local `dist` of `Creature::throwItem` for a weight that passed the test
`getWeight() > 20`: the throw distance by weight class, computed in `int` with the strength
20, or the fatal error of the last branch. -/
def throwDistance (weight : DoubleValue) : Except String Int :=
  let str : Int := 20
  if weight.le 0.5 then .ok (Int.tdiv (10 * str) 15)
  else if weight.le 5 then .ok (Int.tdiv (5 * str) 15)
  else if weight.le 20 then .ok (Int.tdiv (2 * str) 15)
  else .error "Item too heavy."

/-- Member function `Creature::throwItem(item, direction)`, the validation phase. -/
def Creature.throwItem (L : LastingEffects) (self : Creature) (item : Item) (direction : Vec2) :
    Except String CreatureAction :=
  if self.getBody.numGood BodyPart.ARM = 0 ∨ !self.getBody.isHumanoid then
    .ok (.invalid (some "You can't throw anything!"))
  else if item.weight.gt 20 then .ok (.invalid (some (item.theName ++ " is too heavy!")))
  else
    match throwDistance item.weight with
    | .error e => .error e
    | .ok dist =>
      let damage :=
        self.getAttr L AttrType.RANGED_DAMAGE + item.getModifier AttrType.RANGED_DAMAGE
      .ok (.valid self.id (.throwItem item direction dist damage))

/-! ## Time cost of an action (creature.cpp) -/

/-- Modelled from the spec: `LocalTime` (game_time.h), a timestamp of a model's clock, in
visible time units. -/
abbrev LocalTime := Int

/-- Modelled from the spec: `MovementInfo` (movement_info.h): the direction, the begin and
the end of the movement interval (doubles, in visible time units), the move counter and
whether the movement is an attack. -/
structure MovementInfo where
  direction : Vec2
  tBegin : ℚ
  tEnd : ℚ
  moveCounter : Int
  isAttack : Bool
  deriving DecidableEq

/-- A call to the time queue of a model. -/
inductive TimeQueueCall where
  | makeExtraMove (creature : UniqueId)
  | increaseTime (creature : UniqueId) (interval : TimeInterval)
  deriving DecidableEq, Repr

/-- Modelled from the spec: `TimeQueue` (time_queue.h), the external scheduler: whether a
creature has an extra move pending, and the calls received; how a call reschedules the
creature is the queue's business. -/
structure TimeQueue where
  hasExtraMove : UniqueId → Bool
  calls : List TimeQueueCall

/-- Record a call to the time queue. -/
def TimeQueue.record (q : TimeQueue) (call : TimeQueueCall) : TimeQueue :=
  { q with calls := q.calls ++ [call] }

/-- Modelled from the spec: `Model` (model.h) by what `spendTime` uses: the local time, the
move counter and the time queue. -/
structure Model where
  localTime : LocalTime
  moveCounter : Int
  timeQueue : TimeQueue

/-- The branch of `Creature::spendTime` for a living creature: the movement info and the
time queue after it. -/
def Creature.spendTimeAlive (self : Creature) (m : Model) (ret : MovementInfo)
    (t : TimeInterval) : MovementInfo × TimeQueue :=
  if self.isAffected LastingEffect.SPEED && t == 1 then
    let ret1 :=
      if m.timeQueue.hasExtraMove self.id then { ret with tBegin := ret.tBegin + 0.5 }
      else { ret with tEnd := ret.tEnd - 0.5 }
    (ret1, m.timeQueue.record (.makeExtraMove self.id))
  else
    let t1 := if self.isAffected LastingEffect.SPEED then t - 1 else t
    let t2 := if self.isAffected LastingEffect.SLOWED then t1 * 2 else t1
    (ret, m.timeQueue.record (.increaseTime self.id t2))

/-- Member function `Creature::spendTime(t)`; `model` is the model the creature's position
belongs to, if any. Returns the movement info, the creature and the model afterwards. -/
def Creature.spendTime (self : Creature) (model : Option Model) (t : TimeInterval) :
    Option MovementInfo × Creature × Option Model :=
  match model with
  | some m =>
    let ret : MovementInfo := ⟨⟨0, 0⟩, m.localTime, m.localTime + t, m.moveCounter, false⟩
    let self1 := { self with lastMoveCounter := m.moveCounter }
    let r := if !self1.isDead then self1.spendTimeAlive m ret t else (ret, m.timeQueue)
    (some r.1, { self1 with hidden := false },
      some { m with timeQueue := r.2, moveCounter := m.moveCounter + 1 })
  | none => (none, self, none)

/-! ## The per-tick update (creature.cpp) -/

/-- A call made by `Creature::tick` to a collaborator, in the order of the source. -/
inductive TickCall where
  | visionUpdate
  | itemTick (item : Nat)
  | removeItem (item : Nat)
  | considerTimeout (effect : LastingEffect)
  | onTimedOut (effect : LastingEffect)
  | effectTick (effect : LastingEffect)
  | updateViewObject
  | bodyTick
  | dieWithAttacker (attacker : Option UniqueId)
  deriving DecidableEq, Repr

/-- Modelled from the spec: `Equipment::removeItem(item, creature)`: the item leaves the
equipment. -/
def Equipment.removeItem (e : Equipment) (item : Item) : Equipment :=
  ⟨e.entries.filter fun p => p.1.id != item.id⟩

/-- Whether a recorded call of `tick` is the timeout check of an effect kind. -/
def TickCall.isConsiderTimeout : TickCall → Bool
  | .considerTimeout _ => true
  | _ => false

/-- The structs of namespace `Effects` named in `EFFECT_TYPES_LIST`. -/
inductive EffectStruct where
  | Escape | Teleport | Heal | Fire | Ice | DestroyEquipment | Enhance | Suicide | IncreaseAttr
  | EmitPoisonGas | CircularBlast | Deception | Summon | SummonElement | Acid | Alarm
  | TeleEnemies | SilverDamage | DoubleTrouble | Lasting | RemoveLasting | Permanent
  | RemovePermanent | PlaceFurniture | Damage | InjureBodyPart | LoseBodyPart | RegrowBodyPart
  | AddBodyPart | DestroyWalls | Area | CustomArea | ReviveCorpse | Blast | Pull | Shove
  | SwapPosition | Filter | SummonEnemy | Wish | Chain | ChooseRandom | Caster | IncreaseMorale
  | Message | Chance | AssembledMinion | TriggerTrap | AnimateItems | MakeHumanoid
  | GrantAbility | CreatureMessage | SoundEffect | DropItems
  deriving DecidableEq, Repr

/-- The macro `EFFECT_TYPES_LIST`: the entries `X(Type, Index)` in the order of the source. -/
def EFFECT_TYPES_LIST : List (EffectStruct × Int) :=
  [(.Escape, 0), (.Teleport, 1), (.Heal, 2), (.Fire, 3), (.Ice, 4), (.DestroyEquipment, 5),
   (.Enhance, 6), (.Suicide, 7), (.IncreaseAttr, 8), (.EmitPoisonGas, 9), (.CircularBlast, 10),
   (.Deception, 11), (.Summon, 12), (.SummonElement, 13), (.Acid, 14), (.Alarm, 15),
   (.TeleEnemies, 16), (.SilverDamage, 17), (.DoubleTrouble, 18), (.Lasting, 19),
   (.RemoveLasting, 20), (.Permanent, 21), (.RemovePermanent, 22), (.PlaceFurniture, 23),
   (.Damage, 24), (.InjureBodyPart, 25), (.LoseBodyPart, 26), (.RegrowBodyPart, 27),
   (.AddBodyPart, 28), (.DestroyWalls, 29), (.Area, 30), (.CustomArea, 31), (.ReviveCorpse, 32),
   (.Blast, 33), (.Pull, 34), (.Shove, 35), (.SwapPosition, 36), (.Filter, 37),
   (.SummonEnemy, 38), (.Wish, 39), (.Chain, 40), (.ChooseRandom, 41), (.Caster, 42),
   (.IncreaseMorale, 43), (.Message, 44), (.Chance, 45), (.AssembledMinion, 46),
   (.TriggerTrap, 47), (.AnimateItems, 48), (.MakeHumanoid, 49), (.GrantAbility, 50),
   (.CreatureMessage, 51), (.SoundEffect, 52), (.DropItems, 53)]

/-- A value of one of the structs: its type and the content of its data members. -/
structure EffectValue where
  type : EffectStruct
  fields : Nat
  deriving DecidableEq, Repr

/-- What can go wrong with an `EffectType`: the fatal `fail()` of a `default:` branch, a read
of a union member that holds no object, or a construction from a type for which the macro
generates no constructor (rejected at compile time). -/
inductive EffectFault where
  | fail
  | inactiveMember
  | noConstructor
  deriving DecidableEq, Repr

/-- The struct `Effects::EffectType`: the tag `index`, and the anonymous union, of which the
member `elem<member>` holds the object `elem`. -/
structure EffectType where
  index : Int
  member : Int
  elem : EffectValue
  deriving DecidableEq, Repr

/-- The `case Index:` of a `switch (index)` generated from the macro: the entry whose index
is the value switched on; none stands for the `default:` branch. -/
def caseOf (index : Int) : Option (EffectStruct × Int) :=
  EFFECT_TYPES_LIST.find? fun p => p.2 == index

/-- The member generated by the macro for the type `type` (a constructor, a specialisation of
`getValueMaybe`): the entry of that type, if there is one. -/
def overloadOf (type : EffectStruct) : Option (EffectStruct × Int) :=
  EFFECT_TYPES_LIST.find? fun p => p.1 == type

/-- The default constructor `EffectType() : index(0), elem0(Escape{})`. -/
def EffectType.default : EffectType := ⟨0, 0, ⟨EffectStruct.Escape, 0⟩⟩

/-- The constructors `EffectType(Type&& t)` and `EffectType(const Type& t)`:
`index(Index), elem##Index(t)`. -/
def EffectType.ofValue (t : EffectValue) : Except EffectFault EffectType :=
  match overloadOf t.type with
  | some (_, index) => .ok ⟨index, index, t⟩
  | none => .error EffectFault.noConstructor

/-- A read of the union member `elem##Index`. -/
def EffectType.readElem (e : EffectType) (index : Int) : Except EffectFault EffectValue :=
  if e.member = index then .ok e.elem else .error EffectFault.inactiveMember

/-- The member function `visit`: the handler, overloaded on the struct types, is applied to
the union member selected by the tag. -/
def EffectType.visit {β : Type} (e : EffectType) (f : EffectStruct → EffectValue → β) :
    Except EffectFault β :=
  match caseOf e.index with
  | some (type, index) =>
    match e.readElem index with
    | .ok v => .ok (f type v)
    | .error x => .error x
  | none => .error EffectFault.fail

/-- The copy constructor `EffectType(const EffectType& t)`. -/
def EffectType.copy (t : EffectType) : Except EffectFault EffectType :=
  match caseOf t.index with
  | some (_, index) =>
    match t.readElem index with
    | .ok v => .ok ⟨t.index, index, v⟩
    | .error x => .error x
  | none => .error EffectFault.fail

/-- The move constructor `EffectType(EffectType&& t)`: the new object holds the value moved
out of the member of `t` selected by the tag of `t`. -/
def EffectType.moveFrom (t : EffectType) : Except EffectFault EffectType :=
  match caseOf t.index with
  | some (_, index) =>
    match t.readElem index with
    | .ok v => .ok ⟨t.index, index, v⟩
    | .error x => .error x
  | none => .error EffectFault.fail

/-- The destructor `~EffectType()`. -/
def EffectType.destroy (e : EffectType) : Except EffectFault Unit :=
  match caseOf e.index with
  | some (_, index) =>
    match e.readElem index with
    | .ok _ => .ok ()
    | .error x => .error x
  | none => .error EffectFault.fail

/-- The copy assignment `operator = (const EffectType& t)`. -/
def EffectType.assign (self t : EffectType) : Except EffectFault EffectType :=
  if self.index = t.index then
    match caseOf self.index with
    | some (_, index) =>
      match self.readElem index, t.readElem index with
      | .ok _, .ok v => .ok { self with elem := v }
      | .error x, _ => .error x
      | _, .error x => .error x
    | none => .error EffectFault.fail
  else
    match self.destroy with
    | .ok _ => t.copy
    | .error x => .error x

/-- The move assignment `operator = (EffectType&& t)`. -/
def EffectType.moveAssign (self t : EffectType) : Except EffectFault EffectType :=
  if self.index = t.index then
    match caseOf self.index with
    | some (_, index) =>
      match self.readElem index, t.readElem index with
      | .ok _, .ok v => .ok { self with elem := v }
      | .error x, _ => .error x
      | _, .error x => .error x
    | none => .error EffectFault.fail
  else
    match self.destroy with
    | .ok _ => t.moveFrom
    | .error x => .error x

/-- The member function `getValueMaybe<T>` for a struct type `T`: the specialisation
generated for a listed type tests the tag; the primary template returns none. -/
def EffectType.getValueMaybe (T : EffectStruct) (e : EffectType) :
    Except EffectFault (Option EffectValue) :=
  match overloadOf T with
  | some (_, index) =>
    if e.index = index then
      match e.readElem index with
      | .ok v => .ok (some v)
      | .error x => .error x
    else .ok none
  | none => .ok none

/-- The ways an `EffectType` value is obtained: by the default constructor, from a value of
a struct, by copy or move construction, or by copy or move assignment to an existing
value. -/
inductive EffectBuild where
  | default
  | ofValue (t : EffectValue)
  | copy (b : EffectBuild)
  | move (b : EffectBuild)
  | assign (dst src : EffectBuild)
  | moveAssign (dst src : EffectBuild)

/-- The `EffectType` value obtained in the given way, or the fault met on the way. -/
def EffectBuild.eval : EffectBuild → Except EffectFault EffectType
  | .default => .ok EffectType.default
  | .ofValue t => EffectType.ofValue t
  | .copy b =>
    match b.eval with
    | .ok e => e.copy
    | .error x => .error x
  | .move b =>
    match b.eval with
    | .ok e => e.moveFrom
    | .error x => .error x
  | .assign dst src =>
    match dst.eval, src.eval with
    | .ok d, .ok s => d.assign s
    | .error x, _ => .error x
    | _, .error x => .error x
  | .moveAssign dst src =>
    match dst.eval, src.eval with
    | .ok d, .ok s => d.moveAssign s
    | .error x, _ => .error x
    | _, .error x => .error x

/-- The struct value an `EffectType` value was built from. -/
def EffectBuild.source : EffectBuild → EffectValue
  | .default => ⟨EffectStruct.Escape, 0⟩
  | .ofValue t => t
  | .copy b => b.source
  | .move b => b.source
  | .assign _ src => src.source
  | .moveAssign _ src => src.source

/-- The tag of the `EffectType` value `e` identifies the struct value `v` it stores: the
union member selected by the tag is the one that holds an object, that object is `v`, and
the entry of the tag is the entry of the type of `v`. -/
def EffectType.holds (e : EffectType) (v : EffectValue) : Prop :=
  e.member = e.index ∧ e.elem = v ∧ caseOf e.index = some (v.type, e.index)

/-! ## Concrete states used to instantiate the theorems -/

/-- A body without immunities that leaves attributes alone and has no intrinsic attack. -/
def sampleBody : Body :=
  { isImmuneTo := fun _ => false, modifyAttr := fun _ v => v, chooseWeapon := fun w => w,
    getCorpseItems := [], hasDeathSound := false, numGood := fun _ => 2, isHumanoid := true }

/-- Attributes with an empty ledger: every expiry lies in the past, no permanent effect. -/
def sampleAttributes : CreatureAttributes :=
  { body := sampleBody, lastingEffects := fun _ => -500, permanentEffects := fun _ => 0,
    rawAttr := fun _ => 10, expLevel := fun _ => 0, innocent := false, boulder := false }

/-- A living creature with the given identity, position and game, one controller and
nothing else. -/
def sampleCreature (id : UniqueId) (pos : Position) (game : Option Game) : Creature :=
  { id := id, attributes := sampleAttributes, position := pos, equipment := ⟨[]⟩, tribe := 0,
    game := game, deathTime := none, deathReason := none, lastAttacker := none,
    lastDamageType := none, holding := none, swapPositionCooldown := 0,
    controllerStack := [⟨1, false⟩], privateEnemies := [], kills := [], points := 0,
    difficultyPoints := 0, highestAttackValueEver := 0, log := [], shortestPath := none,
    unknownAttackers := [], visibleCreatures := [], hidden := false, knownHiding := [],
    morale := 0, lastMoveCounter := 0 }

/-- A LastingEffects module whose gate lets every effect through and which modifies
nothing. -/
def sampleEffects : LastingEffects :=
  { affects := fun _ _ => true, modifyAttr := fun _ _ v => v,
    modifyIsEnemyResult := fun _ _ r => r, getCausingCondition := fun _ => [] }

/-- The sample creature at global time 10 with the expiry of `effect` set to `expiry` and
its permanent count set to `count`. -/
def ledgerCreature (effect : LastingEffect) (expiry : GlobalTime) (count : Int) : Creature :=
  let c := sampleCreature 1 ⟨0, ⟨0, 0⟩⟩ (some ⟨10⟩)
  { c with attributes :=
      { c.attributes with
        lastingEffects := Function.update c.attributes.lastingEffects effect expiry,
        permanentEffects := Function.update c.attributes.permanentEffects effect count } }

/-- A weapon item. -/
def sampleSword : Item :=
  { id := 7, itemClass := ItemClass.WEAPON, meleeAttackAttr := AttrType.DAMAGE,
    getModifier := fun _ => 3, weight := .finite 4, theName := "the sword" }

/-- The sample creature 1 at the origin of level 0, at global time 10. -/
def sampleSelf : Creature := sampleCreature 1 ⟨0, ⟨0, 0⟩⟩ (some ⟨10⟩)

/-- A second creature, of another tribe, diagonally adjacent to `sampleSelf`. -/
def sampleOther : Creature :=
  { sampleCreature 2 ⟨0, ⟨1, 1⟩⟩ (some ⟨10⟩) with tribe := 1 }

/-- A world holding `sampleSelf` and `sampleOther` on their squares, in which a creature can
be moved only onto a free square and creatures of different tribes are enemies. -/
def sampleWorld : World :=
  { creature := fun id => if id = 1 then some sampleSelf else if id = 2 then some sampleOther
      else none,
    occupant := fun pos => if pos = sampleSelf.position then some 1
      else if pos = sampleOther.position then some 2 else none,
    canMoveCreature := fun pos dir =>
      !(pos.plus dir == sampleSelf.position || pos.plus dir == sampleOther.position),
    canEnterEmpty := fun _ _ => true,
    tribeIsEnemy := fun tribe c => tribe != c.tribe,
    items := fun _ => [],
    log := [] }

/-- The hook calls the specification allows for one ledger operation on `effect`, given
the value of isAffected before (`was`) and after (`is`) the call: "became affected" iff the
predicate flips false→true, "became unaffected" iff it flips true→false. -/
def specTransitionHooks (effect : LastingEffect) (msg was is : Bool) : List Event :=
  (if !was && is then [Event.onAffected effect msg] else []) ++
  (if was && !is then [Event.onRemoved effect msg] else [])

/-- A LastingEffects module whose global gate lets no effect through. -/
def blockingEffects : LastingEffects :=
  { affects := fun _ _ => false, modifyAttr := fun _ _ v => v,
    modifyIsEnemyResult := fun _ _ r => r, getCausingCondition := fun _ => [] }

/-- The sample creature at global time 10, with an empty ledger and a body that is immune to
every effect kind. -/
def immuneCreature : Creature :=
  let c := sampleCreature 1 ⟨0, ⟨0, 0⟩⟩ (some ⟨10⟩)
  { c with attributes :=
      { c.attributes with body := { c.attributes.body with isImmuneTo := fun _ => true } } }

/-- A gold item. -/
def sampleGold : Item :=
  { id := 8, itemClass := ItemClass.GOLD, meleeAttackAttr := AttrType.DAMAGE,
    getModifier := fun _ => 0, weight := .finite (1 / 100), theName := "the gold coin" }

/-- A corpse item. -/
def sampleCorpse : Item :=
  { id := 9, itemClass := ItemClass.other 0, meleeAttackAttr := AttrType.DAMAGE,
    getModifier := fun _ => 0, weight := .finite 50, theName := "the corpse" }

/-- The creature `sampleOther` carrying an equipped sword and a gold item, with a body that
leaves a corpse and has a death sound. -/
def armedVictim : Creature :=
  { sampleOther with
    equipment := ⟨[(sampleSword, some EquipmentSlot.WEAPON), (sampleGold, none)]⟩,
    attributes := { sampleAttributes with
      body := { sampleBody with getCorpseItems := [sampleCorpse], hasDeathSound := true } } }

/-- The sample world with `armedVictim` in the place of `sampleOther`. -/
def armedWorld : World :=
  { sampleWorld with
    creature := fun id => if id = 1 then some sampleSelf else if id = 2 then some armedVictim
      else none }

/-- A third creature, of the tribe of `sampleSelf` and orthogonally adjacent to it. -/
def sampleFriend : Creature := sampleCreature 3 ⟨0, ⟨0, 1⟩⟩ (some ⟨10⟩)

/-- The creature `sampleSelf` with a boulder body. -/
def boulderSelf : Creature :=
  { sampleSelf with attributes := { sampleAttributes with boulder := true } }

/-- A LastingEffects module in which ENTANGLED and TIED_UP cause the condition
RESTRICTED_MOVEMENT. -/
def restrictingEffects : LastingEffects :=
  { affects := fun _ _ => true, modifyAttr := fun _ _ v => v,
    modifyIsEnemyResult := fun _ _ r => r,
    getCausingCondition := fun condition =>
      if condition = CreatureCondition.RESTRICTED_MOVEMENT then
        [LastingEffect.ENTANGLED, LastingEffect.TIED_UP]
      else [] }

/-- The creature `sampleSelf` entangled until time 100. -/
def entangledSelf : Creature := ledgerCreature LastingEffect.ENTANGLED 100 0

/-- Collaborators of `takeDamage` for the sample world: everything is visible, nobody is
stealthy, defense is not modified, every attack has a sound, the body reports death exactly
when the damage is 1, and the triggered effect and the hooks leave the creature as it is. -/
def sampleCombat : Combat :=
  { isVisibleBy := fun _ _ => true,
    hasStealth := fun _ => false,
    getExperienceType := fun _ => some ExperienceType.MELEE,
    allLastingEffects := [LastingEffect.BLIND, LastingEffect.SLEEP, LastingEffect.INVISIBLE],
    modifyCreatureDefense := fun _ defense _ => defense,
    hasAttackSound := fun _ _ _ => true,
    bodyTakeDamage := fun c _ damage => (decide (1 ≤ damage), c),
    applyToCreature := fun _ c _ => c,
    afterCreatureDamage := fun c _ => c }

/-- An attack by `sampleOther` of the given strength that carries the triggered effect 7. -/
def sampleAttack (strength : Int) : Attack :=
  { attacker := some 2, level := AttackLevel.MIDDLE, type := ⟨0⟩, strength := strength,
    damageType := AttrType.DAMAGE, effect := some ⟨7⟩ }

/-- The sample creature after the attacker block of an attack by `sampleOther`. -/
def attackedSelf : Creature :=
  { sampleSelf with privateEnemies := [2], lastAttacker := some 2, lastDamageType := some ExperienceType.MELEE }

/-- A navigation service on an open map: all positions are connected, every path is
reachable and leads one tile east, the path is reversed iff a bias was given. -/
def sampleNavigation : Navigation :=
  { isConnectedTo := fun _ _ _ => true,
    levelShortestPath := fun _ target _ mult =>
      ⟨target, mult.isSome, fun _ => true, fun p => p.plus ⟨1, 0⟩⟩,
    getBestDestroyAction := fun _ _ => none,
    getFurniture := fun _ => none }

/-- The creature after calling `moveTowards` (towards, obstructions may be destroyed) on the
successive targets of a list, in the sample world. -/
def chase (self : Creature) : List Position → Creature
  | [] => self
  | pos :: rest =>
    chase (self.moveTowards sampleEffects sampleNavigation sampleWorld pos false ⟨false, true⟩).2
      rest

/-- The sample creature holding a cached path towards `target`. -/
def pathedSelf (target : Position) : Creature :=
  { sampleSelf with shortestPath := some (sampleNavigation.levelShortestPath sampleSelf target sampleSelf.position none) }

/-- The sample creature carrying three gold items and a sword. -/
def richSelf : Creature :=
  { sampleSelf with equipment := ⟨[(sampleGold, none), (sampleSword, some EquipmentSlot.WEAPON), ({ sampleGold with id := 18 }, none), ({ sampleGold with id := 28 }, none)]⟩ }

/-- A change of the creature that lowers its raw attributes to 1 and leaves the cache of the
difficulty points alone. -/
def weaken (c : Creature) : Creature :=
  { c with attributes := { c.attributes with rawAttr := fun _ => 1 } }

/-- A model at local time 7 whose time queue has an extra move pending for nobody. -/
def sampleModel : Model := ⟨7, 3, ⟨fun _ => false, []⟩⟩

/-- The sample creature under the SPEED effect. -/
def speedySelf : Creature := ledgerCreature LastingEffect.SPEED 100 0

/-- The creature `richSelf` with every raw attribute at the largest `int`: with the equipped
sword's modifier the value of an attribute other than the sword's own exceeds the `int`
range. -/
def hugeSelf : Creature :=
  { richSelf with attributes := { richSelf.attributes with rawAttr := fun _ => 2147483647 } }

/-- The sample creature with every raw attribute at 10^9, so that the sum of three attributes
exceeds the `int` range. -/
def strongSelf : Creature :=
  { sampleSelf with attributes := { sampleSelf.attributes with rawAttr := fun _ => 1000000000 } }

/-- An item whose weight is not a number. -/
def nanItem : Item := { sampleSword with weight := DoubleValue.nan }

/-! # Theorems -/

/-! ### Helper lemmas for the damage fraction -/

lemma getDamage_of_le_min {r : ℚ} (h : r ≤ 0.6) : getDamage r = 0 := by
  unfold getDamage minRatio
  rw [if_pos h]

lemma getDamage_of_mid {r : ℚ} (h0 : 0.6 < r) (h1 : r ≤ 1) :
    getDamage r = (3 / 10) * (r - 3 / 5) := by
  unfold getDamage minRatio maxRatio damageAtOne
  rw [if_neg (not_le.mpr h0), if_pos h1]
  norm_num
  ring

lemma getDamage_of_high {r : ℚ} (h1 : 1 < r) (h2 : r ≤ 2.2) :
    getDamage r = 3 / 25 + (11 / 15) * (r - 1) := by
  have h0 : (0.6 : ℚ) < r := by norm_num; linarith
  unfold getDamage minRatio maxRatio damageAtOne
  rw [if_neg (not_le.mpr h0), if_neg (not_le.mpr h1), if_pos h2]
  norm_num
  ring

lemma getDamage_of_gt_max {r : ℚ} (h : 2.2 < r) : getDamage r = 1 := by
  have h0 : (0.6 : ℚ) < r := by norm_num at h ⊢; linarith
  have h1 : (1 : ℚ) < r := by norm_num at h; linarith
  unfold getDamage minRatio maxRatio damageAtOne
  rw [if_neg (not_le.mpr h0), if_neg (not_le.mpr h1), if_neg (not_le.mpr h)]
  norm_num

/-- Closed form of the damage fraction with normalised constants. -/
lemma getDamage_cases (r : ℚ) :
    (r ≤ 3 / 5 ∧ getDamage r = 0) ∨
    (3 / 5 < r ∧ r ≤ 1 ∧ getDamage r = (3 / 10) * (r - 3 / 5)) ∨
    (1 < r ∧ r ≤ 11 / 5 ∧ getDamage r = 3 / 25 + (11 / 15) * (r - 1)) ∨
    (11 / 5 < r ∧ getDamage r = 1) := by
  by_cases h0 : r ≤ 3 / 5
  · exact Or.inl ⟨h0, getDamage_of_le_min (by norm_num; exact h0)⟩
  · by_cases h1 : r ≤ 1
    · exact Or.inr (Or.inl ⟨not_le.mp h0, h1,
        getDamage_of_mid (by norm_num; exact not_le.mp h0) h1⟩)
    · by_cases h2 : r ≤ 11 / 5
      · exact Or.inr (Or.inr (Or.inl ⟨not_le.mp h1, h2,
          getDamage_of_high (not_le.mp h1) (by norm_num; exact h2)⟩))
      · exact Or.inr (Or.inr (Or.inr ⟨not_le.mp h2,
          getDamage_of_gt_max (by norm_num; exact not_le.mp h2)⟩))

lemma getDamage_mono_aux {r1 r2 : ℚ} (h : r1 ≤ r2) : getDamage r1 ≤ getDamage r2 := by
  rcases getDamage_cases r1 with ⟨a, e1⟩ | ⟨a, b, e1⟩ | ⟨a, b, e1⟩ | ⟨a, e1⟩ <;>
  rcases getDamage_cases r2 with ⟨c, e2⟩ | ⟨c, d, e2⟩ | ⟨c, d, e2⟩ | ⟨c, e2⟩ <;>
  rw [e1, e2] <;> linarith

lemma getDamage_range (r : ℚ) : 0 ≤ getDamage r ∧ getDamage r ≤ 1 := by
  rcases getDamage_cases r with ⟨a, e1⟩ | ⟨a, b, e1⟩ | ⟨a, b, e1⟩ | ⟨a, e1⟩ <;>
  rw [e1] <;> constructor <;> linarith

/-- The damage fraction is Lipschitz with constant 11/15 (the steeper ramp). -/
lemma getDamage_lipschitz_aux {r1 r2 : ℚ} (h : r1 ≤ r2) :
    getDamage r2 - getDamage r1 ≤ (11 / 15) * (r2 - r1) := by
  rcases getDamage_cases r1 with ⟨a, e1⟩ | ⟨a, b, e1⟩ | ⟨a, b, e1⟩ | ⟨a, e1⟩ <;>
  rcases getDamage_cases r2 with ⟨c, e2⟩ | ⟨c, d, e2⟩ | ⟨c, d, e2⟩ | ⟨c, e2⟩ <;>
  rw [e1, e2] <;> linarith

/-! ### Claims C1 to C3 -/

/-- C1: for every damage ratio r, getDamage r is 0 if r ≤ 0.6, is
0.12*(r - 0.6)/(1 - 0.6) if 0.6 < r ≤ 1, is 0.12 + (1 - 0.12)*(r - 1)/(2.2 - 1) if
1 < r ≤ 2.2, and is 1 if r > 2.2; that is, on each segment it equals the segment
formula of the specification. -/
theorem getDamage_piecewise (r : ℚ) :
    (r ≤ 0.6 → getDamage r = 0) ∧
    (0.6 < r ∧ r ≤ 1 → getDamage r = 0.12 * (r - 0.6) / (1 - 0.6)) ∧
    (1 < r ∧ r ≤ 2.2 → getDamage r = 0.12 + (1 - 0.12) * (r - 1) / (2.2 - 1)) ∧
    (2.2 < r → getDamage r = 1) ∧
    (r ≤ 0.6 → getDamage r = specSegment 0 r) ∧
    (0.6 < r ∧ r ≤ 1 → getDamage r = specSegment 1 r) ∧
    (1 < r ∧ r ≤ 2.2 → getDamage r = specSegment 2 r) ∧
    (2.2 < r → getDamage r = specSegment 3 r) := by
  refine ⟨fun h => getDamage_of_le_min h, ?_, ?_, fun h => getDamage_of_gt_max h,
    fun h => ?_, ?_, ?_, fun h => ?_⟩
  · rintro ⟨h0, h1⟩
    rw [getDamage_of_mid h0 h1]; norm_num; ring
  · rintro ⟨h1, h2⟩
    rw [getDamage_of_high h1 h2]; norm_num; ring
  · rw [getDamage_of_le_min h]; rfl
  · rintro ⟨h0, h1⟩
    rw [getDamage_of_mid h0 h1]; simp only [specSegment]; norm_num; ring
  · rintro ⟨h1, h2⟩
    rw [getDamage_of_high h1 h2]; simp only [specSegment]; norm_num; ring
  · rw [getDamage_of_gt_max h]; simp only [specSegment]; norm_num

/-- C2: getDamage is monotonic non-decreasing: r1 ≤ r2 gives getDamage r1 ≤ getDamage r2,
and the values at both ratios lie in [0, 1]. -/
theorem getDamage_monotone (r1 r2 : ℚ) (h : r1 ≤ r2) :
    getDamage r1 ≤ getDamage r2 ∧
    (0 ≤ getDamage r1 ∧ getDamage r1 ≤ 1) ∧ (0 ≤ getDamage r2 ∧ getDamage r2 ≤ 1) :=
  ⟨getDamage_mono_aux h, getDamage_range r1, getDamage_range r2⟩

/-- Witness for C2 at the ratios 0.8 and 1.5. -/
theorem getDamage_monotone_witness :
    (0.8 : ℚ) ≤ 1.5 ∧ getDamage 0.8 ≤ getDamage 1.5 ∧
    (0 ≤ getDamage 0.8 ∧ getDamage 0.8 ≤ 1) ∧ (0 ≤ getDamage 1.5 ∧ getDamage 1.5 ≤ 1) :=
  ⟨by norm_num, getDamage_monotone 0.8 1.5 (by norm_num)⟩

/-- C3: getDamage is exactly 0 at ratio 0.6 and at 0.5, exactly 0.12 at ratio 1.0
(strength 10 against defense 10), exactly 1.0 at every ratio ≥ 2.2 (so at 3.0); at each
breakpoint 0.6, 1.0 and 2.2 the segment formula on the left and the one on the right give
the same value, and the function has no jump anywhere: two values differ by at most
11/15 of the distance of their ratios. -/
theorem getDamage_breakpoints :
    getDamage 0.6 = 0 ∧ getDamage 0.5 = 0 ∧
    getDamage 1.0 = 0.12 ∧ getDamage ((10 : ℚ) / 10) = 0.12 ∧
    (∀ r : ℚ, 2.2 ≤ r → getDamage r = 1.0) ∧ getDamage 3.0 = 1.0 ∧
    specSegment 0 0.6 = specSegment 1 0.6 ∧
    specSegment 1 1.0 = specSegment 2 1.0 ∧
    specSegment 2 2.2 = specSegment 3 2.2 ∧
    (∀ r1 r2 : ℚ, |getDamage r1 - getDamage r2| ≤ (11 / 15) * |r1 - r2|) := by
  refine ⟨getDamage_of_le_min le_rfl, getDamage_of_le_min (by norm_num), ?_, ?_, ?_, ?_,
    ?_, ?_, ?_, ?_⟩
  · rw [getDamage_of_mid (by norm_num) (by norm_num)]; norm_num
  · rw [getDamage_of_mid (by norm_num) (by norm_num)]; norm_num
  · intro r hr
    rcases eq_or_lt_of_le hr with h | h
    · rw [← h, getDamage_of_high (by norm_num) le_rfl]; norm_num
    · rw [getDamage_of_gt_max h]; norm_num
  · rw [getDamage_of_gt_max (by norm_num)]; norm_num
  · simp only [specSegment]; norm_num
  · simp only [specSegment]; norm_num
  · simp only [specSegment]; norm_num
  · intro r1 r2
    rcases le_total r1 r2 with h | h
    · have hm := getDamage_mono_aux h
      have hl := getDamage_lipschitz_aux h
      rw [abs_of_nonpos (by linarith), abs_of_nonpos (by linarith)]
      linarith
    · have hm := getDamage_mono_aux h
      have hl := getDamage_lipschitz_aux h
      rw [abs_of_nonneg (by linarith), abs_of_nonneg (by linarith)]
      linarith

/-! ## Lasting effect ledger -/

lemma emit_getGlobalTime (c : Creature) (e : Event) :
    (c.emit e).getGlobalTime = c.getGlobalTime := rfl

lemma emit_attributes (c : Creature) (e : Event) : (c.emit e).attributes = c.attributes := rfl

lemma emit_isAffected (c : Creature) (e : Event) (effect : LastingEffect) :
    (c.emit e).isAffected effect = c.isAffected effect := rfl

lemma emit_getTimeRemaining (c : Creature) (e : Event) (effect : LastingEffect) :
    (c.emit e).getTimeRemaining effect = c.getTimeRemaining effect := rfl

lemma isAffected_of_time {c : Creature} {now : GlobalTime} (h : c.getGlobalTime = some now)
    (effect : LastingEffect) :
    c.isAffected effect = c.attributes.isAffected effect now := by
  unfold Creature.isAffected
  rw [h]

lemma getTimeRemaining_of_time {c : Creature} {now : GlobalTime}
    (h : c.getGlobalTime = some now) (effect : LastingEffect) :
    c.getTimeRemaining effect =
      if c.attributes.lastingEffects effect ≥ now then
        some (c.attributes.lastingEffects effect - now) else none := by
  unfold Creature.getTimeRemaining CreatureAttributes.getTimeOut
  simp only [h]

/-- What `addEffect` does when a global time is available and both gates let the effect
through: the ledger entry is extended, the creature is otherwise unchanged up to its log. -/
lemma addEffect_open {L : LastingEffects} {c : Creature} {effect : LastingEffect}
    {now : GlobalTime} (hnow : c.getGlobalTime = some now)
    (hgate : (L.affects c effect && !c.getBody.isImmuneTo effect) = true)
    (time : TimeInterval) (msg : Bool) :
    ∃ c', c.addEffect L effect time msg = .done c' ∧
      c'.attributes = c.attributes.addLastingEffect effect (now + time) ∧
      c'.getGlobalTime = some now := by
  unfold Creature.addEffect
  rw [if_pos hgate]
  simp only [hnow]
  split_ifs
  · exact ⟨_, rfl, rfl, hnow⟩
  · exact ⟨_, rfl, rfl, hnow⟩

/-- What `addEffect` does when one of the gates blocks the effect: nothing. -/
lemma addEffect_blocked {L : LastingEffects} {c : Creature} {effect : LastingEffect}
    (hgate : (L.affects c effect && !c.getBody.isImmuneTo effect) = false)
    (time : TimeInterval) (msg : Bool) :
    c.addEffect L effect time msg = .done c := by
  unfold Creature.addEffect
  rw [hgate]
  rfl

lemma addLastingEffect_expiry (a : CreatureAttributes) (effect : LastingEffect)
    (endTime : GlobalTime) :
    (a.addLastingEffect effect endTime).lastingEffects effect =
      max (a.lastingEffects effect) endTime := by
  unfold CreatureAttributes.addLastingEffect
  split_ifs with h
  · simp only [Function.update_same]
    exact (max_eq_right (le_of_lt h)).symm
  · exact (max_eq_left (not_lt.mp h)).symm

lemma addLastingEffect_expiry_ge (a : CreatureAttributes) (effect k : LastingEffect)
    (endTime : GlobalTime) :
    a.lastingEffects k ≤ (a.addLastingEffect effect endTime).lastingEffects k := by
  unfold CreatureAttributes.addLastingEffect
  split_ifs with h
  · by_cases hk : k = effect
    · subst hk
      simp only [Function.update_same]
      exact le_of_lt h
    · simp only [Function.update_noteq hk]
      exact le_rfl
  · exact le_rfl

lemma addLastingEffect_permanent (a : CreatureAttributes) (effect : LastingEffect)
    (endTime : GlobalTime) :
    (a.addLastingEffect effect endTime).permanentEffects = a.permanentEffects := by
  unfold CreatureAttributes.addLastingEffect
  split_ifs <;> rfl

/-- C4: for every creature for which a global time `now` is available and every
lasting-effect kind, isAffected(kind) is true if and only if the kind's permanent count
is > 0 or now < the kind's expiry timestamp. -/
theorem isAffected_iff_permanent_or_unexpired (c : Creature) (effect : LastingEffect)
    (now : GlobalTime) (hnow : c.getGlobalTime = some now) :
    c.isAffected effect = true ↔
      (0 < c.attributes.permanentEffects effect ∨ now < c.attributes.lastingEffects effect) := by
  rw [isAffected_of_time hnow]
  simp [CreatureAttributes.isAffected]

/-- Witness for C4: a creature at global time 10 with expiry 100 and permanent count 0. -/
theorem isAffected_iff_permanent_or_unexpired_witness :
    (ledgerCreature .SLEEP 100 0).getGlobalTime = some 10 ∧
    ((ledgerCreature .SLEEP 100 0).isAffected .SLEEP = true ↔
      (0 < (ledgerCreature .SLEEP 100 0).attributes.permanentEffects .SLEEP ∨
        10 < (ledgerCreature .SLEEP 100 0).attributes.lastingEffects .SLEEP)) :=
  ⟨rfl, isAffected_iff_permanent_or_unexpired (ledgerCreature .SLEEP 100 0) .SLEEP 10 rfl⟩

/-- C5 as stated fails: a creature at global time 10 whose SLEEP effect expires at 100,
with both gates open, has 90 time units remaining after addEffect(SLEEP, 5), not 5. -/
theorem addEffect_timeRemaining_counterexample :
    (ledgerCreature .SLEEP 100 0).getGlobalTime = some 10 ∧
    sampleEffects.affects (ledgerCreature .SLEEP 100 0) .SLEEP = true ∧
    (ledgerCreature .SLEEP 100 0).getBody.isImmuneTo .SLEEP = false ∧
    (0 : TimeInterval) < 5 ∧
    ((ledgerCreature .SLEEP 100 0).addEffect sampleEffects .SLEEP 5 true).isFatal = false ∧
    ((ledgerCreature .SLEEP 100 0).addEffect sampleEffects .SLEEP 5 true).state.getTimeRemaining
      .SLEEP = some 90 ∧
    ((ledgerCreature .SLEEP 100 0).addEffect sampleEffects .SLEEP 5 true).state.getTimeRemaining
      .SLEEP ≠ some 5 := by
  refine ⟨rfl, rfl, rfl, by decide, ?_, ?_, ?_⟩
  · obtain ⟨c', h, _, _⟩ := @addEffect_open sampleEffects
      (ledgerCreature .SLEEP 100 0) LastingEffect.SLEEP 10 rfl rfl 5 true
    rw [h]; rfl
  · obtain ⟨c', h, ha, ht⟩ := @addEffect_open sampleEffects
      (ledgerCreature .SLEEP 100 0) LastingEffect.SLEEP 10 rfl rfl 5 true
    rw [h]
    simp only [Outcome.state]
    rw [getTimeRemaining_of_time ht, ha, addLastingEffect_expiry]
    simp [ledgerCreature]
  · obtain ⟨c', h, ha, ht⟩ := @addEffect_open sampleEffects
      (ledgerCreature .SLEEP 100 0) LastingEffect.SLEEP 10 rfl rfl 5 true
    rw [h]
    simp only [Outcome.state]
    rw [getTimeRemaining_of_time ht, ha, addLastingEffect_expiry]
    simp [ledgerCreature]

/-- C5 amended: for every creature with a global time `now` available, every effect kind
that passes both gates and every duration d > 0, addEffect(kind, d) completes and
immediately afterwards getTimeRemaining(kind) is present and equals the larger of d and
the time that remained before (previous expiry minus now); it equals d whenever the
previous expiry is not later than now + d. -/
theorem addEffect_timeRemaining (L : LastingEffects) (c : Creature) (effect : LastingEffect)
    (d : TimeInterval) (msg : Bool) (now : GlobalTime)
    (hnow : c.getGlobalTime = some now)
    (haffects : L.affects c effect = true)
    (himmune : c.getBody.isImmuneTo effect = false)
    (hd : 0 < d) :
    ∃ c', c.addEffect L effect d msg = .done c' ∧
      c'.getTimeRemaining effect = some (max d (c.attributes.lastingEffects effect - now)) ∧
      (c.attributes.lastingEffects effect ≤ now + d → c'.getTimeRemaining effect = some d) := by
  have hgate : (L.affects c effect && !c.getBody.isImmuneTo effect) = true := by
    rw [haffects, himmune]; rfl
  obtain ⟨c', h, ha, ht⟩ := addEffect_open hnow hgate d msg
  have hrem : c'.getTimeRemaining effect =
      some (max d (c.attributes.lastingEffects effect - now)) := by
    rw [getTimeRemaining_of_time ht, ha, addLastingEffect_expiry]
    have hge : max (c.attributes.lastingEffects effect) (now + d) ≥ now :=
      le_trans (by linarith) (le_max_right _ _)
    rw [if_pos hge]
    congr 1
    rcases le_total (c.attributes.lastingEffects effect) (now + d) with hle | hle
    · rw [max_eq_right hle, max_eq_left (by linarith)]; ring
    · rw [max_eq_left hle, max_eq_right (by linarith)]
  refine ⟨c', h, hrem, fun hle => ?_⟩
  rw [hrem, max_eq_left (by linarith)]

/-- Witness for C5 amended: global time 10, previous expiry 12, duration 5. -/
theorem addEffect_timeRemaining_witness :
    ∃ c', (ledgerCreature .SLEEP 12 0).addEffect sampleEffects .SLEEP 5 true = .done c' ∧
      c'.getTimeRemaining .SLEEP =
        some (max 5 ((ledgerCreature .SLEEP 12 0).attributes.lastingEffects .SLEEP - 10)) ∧
      ((ledgerCreature .SLEEP 12 0).attributes.lastingEffects .SLEEP ≤ 10 + 5 →
        c'.getTimeRemaining .SLEEP = some 5) :=
  addEffect_timeRemaining sampleEffects (ledgerCreature .SLEEP 12 0) .SLEEP 5 true 10
    rfl rfl rfl (by decide)

/-- The state `addEffect` ends in is either the unchanged creature, or the creature with
its ledger entry extended from the available global time. -/
lemma addEffect_state (L : LastingEffects) (c : Creature) (effect : LastingEffect)
    (time : TimeInterval) (msg : Bool) :
    (c.addEffect L effect time msg).state = c ∨
    ∃ now, c.getGlobalTime = some now ∧
      (c.addEffect L effect time msg).state.attributes =
        c.attributes.addLastingEffect effect (now + time) ∧
      (c.addEffect L effect time msg).state.getGlobalTime = some now := by
  by_cases hgate : (L.affects c effect && !c.getBody.isImmuneTo effect) = true
  · cases hnow : c.getGlobalTime with
    | none =>
      left
      unfold Creature.addEffect
      rw [if_pos hgate]
      simp only [hnow, Outcome.state]
    | some now =>
      right
      obtain ⟨c', h, ha, ht⟩ := addEffect_open hnow hgate time msg
      exact ⟨now, rfl, by rw [h]; exact ha, by rw [h]; exact ht⟩
  · left
    rw [addEffect_blocked (Bool.eq_false_iff.mpr hgate)]
    rfl

lemma addEffect_not_fatal (L : LastingEffects) (c : Creature) (effect : LastingEffect)
    (time : TimeInterval) (msg : Bool) (h : c.getGlobalTime.isSome = true) :
    (c.addEffect L effect time msg).isFatal = false := by
  by_cases hgate : (L.affects c effect && !c.getBody.isImmuneTo effect) = true
  · obtain ⟨now, hnow⟩ := Option.isSome_iff_exists.mp h
    obtain ⟨c', h', _, _⟩ := addEffect_open hnow hgate time msg
    rw [h']; rfl
  · rw [addEffect_blocked (Bool.eq_false_iff.mpr hgate)]
    rfl

/-- C6: addEffect(kind, d) only extends: for every ledger state and every d, in the state
after addEffect the expiry timestamp of kind (and of every kind) is ≥ its value before, no
permanent count has decreased, and whenever getTimeRemaining(kind) was present before, it
is present afterwards with a value that is not smaller, whatever d is (so also for a d
shorter than the remaining time); with a global time available the call completes. -/
theorem addEffect_only_extends (L : LastingEffects) (c : Creature) (effect : LastingEffect)
    (d : TimeInterval) (msg : Bool) :
    c.attributes.lastingEffects effect ≤
      (c.addEffect L effect d msg).state.attributes.lastingEffects effect ∧
    (∀ k, c.attributes.lastingEffects k ≤
      (c.addEffect L effect d msg).state.attributes.lastingEffects k) ∧
    (∀ k, c.attributes.permanentEffects k ≤
      (c.addEffect L effect d msg).state.attributes.permanentEffects k) ∧
    (∀ t, c.getTimeRemaining effect = some t →
      ∃ t', (c.addEffect L effect d msg).state.getTimeRemaining effect = some t' ∧ t ≤ t') ∧
    (c.getGlobalTime.isSome = true → (c.addEffect L effect d msg).isFatal = false) := by
  have key : ∀ k, c.attributes.lastingEffects k ≤
      (c.addEffect L effect d msg).state.attributes.lastingEffects k := by
    intro k
    rcases addEffect_state L c effect d msg with h | ⟨now, _, ha, _⟩
    · rw [h]
    · rw [ha]; exact addLastingEffect_expiry_ge _ _ _ _
  refine ⟨key effect, key, ?_, ?_, addEffect_not_fatal L c effect d msg⟩
  · intro k
    rcases addEffect_state L c effect d msg with h | ⟨now, _, ha, _⟩
    · rw [h]
    · rw [ha, addLastingEffect_permanent]
  · intro t ht
    rcases addEffect_state L c effect d msg with h | ⟨now, hnow, ha, hg⟩
    · rw [h]; exact ⟨t, ht, le_rfl⟩
    · rw [getTimeRemaining_of_time hnow] at ht
      rw [getTimeRemaining_of_time hg]
      have hk := key effect
      split_ifs at ht with h1
      have h2 : (c.addEffect L effect d msg).state.attributes.lastingEffects effect ≥ now :=
        le_trans h1 hk
      rw [if_pos h2]
      refine ⟨_, rfl, ?_⟩
      have := Option.some.inj ht
      linarith

/-- Witness for C6: at global time 10 an effect expiring at 100 has 90 units remaining;
re-adding it with the shorter duration 5 leaves at least 90 units remaining. -/
theorem addEffect_only_extends_witness :
    (ledgerCreature .SLEEP 100 0).getTimeRemaining .SLEEP = some 90 ∧
    (∃ t', ((ledgerCreature .SLEEP 100 0).addEffect sampleEffects .SLEEP 5
      true).state.getTimeRemaining .SLEEP = some t' ∧ 90 ≤ t') ∧
    ((ledgerCreature .SLEEP 100 0).addEffect sampleEffects .SLEEP 5 true).isFatal = false :=
  ⟨by with_unfolding_all decide,
   (addEffect_only_extends sampleEffects (ledgerCreature .SLEEP 100 0) .SLEEP 5 true).2.2.2.1
      90 (by with_unfolding_all decide),
   (addEffect_only_extends sampleEffects (ledgerCreature .SLEEP 100 0) .SLEEP 5 true).2.2.2.2
      rfl⟩

/-- What `removeEffect` does when a global time is available. -/
lemma removeEffect_open {c : Creature} {now : GlobalTime} (hnow : c.getGlobalTime = some now)
    (effect : LastingEffect) (msg : Bool) :
    c.removeEffect effect msg =
      if c.isAffected effect &&
          !({ c with attributes := c.attributes.clearLastingEffect effect now } :
              Creature).isAffected effect then
        .done (({ c with attributes := c.attributes.clearLastingEffect effect now } :
          Creature).emit (.onRemoved effect msg))
      else .done { c with attributes := c.attributes.clearLastingEffect effect now } := by
  unfold Creature.removeEffect
  simp only [hnow]

/-- C7: for a creature whose permanent count on effect E is 1 (global time `now`
available): removeEffect(E), the non-permanent removal, completes, leaves the permanent
count at 1 and E active, and fires no hook (the log is unchanged); a following
removePermanentEffect(E, 1), at the same or any later global time, leaves the permanent
count at 0, makes E inactive and fires the "removed" hook exactly once (the log grows by
exactly that one call). -/
theorem removeEffect_then_removePermanent (c : Creature) (effect : LastingEffect) (msg : Bool)
    (now : GlobalTime) (hnow : c.getGlobalTime = some now)
    (hperm : c.attributes.permanentEffects effect = 1) :
    ∃ c1, c.removeEffect effect msg = .done c1 ∧
      c1.attributes.permanentEffects effect = 1 ∧
      c1.isAffected effect = true ∧
      c1.log = c.log ∧
      ∀ later : GlobalTime, now ≤ later →
        ((c1.atGlobalTime later).removePermanentEffect effect
            1).attributes.permanentEffects effect = 0 ∧
        ((c1.atGlobalTime later).removePermanentEffect effect
            1).isAffected effect = false ∧
        ((c1.atGlobalTime later).removePermanentEffect effect 1).log =
          c.log ++ [Event.onRemoved effect true] := by
  have hwas : c.isAffected effect = true := by
    rw [isAffected_of_time hnow]
    simp [CreatureAttributes.isAffected, hperm]
  have hstill : ({ c with attributes := c.attributes.clearLastingEffect effect now } :
      Creature).isAffected effect = true := by
    have ht : ({ c with attributes := c.attributes.clearLastingEffect effect now } :
      Creature).getGlobalTime = some now := hnow
    rw [isAffected_of_time ht]
    simp [CreatureAttributes.isAffected, CreatureAttributes.clearLastingEffect, hperm]
  refine ⟨{ c with attributes := c.attributes.clearLastingEffect effect now }, ?_, hperm,
    hstill, rfl, ?_⟩
  · rw [removeEffect_open hnow, hwas, hstill]
    rfl
  · intro later hlater
    simp [Creature.removePermanentEffect, Creature.atGlobalTime, Creature.isAffected,
      Creature.getGlobalTime, CreatureAttributes.isAffected, Creature.emit,
      CreatureAttributes.clearLastingEffect, CreatureAttributes.removePermanentEffect, hperm,
      hlater]

/-- Witness for C7: global time 10, SLEEP with permanent count 1 and expiry 100. -/
theorem removeEffect_then_removePermanent_witness :
    ∃ c1, (ledgerCreature .SLEEP 100 1).removeEffect .SLEEP true = .done c1 ∧
      c1.attributes.permanentEffects .SLEEP = 1 ∧
      c1.isAffected .SLEEP = true ∧
      c1.log = (ledgerCreature .SLEEP 100 1).log ∧
      ∀ later : GlobalTime, 10 ≤ later →
        ((c1.atGlobalTime later).removePermanentEffect .SLEEP
            1).attributes.permanentEffects .SLEEP = 0 ∧
        ((c1.atGlobalTime later).removePermanentEffect .SLEEP
            1).isAffected .SLEEP = false ∧
        ((c1.atGlobalTime later).removePermanentEffect .SLEEP 1).log =
          (ledgerCreature .SLEEP 100 1).log ++ [Event.onRemoved .SLEEP true] :=
  removeEffect_then_removePermanent (ledgerCreature .SLEEP 100 1) .SLEEP true 10 rfl
    (by simp [ledgerCreature])

/-! ## Action command layer -/

lemma attack_of_live {self other : Creature} (hlive : other.isDead = false)
    (attackParams : Option AttackParams) :
    self.attack other attackParams =
      if !self.position.isSameLevel other.position then .ok (.invalid none)
      else if (self.position.getDir other.position).length8 ≠ 1 then .ok (.invalid none)
      else
        match (match attackParams with
          | some params =>
            match params.weapon with
            | some w => some w
            | none => self.getWeapon
          | none => self.getWeapon) with
        | none => .ok (.invalid (some "No available weapon or intrinsic attack"))
        | some w => .ok (.valid self.id
            (.attack other.id w (self.position.getDir other.position) attackParams)) := by
  unfold Creature.attack
  rw [hlive]
  rfl

lemma attack_validity_aux (self other : Creature) (attackParams : Option AttackParams)
    (hlive : other.isDead = false) :
    (∃ a, self.attack other attackParams = .ok a) ∧
    (self.position.isSameLevel other.position = false ∨
        (self.position.getDir other.position).length8 ≠ 1 →
      self.attack other attackParams = .ok (.invalid none)) ∧
    (self.position.isSameLevel other.position = true ∧
        (self.position.getDir other.position).length8 = 1 →
      (resolvedWeapon self attackParams = none →
        self.attack other attackParams =
          .ok (.invalid (some "No available weapon or intrinsic attack"))) ∧
      (∀ weapon, resolvedWeapon self attackParams = some weapon →
        self.attack other attackParams = .ok (.valid self.id
          (.attack other.id weapon (self.position.getDir other.position) attackParams)))) ∧
    (resolvedWeapon self attackParams = none ↔
      (attackParams.bind fun params => params.weapon) = none ∧ self.getWeapon = none) := by
  rw [attack_of_live hlive]
  refine ⟨?_, ?_, ?_, ?_⟩
  · split_ifs
    · exact ⟨_, rfl⟩
    · exact ⟨_, rfl⟩
    · change ∃ a, (match resolvedWeapon self attackParams with
        | none => _
        | some w => _) = Except.ok a
      cases resolvedWeapon self attackParams with
      | none => exact ⟨_, rfl⟩
      | some w => exact ⟨_, rfl⟩
  · rintro (h | h)
    · rw [h]; rfl
    · split_ifs
      · rfl
      · rfl
  · rintro ⟨h1, h2⟩
    rw [h1]
    simp only [Bool.not_true, Bool.false_eq_true, if_false, h2, ne_eq, not_true_eq_false]
    constructor
    · intro h
      change (match resolvedWeapon self attackParams with
        | none => _
        | some w => _) = _
      rw [h]
    · intro weapon h
      change (match resolvedWeapon self attackParams with
        | none => _
        | some w => _) = _
      rw [h]
  · unfold resolvedWeapon
    cases attackParams with
    | none => simp
    | some params =>
      cases hw : params.weapon with
      | none => simp [hw]
      | some w => simp [hw]

/-- C8: for every living target and any attack parameters, attack returns an action (no
fatal error); the action is invalid without a reason whenever self and other are not on
the same level or the direction from self to other does not have 8-neighbourhood length
exactly 1, whatever the weapons are; when both conditions hold it is invalid with the
reason "No available weapon or intrinsic attack" if neither the weapon of the parameters
nor getWeapon() yields a weapon, and valid otherwise. -/
theorem attack_validity (self other : Creature) (attackParams : Option AttackParams)
    (hlive : other.isDead = false) :
    (∃ a, self.attack other attackParams = .ok a) ∧
    (self.position.isSameLevel other.position = false ∨
        (self.position.getDir other.position).length8 ≠ 1 →
      self.attack other attackParams = .ok (.invalid none)) ∧
    (self.position.isSameLevel other.position = true ∧
        (self.position.getDir other.position).length8 = 1 →
      ((attackParams.bind fun params => params.weapon) = none ∧ self.getWeapon = none →
        self.attack other attackParams =
          .ok (.invalid (some "No available weapon or intrinsic attack"))) ∧
      (¬ ((attackParams.bind fun params => params.weapon) = none ∧ self.getWeapon = none) →
        returnsValid (self.attack other attackParams))) := by
  obtain ⟨h1, h2, h3, h4⟩ := attack_validity_aux self other attackParams hlive
  refine ⟨h1, h2, fun hadj => ⟨fun hnone => (h3 hadj).1 (h4.mpr hnone), fun hsome => ?_⟩⟩
  cases hw : resolvedWeapon self attackParams with
  | none => exact absurd (h4.mp hw) hsome
  | some weapon => rw [(h3 hadj).2 weapon hw]; rfl

/-- Witness for C8: a living, diagonally adjacent target on the same level; without a
weapon the attack is rejected with the reason, with an overriding weapon it is valid. -/
theorem attack_validity_witness :
    sampleOther.isDead = false ∧
    sampleSelf.attack sampleOther none =
      .ok (.invalid (some "No available weapon or intrinsic attack")) ∧
    returnsValid (sampleSelf.attack sampleOther (some ⟨none, some sampleSword⟩)) :=
  ⟨rfl,
   ((attack_validity sampleSelf sampleOther none rfl).2.2 ⟨rfl, by decide⟩).1 ⟨rfl, rfl⟩,
   ((attack_validity sampleSelf sampleOther (some ⟨none, some sampleSword⟩) rfl).2.2
      ⟨rfl, by decide⟩).2 (by simp)⟩

lemma andThen_eq_true {a b : Except String Bool} :
    andThen a b = .ok true ↔ a = .ok true ∧ b = .ok true := by
  cases a with
  | error e => simp [andThen]
  | ok x => cases x <;> simp [andThen]

lemma notE_eq_true {a : Except String Bool} : notE a = .ok true ↔ a = .ok false := by
  cases a with
  | error e => simp [notE]
  | ok x => cases x <;> simp [notE]

lemma canSwap_of_enemy {L : LastingEffects} {w : World} {self other : Creature}
    (h : other.isEnemy L w self = .ok true) :
    self.canSwapPositionInMovement L w other ≠ .ok true := by
  unfold Creature.canSwapPositionInMovement
  intro hc
  simp only [andThen_eq_true, notE_eq_true] at hc
  rw [h] at hc
  simp at hc

lemma move_eq (L : LastingEffects) (w : World) (self : Creature) (pos : Position) :
    self.move L w pos =
      if (self.getHoldingCreature w).isSome then .ok (.invalid (some "You can't break free!"))
      else if (self.position.getDir pos).length8 ≠ 1 then .ok (.invalid none)
      else if !w.canMoveCreature self.position (self.position.getDir pos) then
        match w.getCreature pos with
        | some other =>
          match self.canSwapPositionInMovement L w other with
          | .error e => .error e
          | .ok false => .ok (.invalid none)
          | .ok true => .ok (.valid self.id (.move (self.position.getDir pos)))
        | none => .ok (.invalid none)
      else .ok (.valid self.id (.move (self.position.getDir pos))) := rfl

lemma not_returnsValid_invalid (reason : Option String) :
    ¬ returnsValid (.ok (.invalid reason)) := by
  simp [returnsValid, CreatureAction.isValid]

lemma not_returnsValid_error (e : String) : ¬ returnsValid (.error e) := by
  simp [returnsValid]

lemma returnsValid_valid (id : UniqueId) (body : ActionBody) :
    returnsValid (.ok (.valid id body)) := rfl

lemma returnsInvalid_invalid (reason : Option String) :
    returnsInvalid (.ok (.invalid reason)) := rfl

/-- The exact condition under which `move` returns a valid action. -/
lemma move_valid_iff (L : LastingEffects) (w : World) (self : Creature) (pos : Position) :
    returnsValid (self.move L w pos) ↔
      (self.getHoldingCreature w = none ∧ (self.position.getDir pos).length8 = 1 ∧
        (w.canMoveCreature self.position (self.position.getDir pos) = true ∨
          ∃ other, w.getCreature pos = some other ∧
            self.canSwapPositionInMovement L w other = .ok true)) := by
  rw [move_eq]
  cases hh : self.getHoldingCreature w with
  | some holder =>
    simp only [Option.isSome_some, if_true]
    constructor
    · intro h; exact absurd h (not_returnsValid_invalid _)
    · rintro ⟨h, _⟩; cases h
  | none =>
    simp only [Option.isSome_none, Bool.false_eq_true, if_false]
    by_cases hl : (self.position.getDir pos).length8 = 1
    · simp only [hl, ne_eq, not_true_eq_false, if_false, true_and]
      cases hm : w.canMoveCreature self.position (self.position.getDir pos) with
      | true =>
        simp only [Bool.not_true, Bool.false_eq_true, if_false, true_or, iff_true]
        exact returnsValid_valid _ _
      | false =>
        simp only [Bool.not_false, if_true, Bool.false_eq_true, false_or]
        cases hc : w.getCreature pos with
        | none =>
          simp only
          constructor
          · intro h; exact absurd h (not_returnsValid_invalid _)
          · rintro ⟨other, ho, _⟩; cases ho
        | some other =>
          simp only
          cases hs : self.canSwapPositionInMovement L w other with
          | error e =>
            simp only
            constructor
            · intro h; exact absurd h (not_returnsValid_error _)
            · rintro ⟨o, ho, hso⟩
              cases ho
              rw [hs] at hso
              cases hso
          | ok b =>
            cases b with
            | false =>
              simp only
              constructor
              · intro h; exact absurd h (not_returnsValid_invalid _)
              · rintro ⟨o, ho, hso⟩
                cases ho
                rw [hs] at hso
                cases hso
            | true =>
              simp only
              constructor
              · intro _; exact ⟨other, rfl, hs⟩
              · intro _; exact returnsValid_valid _ _
    · simp only [hl, ne_eq, not_false_eq_true, if_true, false_and, and_false, iff_false]
      exact not_returnsValid_invalid _

lemma isPlayer_ok {c : Creature} (h : c.controllerStack ≠ []) :
    ∃ b, c.isPlayer = .ok b := by
  unfold Creature.isPlayer Creature.getController
  cases hl : c.controllerStack.getLast? with
  | none => exact absurd (List.getLast?_eq_none_iff.mp hl) h
  | some controller => exact ⟨_, rfl⟩

/-- With a hostile occupant and controllers on both creatures, the swap test returns
false. -/
lemma canSwap_enemy_false {L : LastingEffects} {w : World} {self other : Creature}
    (h : other.isEnemy L w self = .ok true)
    (hs : self.controllerStack ≠ []) (ho : other.controllerStack ≠ []) :
    self.canSwapPositionInMovement L w other = .ok false := by
  obtain ⟨bs, hbs⟩ := isPlayer_ok hs
  obtain ⟨bo, hbo⟩ := isPlayer_ok ho
  unfold Creature.canSwapPositionInMovement
  rw [h, hbs, hbo]
  cases (!other.hasCondition L CreatureCondition.RESTRICTED_MOVEMENT) <;>
  cases (decide (self.swapPositionCooldown = 0)) <;>
  cases (!other.attributes.boulder) <;>
  cases bs <;> cases bo <;> rfl

/-- C9: move(self, pos) returns a valid action iff self is not held by an adjacent holding
creature, the direction from self's position to pos has 8-neighbourhood length 1, and
either the position allows moving the creature in that direction or the destination
holds a creature for which canSwapPositionInMovement is true.  In particular it returns an
invalid action whenever the direction does not have length exactly 1; a hostile occupant
of the destination is never eligible for a swap, so when the destination is occupied by a
hostile creature (the spatial service then not allowing to move the creature there) the
result is never a valid action, and it is an invalid action as soon as both creatures
have a controller. -/
theorem move_validity (L : LastingEffects) (w : World) (self : Creature) (pos : Position) :
    (returnsValid (self.move L w pos) ↔
      (self.getHoldingCreature w = none ∧ (self.position.getDir pos).length8 = 1 ∧
        (w.canMoveCreature self.position (self.position.getDir pos) = true ∨
          ∃ other, w.getCreature pos = some other ∧
            self.canSwapPositionInMovement L w other = .ok true))) ∧
    ((self.position.getDir pos).length8 ≠ 1 → returnsInvalid (self.move L w pos)) ∧
    (∀ other, w.getCreature pos = some other → other.isEnemy L w self = .ok true →
      self.canSwapPositionInMovement L w other ≠ .ok true ∧
      (w.canMoveCreature self.position (self.position.getDir pos) = false →
        ¬ returnsValid (self.move L w pos) ∧
        (self.controllerStack ≠ [] → other.controllerStack ≠ [] →
          returnsInvalid (self.move L w pos)))) := by
  refine ⟨move_valid_iff L w self pos, fun hl => ?_, fun other hocc henemy => ?_⟩
  · rw [move_eq]
    split_ifs
    · exact returnsInvalid_invalid _
    · exact returnsInvalid_invalid _
  · refine ⟨canSwap_of_enemy henemy, fun hmove => ⟨fun hvalid => ?_, fun hs ho => ?_⟩⟩
    · obtain ⟨_, _, hcan | ⟨o, ho, hswap⟩⟩ := (move_valid_iff L w self pos).mp hvalid
      · rw [hmove] at hcan
        cases hcan
      · rw [hocc] at ho
        cases ho
        exact canSwap_of_enemy henemy hswap
    · rw [move_eq, hmove, hocc]
      simp only [canSwap_enemy_false henemy hs ho, Bool.not_false, if_true]
      split_ifs
      · exact returnsInvalid_invalid _
      · exact returnsInvalid_invalid _
      · exact returnsInvalid_invalid _

/-- Witness for C9: in the sample world the square of `sampleOther` is occupied by a
creature hostile to `sampleSelf`; moving there is rejected, and so is a move of length 2,
while the move onto the free square to the west is valid. -/
theorem move_validity_witness :
    sampleWorld.getCreature sampleOther.position = some sampleOther ∧
    sampleOther.isEnemy sampleEffects sampleWorld sampleSelf = .ok true ∧
    returnsInvalid (sampleSelf.move sampleEffects sampleWorld sampleOther.position) ∧
    returnsInvalid (sampleSelf.move sampleEffects sampleWorld ⟨0, ⟨2, 0⟩⟩) ∧
    returnsValid (sampleSelf.move sampleEffects sampleWorld ⟨0, ⟨-1, 0⟩⟩) :=
  ⟨rfl, rfl,
   ((move_validity sampleEffects sampleWorld sampleSelf sampleOther.position).2.2
      sampleOther rfl rfl).2 rfl |>.2 (by simp [sampleSelf, sampleCreature])
      (by simp [sampleOther, sampleCreature]),
   (move_validity sampleEffects sampleWorld sampleSelf ⟨0, ⟨2, 0⟩⟩).2.1 (by decide),
   (move_validity sampleEffects sampleWorld sampleSelf ⟨0, ⟨-1, 0⟩⟩).1.mpr
      ⟨rfl, by decide, Or.inl rfl⟩⟩

/-! ## Death transition -/

lemma setCreature_creature_same (w : World) (id : UniqueId) (c : Creature) :
    (w.setCreature id c).creature id = some c := by
  simp [World.setCreature]

lemma setCreature_creature_other (w : World) {id id' : UniqueId} (c : Creature) (h : id' ≠ id) :
    (w.setCreature id c).creature id' = w.creature id' := by
  simp [World.setCreature, Function.update_noteq h]

lemma world_emit_creature (w : World) (e : Event) : (w.emit e).creature = w.creature := rfl

lemma dropItems_creature (w : World) (pos : Position) (items : List Item) :
    (w.dropItems pos items).creature = w.creature := rfl

lemma killCreature_creature (w : World) (pos : Position) (id : UniqueId) :
    (w.killCreature pos id).creature = w.creature := rfl

lemma deathTimeIs_setCreature_same (w : World) (id : UniqueId) (c : Creature) :
    (w.setCreature id c).deathTimeIs id c.deathTime :=
  ⟨c, setCreature_creature_same w id c, rfl⟩

lemma deathTimeIs_setCreature {w : World} {id : UniqueId} {t : Option GlobalTime}
    (h : w.deathTimeIs id t) (id' : UniqueId) (c : Creature)
    (hc : id' = id → c.deathTime = t) :
    (w.setCreature id' c).deathTimeIs id t := by
  by_cases hid : id' = id
  · subst hid
    exact ⟨c, setCreature_creature_same w id' c, hc rfl⟩
  · obtain ⟨c0, h0, ht⟩ := h
    exact ⟨c0, by rw [setCreature_creature_other w c (Ne.symm hid)]; exact h0, ht⟩

lemma increaseExpLevel_deathTime (c : Creature) (type : ExperienceType) (increase : ℚ) :
    (c.increaseExpLevel type increase).state.deathTime = c.deathTime := by
  unfold Creature.increaseExpLevel Creature.onExpLevelReached
  simp only
  cases c.getController <;> split_ifs <;> rfl

lemma getDifficultyPoints_deathTime (L : LastingEffects) (c : Creature) :
    (c.getDifficultyPoints L).2.deathTime = c.deathTime := rfl

lemma setController_deathTime (c : Creature) (ctrl : Controller) :
    (c.setController ctrl).deathTime = c.deathTime := by
  unfold Creature.setController Creature.pushController
  cases c.getController <;> rfl

/-- The kill credit `onKilled` changes no death timestamp. -/
lemma onKilled_deathTimeIs (L : LastingEffects) (w : World) (killerId victimId : UniqueId)
    (lastDamage : Option ExperienceType) (id : UniqueId) (t : Option GlobalTime)
    (h : w.deathTimeIs id t) :
    (w.onKilled L killerId victimId lastDamage).state.deathTimeIs id t := by
  unfold World.onKilled
  cases hk : w.creature killerId with
  | none => exact h
  | some killer =>
    cases hv : w.creature victimId with
    | none => exact h
    | some victim =>
      simp only
      have hkt : id = killerId → killer.deathTime = t := by
        rintro rfl
        obtain ⟨c, hc, ht⟩ := h
        rw [hk] at hc; cases hc; exact ht
      have hvt : id = victimId → victim.deathTime = t := by
        rintro rfl
        obtain ⟨c, hc, ht⟩ := h
        rw [hv] at hc; cases hc; exact ht
      have hinc := increaseExpLevel_deathTime killer (lastDamage.getD ExperienceType.MELEE)
        (expIncrease (victim.highestAttackValueEver - killer.highestAttackValueEver))
      cases hout : killer.increaseExpLevel (lastDamage.getD ExperienceType.MELEE)
        (expIncrease (victim.highestAttackValueEver - killer.highestAttackValueEver)) with
      | fatal m killer1 =>
        rw [hout] at hinc
        simp only [Outcome.state] at hinc ⊢
        exact deathTimeIs_setCreature h _ _ (fun e => by rw [hinc]; exact hkt e.symm)
      | done killer1 =>
        rw [hout] at hinc
        simp only [Outcome.state] at hinc
        simp only
        have hk1 : id = killerId → killer1.deathTime = t := fun e => by
          rw [hinc]; exact hkt e
        by_cases hvk : victimId = killerId
        · simp only [hvk, if_true]
          have h1 : (w.setCreature killerId killer1).deathTimeIs id t :=
            deathTimeIs_setCreature h _ _ (fun e => hk1 e.symm)
          have h2 : ((w.setCreature killerId killer1).setCreature killerId
              (killer1.getDifficultyPoints L).2).deathTimeIs id t :=
            deathTimeIs_setCreature h1 _ _ (fun e => by
              rw [getDifficultyPoints_deathTime]; exact hk1 e.symm)
          split_ifs
          · exact deathTimeIs_setCreature h2 _ _ (fun e => by
              show (killer1.getDifficultyPoints L).2.deathTime = t
              rw [getDifficultyPoints_deathTime]; exact hk1 e.symm)
          · exact h2
        · simp only [hvk, if_false]
          have h1 : (w.setCreature killerId killer1).deathTimeIs id t :=
            deathTimeIs_setCreature h _ _ (fun e => hk1 e.symm)
          have h2 : ((w.setCreature killerId killer1).setCreature victimId
              (victim.getDifficultyPoints L).2).deathTimeIs id t :=
            deathTimeIs_setCreature h1 _ _ (fun e => by
              rw [getDifficultyPoints_deathTime]; exact hvt e.symm)
          split_ifs
          · exact deathTimeIs_setCreature h2 _ _ (fun e => by
              show killer1.deathTime = t
              exact hk1 e.symm)
          · exact h2

lemma deathTimeIs_of_creature_eq {w w' : World} (h : w'.creature = w.creature)
    {id : UniqueId} {t : Option GlobalTime} (hd : w.deathTimeIs id t) : w'.deathTimeIs id t := by
  obtain ⟨c, hc, ht⟩ := hd
  exact ⟨c, by rw [h]; exact hc, ht⟩

/-- The rest of the death transition keeps the death timestamp that was just set. -/
lemma dieWithAttackerRest_deathTimeIs (L : LastingEffects) (w : World) (selfId : UniqueId)
    (self : Creature) (attacker : Option UniqueId) (drops : DropType) :
    (w.dieWithAttackerRest L selfId self attacker drops).state.deathTimeIs selfId
      self.deathTime := by
  unfold World.dieWithAttackerRest
  simp only
  -- the world and the dying creature after the drops
  generalize hdrop : (if drops = DropType.EVERYTHING ∨ drops = DropType.ONLY_INVENTORY then
      (self.equipment.removeAllItems.1,
        ({ self with equipment := self.equipment.removeAllItems.2 } : Creature))
    else (([] : List Item), self)) = dropped
  have hself1 : dropped.2.deathTime = self.deathTime := by
    rw [← hdrop]; split_ifs <;> rfl
  have hw1 : ((w.setCreature selfId dropped.2).dropItems dropped.2.position
      dropped.1).deathTimeIs selfId self.deathTime :=
    ⟨dropped.2, setCreature_creature_same _ _ _, hself1⟩
  generalize hw1def : (w.setCreature selfId dropped.2).dropItems dropped.2.position dropped.1
    = w1 at hw1 ⊢
  generalize hcorpse : (if drops = DropType.EVERYTHING then
      if dropped.2.getBody.hasDeathSound = true then
        ((w1.dropItems dropped.2.position dropped.2.generateCorpse).setCreature selfId
            (dropped.2.emit Event.deathSound), dropped.2.emit Event.deathSound)
      else (w1.dropItems dropped.2.position dropped.2.generateCorpse, dropped.2)
    else (w1, dropped.2)) = corpse
  have hw2 : corpse.1.deathTimeIs selfId self.deathTime := by
    rw [← hcorpse]
    split_ifs
    · exact ⟨dropped.2.emit Event.deathSound, setCreature_creature_same _ _ _, hself1⟩
    · exact deathTimeIs_of_creature_eq rfl hw1
    · exact hw1
  have hw4 : ((if corpse.2.attributes.innocent = true then
      corpse.1.emit (Event.statistics StatId.INNOCENT_KILLED) else corpse.1).emit
        (Event.statistics StatId.DEATH)).deathTimeIs selfId self.deathTime := by
    split_ifs
    · exact deathTimeIs_of_creature_eq rfl hw2
    · exact deathTimeIs_of_creature_eq rfl hw2
  generalize (if corpse.2.attributes.innocent = true then
      corpse.1.emit (Event.statistics StatId.INNOCENT_KILLED) else corpse.1).emit
        (Event.statistics StatId.DEATH) = w4 at hw4 ⊢
  have hcred : (match attacker with
      | some attackerId => w4.onKilled L attackerId selfId corpse.2.lastDamageType
      | none => Outcome.done w4).state.deathTimeIs selfId self.deathTime := by
    cases attacker with
    | none => exact hw4
    | some attackerId => exact onKilled_deathTimeIs L w4 _ _ _ _ _ hw4
  generalize (match attacker with
      | some attackerId => w4.onKilled L attackerId selfId corpse.2.lastDamageType
      | none => Outcome.done w4) = credited at hcred ⊢
  cases credited with
  | fatal m w5 => exact hcred
  | done w5 =>
    simp only [Outcome.state] at hcred
    simp only
    obtain ⟨c5, hc5, ht5⟩ := hcred
    have hc8 : (((w5.emit (Event.creatureKilled selfId attacker)).emit
        (Event.tribeOnMemberKilled corpse.2.tribe selfId attacker)).killCreature
          corpse.2.position selfId).creature selfId = some c5 := hc5
    rw [hc8]
    exact ⟨c5.setController DoNothingController, setCreature_creature_same _ _ _,
      by rw [setController_deathTime]; exact ht5⟩

/-- On a creature that is already dead the death transition stops at its guard, with the
world as it was. -/
lemma dieWithAttacker_dead (L : LastingEffects) {w : World} {selfId : UniqueId}
    {self : Creature} (hself : w.creature selfId = some self) (hdead : self.isDead = true)
    (attacker : Option UniqueId) (drops : DropType) :
    w.dieWithAttacker L selfId attacker drops =
      .fatal "CHECK(!isDead()) failed: is already dead." w := by
  unfold World.dieWithAttacker
  rw [hself]
  simp only [hdead, if_true]

/-- A death transition that runs to completion leaves the creature dead, with the global
time of the call as death timestamp. -/
lemma dieWithAttacker_done (L : LastingEffects) {w w' : World} {selfId : UniqueId}
    {attacker : Option UniqueId} {drops : DropType}
    (h : w.dieWithAttacker L selfId attacker drops = .done w') :
    ∃ self now, w.creature selfId = some self ∧ self.isDead = false ∧
      self.getGlobalTime = some now ∧ w'.deathTimeIs selfId (some now) := by
  unfold World.dieWithAttacker at h
  cases hself : w.creature selfId with
  | none => rw [hself] at h; cases h
  | some self =>
    rw [hself] at h
    cases hdead : self.isDead with
    | true => simp [hdead] at h
    | false =>
      cases hnow : self.getGlobalTime with
      | none => simp [hdead, hnow] at h
      | some now =>
        refine ⟨self, now, rfl, hdead, hnow, ?_⟩
        simp only [hdead, hnow, Bool.false_eq_true, if_false] at h
        cases hctrl : Creature.getController
            { self with deathTime := some now, lastAttacker := attacker } with
        | none => rw [hctrl] at h; cases h
        | some controller =>
          rw [hctrl] at h
          simp only at h
          have := dieWithAttackerRest_deathTimeIs L
            (w.setCreature selfId
              (Creature.emit { self with deathTime := some now, lastAttacker := attacker }
                (Event.controllerOnKilled controller attacker)))
            selfId
            (Creature.emit { self with deathTime := some now, lastAttacker := attacker }
                (Event.controllerOnKilled controller attacker)) attacker drops
          rw [h] at this
          exact this

/-- On a creature that is already dead every entry point of the death transition stops at
the guard. -/
lemma death_guard_aux (L : LastingEffects) {w : World} {selfId : UniqueId} {self : Creature}
    (hself : w.creature selfId = some self) (hdead : self.isDead = true)
    (attacker : Option UniqueId) (drops : DropType) :
    (∃ msg, w.dieWithAttacker L selfId attacker drops = .fatal msg w) ∧
    (∃ msg, w.dieWithLastAttacker L selfId drops = .fatal msg w) ∧
    (∃ msg, w.dieNoReason L selfId drops = .fatal msg w) ∧
    (∀ reason, ∃ msg, w.dieWithReason L selfId reason drops =
      .fatal msg (w.setCreature selfId { self with deathReason := some reason })) := by
  refine ⟨⟨_, dieWithAttacker_dead L hself hdead attacker drops⟩, ?_,
    ⟨_, dieWithAttacker_dead L hself hdead none drops⟩, fun reason => ?_⟩
  · unfold World.dieWithLastAttacker
    rw [hself]
    exact ⟨_, dieWithAttacker_dead L hself hdead _ drops⟩
  · unfold World.dieWithReason World.dieNoReason
    rw [hself]
    exact ⟨_, @dieWithAttacker_dead L _ selfId { self with deathReason := some reason }
      (setCreature_creature_same _ _ _) hdead none drops⟩

/-- C10: the death transition is guarded: invoked on a creature that is already dead,
dieWithAttacker, dieWithLastAttacker and dieNoReason stop in a fatal error with the world
exactly as it was (same death timestamp, no item or corpse dropped, no kill credit or
experience for any creature), and dieWithReason stops in the same fatal error having
changed nothing but the recorded death reason; and after a death transition that ran to
completion the creature is dead (its death timestamp is the global time of the call), so
every later invocation through any of the four entry points, with any attacker and drop
policy, stops at the guard in the same way. -/
theorem death_transition_guarded (L : LastingEffects) (w : World) (selfId : UniqueId)
    (attacker : Option UniqueId) (drops : DropType) :
    (∀ self, w.creature selfId = some self → self.isDead = true →
      (∃ msg, w.dieWithAttacker L selfId attacker drops = .fatal msg w) ∧
      (∃ msg, w.dieWithLastAttacker L selfId drops = .fatal msg w) ∧
      (∃ msg, w.dieNoReason L selfId drops = .fatal msg w) ∧
      (∀ reason, ∃ msg, w.dieWithReason L selfId reason drops =
        .fatal msg (w.setCreature selfId { self with deathReason := some reason }))) ∧
    (∀ w', w.dieWithAttacker L selfId attacker drops = .done w' →
      ∃ self', w'.creature selfId = some self' ∧ self'.isDead = true ∧
        (∃ self, w.creature selfId = some self ∧ self.isDead = false ∧
          self'.deathTime = self.getGlobalTime) ∧
        ∀ attacker' drops',
          (∃ msg, w'.dieWithAttacker L selfId attacker' drops' = .fatal msg w') ∧
          (∃ msg, w'.dieWithLastAttacker L selfId drops' = .fatal msg w') ∧
          (∃ msg, w'.dieNoReason L selfId drops' = .fatal msg w') ∧
          (∀ reason, ∃ msg, w'.dieWithReason L selfId reason drops' =
            .fatal msg (w'.setCreature selfId { self' with deathReason := some reason }))) := by
  constructor
  · intro self hself hdead
    exact death_guard_aux L hself hdead attacker drops
  · intro w' h
    obtain ⟨self, now, hself, hlive, hnow, self', hself', ht⟩ := dieWithAttacker_done L h
    have hdead' : self'.isDead = true := by
      unfold Creature.isDead
      rw [ht]; rfl
    exact ⟨self', hself', hdead', ⟨self, hself, hlive, by rw [ht, hnow]⟩,
      fun attacker' drops' => death_guard_aux L hself' hdead' attacker' drops'⟩

/-- Witness for C10: in the sample world creature 2, killed by creature 1 with the drop
policy EVERYTHING, dies at global time 10; a second death transition, and one through
dieWithReason, then stop at the guard. -/
theorem death_transition_guarded_witness :
    ∃ w', sampleWorld.dieWithAttacker sampleEffects 2 (some 1) DropType.EVERYTHING = .done w' ∧
      (∃ self', w'.creature 2 = some self' ∧ self'.deathTime = some 10 ∧
        (∃ msg, w'.dieWithAttacker sampleEffects 2 (some 1) DropType.EVERYTHING =
          .fatal msg w') ∧
        (∃ msg, w'.dieWithReason sampleEffects 2 "burnt to death" DropType.EVERYTHING =
          .fatal msg (w'.setCreature 2 { self' with deathReason := some "burnt to death" }))) :=
  match h : sampleWorld.dieWithAttacker sampleEffects 2 (some 1) DropType.EVERYTHING with
  | .done w' =>
    let ⟨self', hs, hd, ⟨_, hs0, _, ht⟩, hg⟩ :=
      (death_transition_guarded sampleEffects sampleWorld 2 (some 1) DropType.EVERYTHING).2 w' h
    ⟨w', rfl, self', hs,
      by
        rw [ht]
        have : sampleWorld.creature 2 = some sampleOther := rfl
        rw [this] at hs0
        cases hs0
        rfl,
      (hg (some 1) DropType.EVERYTHING).1,
      (hg none DropType.EVERYTHING).2.2.2 "burnt to death"⟩
  | .fatal msg w' =>
    absurd (show (sampleWorld.dieWithAttacker sampleEffects 2 (some 1)
      DropType.EVERYTHING).isFatal = true by rw [h]; rfl) (by with_unfolding_all decide)

/-! ## Transition hooks and gates of the ledger -/

lemma specTransitionHooks_same (effect : LastingEffect) (msg b : Bool) :
    specTransitionHooks effect msg b b = [] := by
  cases b <;> rfl

lemma specTransitionHooks_length (effect : LastingEffect) (msg was is : Bool) :
    (specTransitionHooks effect msg was is).length ≤ 1 := by
  cases was <;> cases is <;> simp [specTransitionHooks]

/-- Extending an expiry keeps an active effect active. -/
lemma isAffected_addLastingEffect (a : CreatureAttributes) (effect : LastingEffect)
    (endTime now : GlobalTime) (h : a.isAffected effect now = true) :
    (a.addLastingEffect effect endTime).isAffected effect now = true := by
  unfold CreatureAttributes.isAffected at h ⊢
  rw [addLastingEffect_permanent]
  have hge := addLastingEffect_expiry_ge a effect effect endTime
  simp only [Bool.or_eq_true, decide_eq_true_eq] at h ⊢
  rcases h with h | h
  · exact Or.inl h
  · exact Or.inr (lt_of_lt_of_le h hge)

lemma addEffect_hooks (L : LastingEffects) (c : Creature) (effect : LastingEffect)
    (d : TimeInterval) (msg : Bool) :
    (c.addEffect L effect d msg).state.log =
      c.log ++ specTransitionHooks effect msg (c.isAffected effect)
        ((c.addEffect L effect d msg).state.isAffected effect) := by
  by_cases hgate : (L.affects c effect && !c.getBody.isImmuneTo effect) = true
  · cases hnow : c.getGlobalTime with
    | none =>
      have : c.addEffect L effect d msg = .fatal "*getGlobalTime(): no global time" c := by
        unfold Creature.addEffect
        rw [if_pos hgate]
        simp only [hnow]
      rw [this]
      simp [Outcome.state, specTransitionHooks_same]
    | some now =>
      unfold Creature.addEffect
      rw [if_pos hgate]
      simp only [hnow]
      cases hwas : c.isAffected effect with
      | true =>
        simp only [Bool.not_true, Bool.false_and, Bool.false_eq_true, if_false, Outcome.state]
        have hmono : Creature.isAffected
            { c with attributes := c.attributes.addLastingEffect effect (now + d) } effect = true := by
          rw [isAffected_of_time hnow] at hwas
          have ht : Creature.getGlobalTime
            { c with attributes := c.attributes.addLastingEffect effect (now + d) } = some now := hnow
          rw [isAffected_of_time ht]
          exact isAffected_addLastingEffect _ _ _ _ hwas
        rw [hmono]
        simp [specTransitionHooks]
      | false =>
        cases his : Creature.isAffected
            { c with attributes := c.attributes.addLastingEffect effect (now + d) } effect with
        | true =>
          simp only [Bool.not_false, Bool.and_self, if_true, Outcome.state]
          rw [emit_isAffected, his]
          simp [specTransitionHooks, Creature.emit]
        | false =>
          simp only [Bool.not_false, Bool.and_false, Bool.false_eq_true, if_false, Outcome.state]
          rw [his]
          simp [specTransitionHooks]
  · rw [addEffect_blocked (Bool.eq_false_iff.mpr hgate)]
    simp [Outcome.state, specTransitionHooks_same]

lemma removeEffect_hooks (c : Creature) (effect : LastingEffect) (msg : Bool) :
    (c.removeEffect effect msg).state.log =
      c.log ++ specTransitionHooks effect msg (c.isAffected effect)
        ((c.removeEffect effect msg).state.isAffected effect) := by
  cases hnow : c.getGlobalTime with
  | none =>
    have : c.removeEffect effect msg = .fatal "*getGlobalTime(): no global time" c := by
      unfold Creature.removeEffect
      simp only [hnow]
    rw [this]
    simp [Outcome.state, specTransitionHooks_same]
  | some now =>
    rw [removeEffect_open hnow]
    have ht : Creature.getGlobalTime
      { c with attributes := c.attributes.clearLastingEffect effect now } = some now := hnow
    cases his : Creature.isAffected
        { c with attributes := c.attributes.clearLastingEffect effect now } effect with
    | true =>
      have hwas : c.isAffected effect = true := by
        rw [isAffected_of_time ht] at his
        rw [isAffected_of_time hnow]
        simp only [CreatureAttributes.isAffected, CreatureAttributes.clearLastingEffect,
          Function.update_same, lt_self_iff_false, decide_False, Bool.or_false,
          decide_eq_true_eq] at his
        simp [CreatureAttributes.isAffected, his]
      simp only [hwas, Bool.not_true, Bool.and_false, Bool.false_eq_true, if_false,
        Outcome.state]
      rw [his]
      simp [specTransitionHooks]
    | false =>
      cases hwas : c.isAffected effect with
      | true =>
        simp only [Bool.not_false, Bool.and_self, if_true, Outcome.state]
        rw [emit_isAffected, his]
        simp [specTransitionHooks, Creature.emit]
      | false =>
        simp only [Bool.not_false, Bool.false_and, Bool.false_eq_true, if_false, Outcome.state]
        rw [his]
        simp [specTransitionHooks]

lemma addPermanentEffect_hooks (c : Creature) (effect : LastingEffect) (count : Int)
    (hcount : 0 ≤ count) :
    (c.addPermanentEffect effect count).log =
      c.log ++ specTransitionHooks effect true (c.isAffected effect)
        ((c.addPermanentEffect effect count).isAffected effect) := by
  unfold Creature.addPermanentEffect
  simp only
  cases hwas : c.isAffected effect with
  | true =>
    have his : Creature.isAffected
        { c with attributes := c.attributes.addPermanentEffect effect count } effect = true := by
      unfold Creature.isAffected at hwas ⊢
      change (match c.getGlobalTime with
        | some time => (c.attributes.addPermanentEffect effect count).isAffected effect time
        | none => false) = true
      cases hnow : c.getGlobalTime with
      | none => rw [hnow] at hwas; cases hwas
      | some now =>
        rw [hnow] at hwas
        simp only [CreatureAttributes.isAffected, CreatureAttributes.addPermanentEffect,
          Function.update_same, Bool.or_eq_true, decide_eq_true_eq] at hwas ⊢
        rcases hwas with h | h
        · exact Or.inl (by linarith)
        · exact Or.inr h
    simp only [Bool.not_true, Bool.false_and, Bool.false_eq_true, if_false]
    rw [his]
    simp [specTransitionHooks]
  | false =>
    cases his : Creature.isAffected
        { c with attributes := c.attributes.addPermanentEffect effect count } effect with
    | true =>
      simp only [Bool.not_false, Bool.and_self, if_true]
      rw [emit_isAffected, his]
      simp [specTransitionHooks, Creature.emit]
    | false =>
      simp only [Bool.not_false, Bool.and_false, Bool.false_eq_true, if_false]
      rw [his]
      simp [specTransitionHooks]

lemma removePermanentEffect_hooks (c : Creature) (effect : LastingEffect) (count : Int)
    (hcount : 0 ≤ count) :
    (c.removePermanentEffect effect count).log =
      c.log ++ specTransitionHooks effect true (c.isAffected effect)
        ((c.removePermanentEffect effect count).isAffected effect) := by
  unfold Creature.removePermanentEffect
  simp only
  cases his : Creature.isAffected
      { c with attributes := c.attributes.removePermanentEffect effect count } effect with
  | true =>
    have hwas : c.isAffected effect = true := by
      unfold Creature.isAffected at his ⊢
      change (match c.getGlobalTime with
        | some time => (c.attributes.removePermanentEffect effect count).isAffected effect time
        | none => false) = true at his
      cases hnow : c.getGlobalTime with
      | none => rw [hnow] at his; cases his
      | some now =>
        rw [hnow] at his
        simp only [CreatureAttributes.isAffected, CreatureAttributes.removePermanentEffect,
          Function.update_same, Bool.or_eq_true, decide_eq_true_eq] at his ⊢
        rcases his with h | h
        · exact Or.inl (by linarith)
        · exact Or.inr h
    simp only [hwas, Bool.not_true, Bool.and_false, Bool.false_eq_true, if_false]
    rw [his]
    simp [specTransitionHooks]
  | false =>
    cases hwas : c.isAffected effect with
    | true =>
      simp only [Bool.not_false, Bool.and_self, if_true]
      rw [emit_isAffected, his]
      simp [specTransitionHooks, Creature.emit]
    | false =>
      simp only [Bool.not_false, Bool.false_and, Bool.false_eq_true, if_false]
      rw [his]
      simp [specTransitionHooks]

/-- Claim C11: in each of addEffect, removeEffect, addPermanentEffect and
removePermanentEffect (a permanent stack count is added or removed, so `count` is not
negative), the hooks fired by the call (the growth of the log) are exactly those of the
specification: onAffected iff isAffected(kind) was false before the call and is true after
it, onRemoved iff it was true before and is false after; at most one hook fires per call,
and re-applying an effect that is already active fires no hook. -/
theorem hooks_fire_on_transition (L : LastingEffects) (c : Creature) (effect : LastingEffect)
    (d : TimeInterval) (msg : Bool) (count : Int) (hcount : 0 ≤ count) :
    (c.addEffect L effect d msg).state.log =
      c.log ++ specTransitionHooks effect msg (c.isAffected effect)
        ((c.addEffect L effect d msg).state.isAffected effect) ∧
    (c.removeEffect effect msg).state.log =
      c.log ++ specTransitionHooks effect msg (c.isAffected effect)
        ((c.removeEffect effect msg).state.isAffected effect) ∧
    (c.addPermanentEffect effect count).log =
      c.log ++ specTransitionHooks effect true (c.isAffected effect)
        ((c.addPermanentEffect effect count).isAffected effect) ∧
    (c.removePermanentEffect effect count).log =
      c.log ++ specTransitionHooks effect true (c.isAffected effect)
        ((c.removePermanentEffect effect count).isAffected effect) ∧
    (∀ was is : Bool, (specTransitionHooks effect msg was is).length ≤ 1) ∧
    (c.isAffected effect = true →
      (c.addEffect L effect d msg).state.log = c.log ∧
      (c.addPermanentEffect effect count).log = c.log) := by
  refine ⟨addEffect_hooks L c effect d msg, removeEffect_hooks c effect msg,
    addPermanentEffect_hooks c effect count hcount,
    removePermanentEffect_hooks c effect count hcount,
    specTransitionHooks_length effect msg, fun hwas => ⟨?_, ?_⟩⟩
  · have h := addEffect_hooks L c effect d msg
    rw [h, hwas]
    rw [hwas] at h
    cases his : (c.addEffect L effect d msg).state.isAffected effect with
    | true => simp [specTransitionHooks]
    | false =>
      -- an active effect stays active, so this case cannot occur
      exfalso
      rw [his] at h
      have hlen := congrArg List.length h
      simp only [specTransitionHooks, Bool.not_true, Bool.false_and, Bool.false_eq_true,
        if_false, Bool.not_false, Bool.and_self, if_true, List.nil_append, List.length_append,
        List.length_singleton] at hlen
      rcases addEffect_state L c effect d msg with hs | ⟨now, hnow, ha, hg⟩
      · rw [hs] at his
        rw [hwas] at his
        cases his
      · rw [isAffected_of_time hg, ha] at his
        rw [isAffected_of_time hnow] at hwas
        rw [isAffected_addLastingEffect _ _ _ _ hwas] at his
        cases his
  · have h := addPermanentEffect_hooks c effect count hcount
    rw [h, hwas]
    rw [hwas] at h
    cases his : (c.addPermanentEffect effect count).isAffected effect with
    | true => simp [specTransitionHooks]
    | false =>
      exfalso
      rw [his] at h
      -- the log would have grown by onRemoved, which addPermanentEffect never emits
      unfold Creature.addPermanentEffect at h
      simp only [hwas, Bool.not_true, Bool.false_and, Bool.false_eq_true, if_false,
        specTransitionHooks, Bool.not_false, Bool.and_self, if_true, List.nil_append] at h
      have hlen := congrArg List.length h
      simp at hlen

/-- Witness for C11: the sample creature at global time 10 with an empty ledger;
duration 5, count 2. -/
theorem hooks_fire_on_transition_witness :
    (0 : Int) ≤ 2 ∧
    ((sampleSelf.addEffect sampleEffects .SLEEP 5 true).state.log =
      sampleSelf.log ++ specTransitionHooks .SLEEP true (sampleSelf.isAffected .SLEEP)
        ((sampleSelf.addEffect sampleEffects .SLEEP 5 true).state.isAffected .SLEEP)) ∧
    ((sampleSelf.addPermanentEffect .SLEEP 2).log =
      sampleSelf.log ++ specTransitionHooks .SLEEP true (sampleSelf.isAffected .SLEEP)
        ((sampleSelf.addPermanentEffect .SLEEP 2).isAffected .SLEEP)) ∧
    (sampleSelf.addPermanentEffect .SLEEP 2).log = [Event.onAffected .SLEEP true] :=
  ⟨by decide,
   (hooks_fire_on_transition sampleEffects sampleSelf .SLEEP 5 true 2 (by decide)).1,
   (hooks_fire_on_transition sampleEffects sampleSelf .SLEEP 5 true 2 (by decide)).2.2.1,
   by with_unfolding_all decide⟩

/-- C12: if the global "affects" predicate is false for the creature, or its body is immune
to the kind, addEffect(kind, d) completes and returns the creature unchanged: every expiry
timestamp and every permanent count is as before, isAffected(kind) keeps its value and the
log (hence the hooks fired) is unchanged. -/
theorem addEffect_blocked_by_gate (L : LastingEffects) (c : Creature) (effect : LastingEffect)
    (d : TimeInterval) (msg : Bool)
    (hblocked : L.affects c effect = false ∨ c.getBody.isImmuneTo effect = true) :
    c.addEffect L effect d msg = .done c ∧
    (c.addEffect L effect d msg).state.attributes.lastingEffects = c.attributes.lastingEffects ∧
    (c.addEffect L effect d msg).state.attributes.permanentEffects =
      c.attributes.permanentEffects ∧
    (c.addEffect L effect d msg).state.isAffected effect = c.isAffected effect ∧
    (c.addEffect L effect d msg).state.log = c.log := by
  have hgate : (L.affects c effect && !c.getBody.isImmuneTo effect) = false := by
    rcases hblocked with h | h <;> simp [h]
  have h := addEffect_blocked hgate d msg
  rw [h]
  exact ⟨rfl, rfl, rfl, rfl, rfl⟩

/-- Witness for C12: a creature with an immune body under an open global gate, and the
sample creature under a closed global gate. -/
theorem addEffect_blocked_by_gate_witness :
    immuneCreature.getBody.isImmuneTo .SLEEP = true ∧
    immuneCreature.addEffect sampleEffects .SLEEP 5 true = .done immuneCreature ∧
    blockingEffects.affects sampleSelf .SLEEP = false ∧
    sampleSelf.addEffect blockingEffects .SLEEP 5 true = .done sampleSelf :=
  ⟨rfl,
   (addEffect_blocked_by_gate sampleEffects immuneCreature .SLEEP 5 true (Or.inr rfl)).1,
   rfl,
   (addEffect_blocked_by_gate blockingEffects sampleSelf .SLEEP 5 true (Or.inl rfl)).1⟩

/-- C13, the code at the failing input: the global gate is closed for the creature and
its body is immune to SLEEP, SLEEP is not active; addPermanentEffect(SLEEP, 1) nevertheless
raises the permanent count to 1, makes isAffected(SLEEP) true and fires the "became
affected" hook, whereas addEffect on the same creature changes nothing. -/
theorem addPermanentEffect_ignores_gates :
    blockingEffects.affects immuneCreature .SLEEP = false ∧
    immuneCreature.getBody.isImmuneTo .SLEEP = true ∧
    immuneCreature.isAffected .SLEEP = false ∧
    immuneCreature.addEffect blockingEffects .SLEEP 5 true = .done immuneCreature ∧
    (immuneCreature.addPermanentEffect .SLEEP 1).attributes.permanentEffects .SLEEP = 1 ∧
    (immuneCreature.addPermanentEffect .SLEEP 1).isAffected .SLEEP = true ∧
    (immuneCreature.addPermanentEffect .SLEEP 1).log = [Event.onAffected .SLEEP true] := by
  refine ⟨rfl, rfl, by with_unfolding_all decide, ?_, by with_unfolding_all decide,
    by with_unfolding_all decide, by with_unfolding_all decide⟩
  exact @addEffect_blocked blockingEffects immuneCreature LastingEffect.SLEEP rfl 5 true

/-! ## Experience gain -/

lemma expIncrease_eq (d : ℚ) :
    expIncrease d = max (1 / 50) (min 1 ((2 / 25) * d + 1 / 5)) := by
  unfold expIncrease
  simp only
  norm_num
  congr 2
  ring

lemma increaseExpLevel_attributes (c : Creature) (type : ExperienceType) (increase : ℚ) :
    (c.increaseExpLevel type increase).state.attributes =
      c.attributes.increaseExpLevel type increase := by
  unfold Creature.increaseExpLevel Creature.onExpLevelReached
  simp only
  cases c.getController <;> split_ifs <;> rfl

/-- The experience level of the killer after a completed `onKilled`. -/
lemma onKilled_expLevel (L : LastingEffects) {w w' : World} {killerId victimId : UniqueId}
    {lastDamage : Option ExperienceType} {killer victim : Creature}
    (hk : w.creature killerId = some killer) (hv : w.creature victimId = some victim)
    (h : w.onKilled L killerId victimId lastDamage = .done w') :
    ∃ killer', w'.creature killerId = some killer' ∧
      killer'.attributes = killer.attributes.increaseExpLevel
        (lastDamage.getD ExperienceType.MELEE)
        (expIncrease (victim.highestAttackValueEver - killer.highestAttackValueEver)) := by
  unfold World.onKilled at h
  rw [hk, hv] at h
  simp only at h
  have hattr := increaseExpLevel_attributes killer (lastDamage.getD ExperienceType.MELEE)
    (expIncrease (victim.highestAttackValueEver - killer.highestAttackValueEver))
  cases hout : killer.increaseExpLevel (lastDamage.getD ExperienceType.MELEE)
    (expIncrease (victim.highestAttackValueEver - killer.highestAttackValueEver)) with
  | fatal m killer1 => rw [hout] at h; cases h
  | done killer1 =>
    rw [hout] at h hattr
    simp only [Outcome.state] at hattr
    simp only at h
    by_cases hvk : victimId = killerId
    · simp only [hvk, if_true] at h
      split_ifs at h
      cases h
      exact ⟨_, setCreature_creature_same _ _ _, hattr⟩
    · simp only [hvk, if_false] at h
      split_ifs at h
      cases h
      exact ⟨_, setCreature_creature_same _ _ _, hattr⟩

/-- C15: the experience gain computed in onKilled from d = the victim's
highestAttackValueEver minus the killer's is max(0.02, min(1.0, (1.0 - 0.2) * d / 10 + 0.2));
for every d it lies in [0.02, 1.0], it is exactly 0.2 for d = 0, and it is monotonic
non-decreasing in d; a completed onKilled has raised the killer's experience level in the
channel of the last damage (MELEE by default) by exactly that gain. -/
theorem expIncrease_formula_bounds :
    (∀ d : ℚ, expIncrease d = max 0.02 (min 1.0 ((1.0 - 0.2) * d / 10 + 0.2))) ∧
    (∀ d : ℚ, 0.02 ≤ expIncrease d ∧ expIncrease d ≤ 1.0) ∧
    expIncrease 0 = 0.2 ∧
    (∀ d1 d2 : ℚ, d1 ≤ d2 → expIncrease d1 ≤ expIncrease d2) ∧
    (∀ (L : LastingEffects) (w w' : World) (killerId victimId : UniqueId)
      (lastDamage : Option ExperienceType) (killer victim : Creature),
      w.creature killerId = some killer → w.creature victimId = some victim →
      w.onKilled L killerId victimId lastDamage = .done w' →
      ∃ killer', w'.creature killerId = some killer' ∧
        killer'.attributes.expLevel (lastDamage.getD ExperienceType.MELEE) =
          killer.attributes.expLevel (lastDamage.getD ExperienceType.MELEE) +
            expIncrease (victim.highestAttackValueEver - killer.highestAttackValueEver)) := by
  refine ⟨fun d => rfl, fun d => ?_, ?_, fun d1 d2 h => ?_, ?_⟩
  · rw [expIncrease_eq]
    norm_num
  · rw [expIncrease_eq]; norm_num
  · rw [expIncrease_eq, expIncrease_eq]
    exact max_le_max le_rfl (min_le_min le_rfl (by linarith))
  · intro L w w' killerId victimId lastDamage killer victim hk hv h
    obtain ⟨killer', hk', hattr⟩ := onKilled_expLevel L hk hv h
    refine ⟨killer', hk', ?_⟩
    rw [hattr]
    simp [CreatureAttributes.increaseExpLevel]

/-- Witness for C15: in the sample world creature 1 kills creature 2, both with the same
best attack value; the experience level of creature 1 in the MELEE channel grows from 0 by
the gain for an even match. -/
theorem expIncrease_formula_bounds_witness :
    ∃ w' killer', sampleWorld.onKilled sampleEffects 1 2 none = .done w' ∧
      w'.creature 1 = some killer' ∧
      killer'.attributes.expLevel ExperienceType.MELEE =
        sampleSelf.attributes.expLevel ExperienceType.MELEE + expIncrease (0 - 0) :=
  match h : sampleWorld.onKilled sampleEffects 1 2 none with
  | .done w' =>
    let ⟨killer', hk', he⟩ := expIncrease_formula_bounds.2.2.2.2 sampleEffects sampleWorld w'
      1 2 none sampleSelf sampleOther rfl rfl h
    ⟨w', killer', rfl, hk', by
      have h1 : sampleOther.highestAttackValueEver = 0 := rfl
      have h2 : sampleSelf.highestAttackValueEver = 0 := rfl
      rw [h1, h2] at he
      simpa using he⟩
  | .fatal msg w' =>
    absurd (show (sampleWorld.onKilled sampleEffects 1 2 none).isFatal = true by rw [h]; rfl)
      (by with_unfolding_all decide)

/-! ## Death transition: drops and kill credit -/

lemma dieWithAttackerRest_eq (L : LastingEffects) (w : World) (selfId : UniqueId)
    (self : Creature) (attacker : Option UniqueId) (drops : DropType) :
    w.dieWithAttackerRest L selfId self attacker drops =
      (w.atKillCredit selfId self drops).1.finishDeath L selfId
        (w.atKillCredit selfId self drops).2 attacker := rfl

/-- The death transition of a living creature with a global time and a controller. -/
lemma dieWithAttacker_eq (L : LastingEffects) {w : World} {selfId : UniqueId} {self : Creature}
    {now : GlobalTime} {controller : Controller}
    (hself : w.creature selfId = some self) (hlive : self.isDead = false)
    (hnow : self.getGlobalTime = some now) (hctrl : self.getController = some controller)
    (attacker : Option UniqueId) (drops : DropType) :
    w.dieWithAttacker L selfId attacker drops =
      ((w.setCreature selfId (self.deathMarked now attacker controller)).atKillCredit selfId
        (self.deathMarked now attacker controller) drops).1.finishDeath L selfId
        ((w.setCreature selfId (self.deathMarked now attacker controller)).atKillCredit selfId
          (self.deathMarked now attacker controller) drops).2 attacker := by
  unfold World.dieWithAttacker
  rw [hself]
  simp only [hlive, hnow, Bool.false_eq_true, if_false]
  have hc : Creature.getController
      { self with deathTime := some now, lastAttacker := attacker } = some controller := hctrl
  rw [hc]
  simp only
  rw [dieWithAttackerRest_eq]
  rfl

lemma setCreature_items (w : World) (id : UniqueId) (c : Creature) :
    (w.setCreature id c).items = w.items := rfl

lemma world_emit_items (w : World) (e : Event) : (w.emit e).items = w.items := rfl

lemma killCreature_items (w : World) (pos : Position) (id : UniqueId) :
    (w.killCreature pos id).items = w.items := rfl

lemma dropItems_items_same (w : World) (pos : Position) (items : List Item) :
    (w.dropItems pos items).items pos = w.items pos ++ items := by
  simp [World.dropItems]

lemma dropItems_items_other (w : World) {pos pos' : Position} (items : List Item)
    (h : pos' ≠ pos) : (w.dropItems pos items).items pos' = w.items pos' := by
  simp [World.dropItems, Function.update_noteq h]

/-- The steps up to the kill credit, policy by policy. -/
lemma atKillCredit_cases (w : World) (selfId : UniqueId) (self : Creature) (drops : DropType) :
    w.atKillCredit selfId self drops =
      match drops with
      | .NOTHING =>
        World.statisticsStage ((w.setCreature selfId self).dropItems self.position [], self)
      | .ONLY_INVENTORY =>
        World.statisticsStage
          ((w.setCreature selfId { self with equipment := ⟨[]⟩ }).dropItems self.position
            self.equipment.getItems, { self with equipment := ⟨[]⟩ })
      | .EVERYTHING =>
        World.statisticsStage (World.corpseStage selfId
          ((w.setCreature selfId { self with equipment := ⟨[]⟩ }).dropItems self.position
            self.equipment.getItems, { self with equipment := ⟨[]⟩ })) := by
  cases drops <;> rfl

lemma statisticsStage_items (p : World × Creature) :
    (World.statisticsStage p).1.items = p.1.items := by
  unfold World.statisticsStage
  split_ifs <;> rfl

lemma statisticsStage_creature (p : World × Creature) :
    (World.statisticsStage p).1.creature = p.1.creature := by
  unfold World.statisticsStage
  split_ifs <;> rfl

lemma statisticsStage_snd (p : World × Creature) : (World.statisticsStage p).2 = p.2 := rfl

lemma corpseStage_items (selfId : UniqueId) (p : World × Creature) :
    (World.corpseStage selfId p).1.items =
      (p.1.dropItems p.2.position p.2.generateCorpse).items := by
  unfold World.corpseStage
  simp only
  split_ifs <;> rfl

lemma corpseStage_creature_same (selfId : UniqueId) (p : World × Creature)
    (h : p.1.creature selfId = some p.2) :
    (World.corpseStage selfId p).1.creature selfId = some (World.corpseStage selfId p).2 := by
  unfold World.corpseStage
  simp only
  split_ifs
  · exact setCreature_creature_same _ _ _
  · exact h

lemma corpseStage_creature_other (selfId : UniqueId) (p : World × Creature) {id : UniqueId}
    (h : id ≠ selfId) :
    (World.corpseStage selfId p).1.creature id = p.1.creature id := by
  unfold World.corpseStage
  simp only
  split_ifs
  · exact setCreature_creature_other _ _ h
  · rfl

lemma corpseStage_field {α : Type} (f : Creature → α)
    (hemit : ∀ (c : Creature) (ev : Event), f (c.emit ev) = f c)
    (selfId : UniqueId) (p : World × Creature) :
    f (World.corpseStage selfId p).2 = f p.2 := by
  unfold World.corpseStage
  simp only
  split_ifs
  · exact hemit _ _
  · rfl

/-- The drops made up to the kill credit are those of the specification, at the creature's
position and nowhere else. -/
lemma atKillCredit_items (w : World) (selfId : UniqueId) (self : Creature) (drops : DropType) :
    (w.atKillCredit selfId self drops).1.items self.position =
      w.items self.position ++ specDroppedItems self drops ∧
    ∀ pos, pos ≠ self.position → (w.atKillCredit selfId self drops).1.items pos = w.items pos := by
  rw [atKillCredit_cases]
  cases drops
  · simp only [statisticsStage_items, specDroppedItems]
    exact ⟨dropItems_items_same _ _ _, fun pos hpos => dropItems_items_other _ _ hpos⟩
  · simp only [statisticsStage_items, specDroppedItems]
    exact ⟨dropItems_items_same _ _ _, fun pos hpos => dropItems_items_other _ _ hpos⟩
  · simp only [statisticsStage_items, corpseStage_items, specDroppedItems]
    constructor
    · show ((((w.setCreature selfId { self with equipment := ⟨[]⟩ }).dropItems self.position
        self.equipment.getItems).dropItems self.position self.generateCorpse).items
          self.position) = _
      rw [dropItems_items_same, dropItems_items_same, List.append_assoc]
      rfl
    · intro pos hpos
      show ((((w.setCreature selfId { self with equipment := ⟨[]⟩ }).dropItems self.position
        self.equipment.getItems).dropItems self.position self.generateCorpse).items pos) = _
      rw [dropItems_items_other _ _ hpos, dropItems_items_other _ _ hpos]
      rfl

/-- The registry at the kill credit holds the dying creature's state of that point, and
every other creature as before. -/
lemma atKillCredit_creature (w : World) (selfId : UniqueId) (self : Creature) (drops : DropType) :
    (w.atKillCredit selfId self drops).1.creature selfId =
      some (w.atKillCredit selfId self drops).2 ∧
    ∀ id, id ≠ selfId → (w.atKillCredit selfId self drops).1.creature id = w.creature id := by
  rw [atKillCredit_cases]
  cases drops
  · simp only [statisticsStage_creature, statisticsStage_snd]
    exact ⟨setCreature_creature_same _ _ _, fun id hid => setCreature_creature_other _ _ hid⟩
  · simp only [statisticsStage_creature, statisticsStage_snd]
    exact ⟨setCreature_creature_same _ _ _, fun id hid => setCreature_creature_other _ _ hid⟩
  · simp only [statisticsStage_creature, statisticsStage_snd]
    refine ⟨corpseStage_creature_same _ _ (setCreature_creature_same _ _ _), fun id hid => ?_⟩
    rw [corpseStage_creature_other _ _ hid]
    exact setCreature_creature_other _ _ hid

/-- The equipment of the dying creature at the kill credit is that of the specification. -/
lemma atKillCredit_equipment (w : World) (selfId : UniqueId) (self : Creature)
    (drops : DropType) :
    (w.atKillCredit selfId self drops).2.equipment = specEquipmentAfterDeath self drops := by
  rw [atKillCredit_cases]
  cases drops
  · rfl
  · rfl
  · simp only [statisticsStage_snd, specEquipmentAfterDeath]
    exact corpseStage_field (fun c => c.equipment) (fun _ _ => rfl) _ _

lemma onKilled_items (L : LastingEffects) (w : World) (killerId victimId : UniqueId)
    (lastDamage : Option ExperienceType) :
    (w.onKilled L killerId victimId lastDamage).state.items = w.items := by
  unfold World.onKilled
  cases w.creature killerId with
  | none => rfl
  | some killer =>
    cases w.creature victimId with
    | none => rfl
    | some victim =>
      simp only
      cases killer.increaseExpLevel (lastDamage.getD ExperienceType.MELEE)
        (expIncrease (victim.highestAttackValueEver - killer.highestAttackValueEver)) with
      | fatal m killer1 => rfl
      | done killer1 =>
        simp only
        split_ifs <;> rfl

/-- Storing a creature keeps a property of the registry entry `id`, provided the stored
state has the property when it is stored under `id`. -/
lemma field_setCreature {α : Type} (f : Creature → α) {w : World} {id : UniqueId} {x : α}
    (h : ∃ c, w.creature id = some c ∧ f c = x) (id' : UniqueId) (c' : Creature)
    (hc : id' = id → f c' = x) :
    ∃ c, (w.setCreature id' c').creature id = some c ∧ f c = x := by
  by_cases hid : id' = id
  · subst hid
    exact ⟨c', setCreature_creature_same w id' c', hc rfl⟩
  · obtain ⟨c0, h0, hx⟩ := h
    exact ⟨c0, by rw [setCreature_creature_other w c' (Ne.symm hid)]; exact h0, hx⟩

/-- The kill credit `onKilled` keeps every creature in the registry, and every field that
neither the experience gain, nor the difficulty cache, nor the points and kills touch. -/
lemma onKilled_field {α : Type} (L : LastingEffects) (f : Creature → α)
    (hexp : ∀ (c : Creature) (t : ExperienceType) (i : ℚ), f (c.increaseExpLevel t i).state = f c)
    (hdiff : ∀ c : Creature, f (c.getDifficultyPoints L).2 = f c)
    (hpoints : ∀ (c : Creature) (p : Int) (k : List UniqueId),
      f { c with points := p, kills := k } = f c)
    (w : World) (killerId victimId : UniqueId) (lastDamage : Option ExperienceType)
    (id : UniqueId) (x : α) (h : ∃ c, w.creature id = some c ∧ f c = x) :
    ∃ c, (w.onKilled L killerId victimId lastDamage).state.creature id = some c ∧ f c = x := by
  unfold World.onKilled
  cases hk : w.creature killerId with
  | none => exact h
  | some killer =>
    cases hv : w.creature victimId with
    | none => exact h
    | some victim =>
      simp only
      have hkt : id = killerId → f killer = x := by
        rintro rfl
        obtain ⟨c, hc, ht⟩ := h
        rw [hk] at hc; cases hc; exact ht
      have hvt : id = victimId → f victim = x := by
        rintro rfl
        obtain ⟨c, hc, ht⟩ := h
        rw [hv] at hc; cases hc; exact ht
      have hinc := hexp killer (lastDamage.getD ExperienceType.MELEE)
        (expIncrease (victim.highestAttackValueEver - killer.highestAttackValueEver))
      cases hout : killer.increaseExpLevel (lastDamage.getD ExperienceType.MELEE)
        (expIncrease (victim.highestAttackValueEver - killer.highestAttackValueEver)) with
      | fatal m killer1 =>
        rw [hout] at hinc
        simp only [Outcome.state] at hinc ⊢
        exact field_setCreature f h _ _ (fun e => by rw [hinc]; exact hkt e.symm)
      | done killer1 =>
        rw [hout] at hinc
        simp only [Outcome.state] at hinc
        simp only
        have hk1 : id = killerId → f killer1 = x := fun e => by
          rw [hinc]; exact hkt e
        have h1 := field_setCreature f h killerId killer1 (fun e => hk1 e.symm)
        by_cases hvk : victimId = killerId
        · simp only [hvk, if_true]
          have h2 := field_setCreature f h1 killerId (killer1.getDifficultyPoints L).2
            (fun e => by rw [hdiff]; exact hk1 e.symm)
          split_ifs
          · exact field_setCreature f h2 _ _ (fun e => by
              rw [hpoints, hdiff]; exact hk1 e.symm)
          · exact h2
        · simp only [hvk, if_false]
          have h2 := field_setCreature f h1 victimId (victim.getDifficultyPoints L).2
            (fun e => by rw [hdiff]; exact hvt e.symm)
          split_ifs
          · exact field_setCreature f h2 _ _ (fun e => by
              rw [hpoints]; exact hk1 e.symm)
          · exact h2

lemma increaseExpLevel_field {α : Type} (f : Creature → α)
    (hattr : ∀ (c : Creature) (a : CreatureAttributes), f { c with attributes := a } = f c)
    (hemit : ∀ (c : Creature) (ev : Event), f (c.emit ev) = f c)
    (c : Creature) (t : ExperienceType) (i : ℚ) :
    f (c.increaseExpLevel t i).state = f c := by
  unfold Creature.increaseExpLevel Creature.onExpLevelReached
  simp only
  cases c.getController <;> split_ifs <;> simp only [Outcome.state, hemit, hattr]

lemma pushController_field {α : Type} (f : Creature → α)
    (hctrl : ∀ (c : Creature) (s : List Controller), f { c with controllerStack := s } = f c)
    (hemit : ∀ (c : Creature) (ev : Event), f (c.emit ev) = f c)
    (c : Creature) (ctrl : Controller) :
    f (c.pushController ctrl) = f c := by
  unfold Creature.pushController
  cases c.getController with
  | none => simp only; rw [hemit, hctrl]
  | some controller => simp only; rw [hemit, hctrl, hemit]

lemma setController_field {α : Type} (f : Creature → α)
    (hctrl : ∀ (c : Creature) (s : List Controller), f { c with controllerStack := s } = f c)
    (hemit : ∀ (c : Creature) (ev : Event), f (c.emit ev) = f c)
    (c : Creature) (ctrl : Controller) :
    f (c.setController ctrl) = f c := by
  unfold Creature.setController
  cases c.getController with
  | none => simp only; rw [hemit, pushController_field f hctrl hemit, hctrl]
  | some controller =>
    simp only; rw [hemit, pushController_field f hctrl hemit, hctrl, hemit]

lemma finishDeath_none (L : LastingEffects) (w4 : World) (selfId : UniqueId)
    (self2 : Creature) :
    w4.finishDeath L selfId self2 none = w4.afterCredit selfId self2 none := rfl

lemma finishDeath_some (L : LastingEffects) (w4 : World) (selfId : UniqueId)
    (self2 : Creature) (attackerId : UniqueId) :
    w4.finishDeath L selfId self2 (some attackerId) =
      match w4.onKilled L attackerId selfId self2.lastDamageType with
      | .fatal m w5 => .fatal m w5
      | .done w5 => w5.afterCredit selfId self2 (some attackerId) := rfl

lemma afterCredit_items (w5 : World) (selfId : UniqueId) (self2 : Creature)
    (attacker : Option UniqueId) :
    (w5.afterCredit selfId self2 attacker).state.items = w5.items := by
  unfold World.afterCredit
  simp only
  cases (((w5.emit (Event.creatureKilled selfId attacker)).emit
      (Event.tribeOnMemberKilled self2.tribe selfId attacker)).killCreature
        self2.position selfId).creature selfId <;> rfl

lemma afterCredit_creature (w5 : World) (selfId : UniqueId) (self2 : Creature)
    (attacker : Option UniqueId) :
    (∀ self3, w5.creature selfId = some self3 →
      w5.afterCredit selfId self2 attacker =
        .done ((((w5.emit (Event.creatureKilled selfId attacker)).emit
          (Event.tribeOnMemberKilled self2.tribe selfId attacker)).killCreature
            self2.position selfId).setCreature selfId
              (self3.setController DoNothingController))) ∧
    (w5.creature selfId = none → (w5.afterCredit selfId self2 attacker).state.creature =
      w5.creature) := by
  constructor
  · intro self3 h
    unfold World.afterCredit
    simp only
    have h8 : (((w5.emit (Event.creatureKilled selfId attacker)).emit
      (Event.tribeOnMemberKilled self2.tribe selfId attacker)).killCreature
        self2.position selfId).creature selfId = some self3 := h
    rw [h8]
  · intro h
    unfold World.afterCredit
    simp only
    have h8 : (((w5.emit (Event.creatureKilled selfId attacker)).emit
      (Event.tribeOnMemberKilled self2.tribe selfId attacker)).killCreature
        self2.position selfId).creature selfId = none := h
    rw [h8]
    rfl

/-- The statements after the kill credit keep every creature in the registry together with
every field that the change of controller does not touch. -/
lemma afterCredit_field {α : Type} (f : Creature → α)
    (hctrl : ∀ (c : Creature) (s : List Controller), f { c with controllerStack := s } = f c)
    (hemit : ∀ (c : Creature) (ev : Event), f (c.emit ev) = f c)
    (w5 : World) (selfId : UniqueId) (self2 : Creature) (attacker : Option UniqueId)
    (id : UniqueId) (x : α) (h : ∃ c, w5.creature id = some c ∧ f c = x) :
    ∃ c, (w5.afterCredit selfId self2 attacker).state.creature id = some c ∧ f c = x := by
  cases hs : w5.creature selfId with
  | none =>
    rw [(afterCredit_creature w5 selfId self2 attacker).2 hs]
    exact h
  | some self3 =>
    rw [(afterCredit_creature w5 selfId self2 attacker).1 self3 hs]
    simp only [Outcome.state]
    have h8 : ∃ c, (((w5.emit (Event.creatureKilled selfId attacker)).emit
        (Event.tribeOnMemberKilled self2.tribe selfId attacker)).killCreature
          self2.position selfId).creature id = some c ∧ f c = x := h
    refine field_setCreature f h8 selfId _ (fun e => ?_)
    rw [setController_field f hctrl hemit]
    obtain ⟨c, hc, hx⟩ := h
    rw [← e, hs] at hc
    cases hc
    exact hx

lemma finishDeath_items (L : LastingEffects) (w4 : World) (selfId : UniqueId)
    (self2 : Creature) (attacker : Option UniqueId) :
    (w4.finishDeath L selfId self2 attacker).state.items = w4.items := by
  cases attacker with
  | none => rw [finishDeath_none]; exact afterCredit_items _ _ _ _
  | some attackerId =>
    rw [finishDeath_some]
    have hk := onKilled_items L w4 attackerId selfId self2.lastDamageType
    cases hout : w4.onKilled L attackerId selfId self2.lastDamageType with
    | fatal m w5 => rw [hout] at hk; exact hk
    | done w5 =>
      rw [hout] at hk
      simp only
      rw [afterCredit_items]
      exact hk

/-- The end of the death transition keeps every creature in the registry together with
every field that the kill credit and the change of controller do not touch. -/
lemma finishDeath_field {α : Type} (L : LastingEffects) (f : Creature → α)
    (hcredit : ∀ (w : World) (k v : UniqueId) (ld : Option ExperienceType) (id : UniqueId)
      (x : α), (∃ c, w.creature id = some c ∧ f c = x) →
      ∃ c, (w.onKilled L k v ld).state.creature id = some c ∧ f c = x)
    (hctrl : ∀ (c : Creature) (s : List Controller), f { c with controllerStack := s } = f c)
    (hemit : ∀ (c : Creature) (ev : Event), f (c.emit ev) = f c)
    (w4 : World) (selfId : UniqueId) (self2 : Creature) (attacker : Option UniqueId)
    (id : UniqueId) (x : α) (h : ∃ c, w4.creature id = some c ∧ f c = x) :
    ∃ c, (w4.finishDeath L selfId self2 attacker).state.creature id = some c ∧ f c = x := by
  cases attacker with
  | none => rw [finishDeath_none]; exact afterCredit_field f hctrl hemit _ _ _ _ _ _ h
  | some attackerId =>
    rw [finishDeath_some]
    have hk := hcredit w4 attackerId selfId self2.lastDamageType id x h
    cases hout : w4.onKilled L attackerId selfId self2.lastDamageType with
    | fatal m w5 => rw [hout] at hk; exact hk
    | done w5 =>
      rw [hout] at hk
      simp only
      exact afterCredit_field f hctrl hemit _ _ _ _ _ _ hk

/-- Without an attacker the end of the death transition completes as soon as the dying
creature is in the registry. -/
lemma finishDeath_none_done (L : LastingEffects) (w4 : World) (selfId : UniqueId)
    (self2 : Creature) (h : ∃ c, w4.creature selfId = some c) :
    (w4.finishDeath L selfId self2 none).isFatal = false := by
  obtain ⟨c, hc⟩ := h
  rw [finishDeath_none, (afterCredit_creature w4 selfId self2 none).1 c hc]
  rfl

/-- C16: for a living creature with a global time and a controller, the state in which
dieWithAttacker(attacker, drops) ends follows the three-way drop policy.  With EVERYTHING
all items of the creature's equipment and then the corpse items have been dropped at its
position and its equipment is empty; with ONLY_INVENTORY the equipment items have been
dropped, nothing else (no corpse), and the equipment is empty; with NOTHING nothing has been
dropped and the equipment is untouched.  No other position receives an item.  Without an
attacker the call runs to completion. -/
theorem drop_policy (L : LastingEffects) (w : World) (selfId : UniqueId) (self : Creature)
    (attacker : Option UniqueId) (drops : DropType)
    (hself : w.creature selfId = some self) (hlive : self.isDead = false)
    (htime : self.getGlobalTime.isSome = true) (hctrl : self.controllerStack ≠ []) :
    (w.dieWithAttacker L selfId attacker drops).state.items self.position =
      w.items self.position ++ specDroppedItems self drops ∧
    (∀ pos, pos ≠ self.position →
      (w.dieWithAttacker L selfId attacker drops).state.items pos = w.items pos) ∧
    (∃ self', (w.dieWithAttacker L selfId attacker drops).state.creature selfId = some self' ∧
      self'.equipment = specEquipmentAfterDeath self drops) ∧
    (attacker = none → (w.dieWithAttacker L selfId attacker drops).isFatal = false) ∧
    specDroppedItems self DropType.EVERYTHING = self.equipment.getItems ++ self.generateCorpse ∧
    specDroppedItems self DropType.ONLY_INVENTORY = self.equipment.getItems ∧
    specDroppedItems self DropType.NOTHING = [] ∧
    specEquipmentAfterDeath self DropType.EVERYTHING = ⟨[]⟩ ∧
    specEquipmentAfterDeath self DropType.ONLY_INVENTORY = ⟨[]⟩ ∧
    specEquipmentAfterDeath self DropType.NOTHING = self.equipment := by
  obtain ⟨now, hnow⟩ := Option.isSome_iff_exists.mp htime
  obtain ⟨controller, hcontroller⟩ : ∃ controller, self.getController = some controller := by
    unfold Creature.getController
    cases hl : self.controllerStack.getLast? with
    | none => exact absurd (List.getLast?_eq_none_iff.mp hl) hctrl
    | some controller => exact ⟨controller, rfl⟩
  rw [dieWithAttacker_eq L hself hlive hnow hcontroller attacker drops]
  have hitems := atKillCredit_items (w.setCreature selfId
    (self.deathMarked now attacker controller)) selfId
    (self.deathMarked now attacker controller) drops
  have hcreature := atKillCredit_creature (w.setCreature selfId
    (self.deathMarked now attacker controller)) selfId
    (self.deathMarked now attacker controller) drops
  have hequip := atKillCredit_equipment (w.setCreature selfId
    (self.deathMarked now attacker controller)) selfId
    (self.deathMarked now attacker controller) drops
  have hspec : specDroppedItems (self.deathMarked now attacker controller) drops =
      specDroppedItems self drops := by cases drops <;> rfl
  have hspec2 : specEquipmentAfterDeath (self.deathMarked now attacker controller) drops =
      specEquipmentAfterDeath self drops := by cases drops <;> rfl
  refine ⟨?_, ?_, ?_, ?_, rfl, rfl, rfl, rfl, rfl, rfl⟩
  · rw [finishDeath_items, ← hspec]
    exact hitems.1
  · intro pos hpos
    rw [finishDeath_items]
    exact hitems.2 pos hpos
  · exact finishDeath_field L (fun c => c.equipment)
      (fun w k v ld id x h => onKilled_field L (fun c => c.equipment)
        (fun c t i => increaseExpLevel_field (fun c => c.equipment) (fun _ _ => rfl)
          (fun _ _ => rfl) c t i)
        (fun _ => rfl) (fun _ _ _ => rfl) w k v ld id x h)
      (fun _ _ => rfl) (fun _ _ => rfl) _ selfId _ attacker selfId _
      ⟨_, hcreature.1, hequip.trans hspec2⟩
  · intro hnone
    rw [hnone]
    exact finishDeath_none_done L _ selfId _ ⟨_, by rw [← hnone]; exact hcreature.1⟩

/-- Witness for C16: creature 2 of the armed world carries a sword (7) and gold (8) and
leaves a corpse (9); killed by creature 1, the three policies leave these items on its
square. -/
theorem drop_policy_witness :
    armedWorld.creature 2 = some armedVictim ∧ armedVictim.isDead = false ∧
    ((armedWorld.dieWithAttacker sampleEffects 2 (some 1) DropType.EVERYTHING).state.items
      armedVictim.position).map Item.id = [7, 8, 9] ∧
    ((armedWorld.dieWithAttacker sampleEffects 2 (some 1) DropType.ONLY_INVENTORY).state.items
      armedVictim.position).map Item.id = [7, 8] ∧
    ((armedWorld.dieWithAttacker sampleEffects 2 (some 1) DropType.NOTHING).state.items
      armedVictim.position).map Item.id = [] ∧
    (armedWorld.dieWithAttacker sampleEffects 2 (some 1) DropType.EVERYTHING).isFatal = false :=
  ⟨rfl, rfl,
   by rw [(drop_policy sampleEffects armedWorld 2 armedVictim (some 1) DropType.EVERYTHING
        rfl rfl rfl (by simp [armedVictim, sampleOther, sampleCreature])).1]; rfl,
   by rw [(drop_policy sampleEffects armedWorld 2 armedVictim (some 1) DropType.ONLY_INVENTORY
        rfl rfl rfl (by simp [armedVictim, sampleOther, sampleCreature])).1]; rfl,
   by rw [(drop_policy sampleEffects armedWorld 2 armedVictim (some 1) DropType.NOTHING
        rfl rfl rfl (by simp [armedVictim, sampleOther, sampleCreature])).1]; rfl,
   by with_unfolding_all decide⟩

lemma orElse_eq_true {a b : Except String Bool} :
    orElse a b = .ok true ↔ a = .ok true ∨ (a = .ok false ∧ b = .ok true) := by
  cases a with
  | error e => simp [orElse]
  | ok x => cases x <;> simp [orElse]

lemma notE_eq_false {a : Except String Bool} : notE a = .ok false ↔ a = .ok true := by
  cases a with
  | error e => simp [notE]
  | ok x => cases x <;> simp [notE]

/-- C18 as stated fails for the moving creature: a mover with a boulder body, and a mover
in the RESTRICTED_MOVEMENT condition (entangled), are both allowed to swap with a friendly
neighbour. -/
theorem canSwap_mover_unchecked_counterexample :
    boulderSelf.attributes.boulder = true ∧
    boulderSelf.canSwapPositionInMovement sampleEffects sampleWorld sampleFriend = .ok true ∧
    entangledSelf.hasCondition restrictingEffects CreatureCondition.RESTRICTED_MOVEMENT = true ∧
    entangledSelf.canSwapPositionInMovement restrictingEffects sampleWorld sampleFriend =
      .ok true := by
  exact ⟨rfl, by with_unfolding_all rfl, by with_unfolding_all decide,
    by with_unfolding_all rfl⟩

/-- C18 amended: canSwapPositionInMovement(other) is true only when the other creature is
not a boulder and not in the RESTRICTED_MOVEMENT condition, and the mover's swap-position
cooldown is 0 unless the mover is the player-controlled creature; the mover's own body and
conditions are not tested.  Exactly: it is true iff these hold and moreover the other is not
the player unless the mover is, the other does not regard the mover as an enemy, and each
of the two could enter the other's position if it were empty. -/
theorem canSwap_iff (L : LastingEffects) (w : World) (self other : Creature) :
    self.canSwapPositionInMovement L w other = .ok true ↔
      (other.hasCondition L CreatureCondition.RESTRICTED_MOVEMENT = false ∧
       (self.swapPositionCooldown = 0 ∨
         (self.swapPositionCooldown ≠ 0 ∧ self.isPlayer = .ok true)) ∧
       other.attributes.boulder = false ∧
       (other.isPlayer = .ok false ∨ (other.isPlayer = .ok true ∧ self.isPlayer = .ok true)) ∧
       other.isEnemy L w self = .ok false ∧
       w.canEnterEmpty other.position self = true ∧
       w.canEnterEmpty self.position other = true) := by
  unfold Creature.canSwapPositionInMovement
  simp only [andThen_eq_true, orElse_eq_true, notE_eq_true, notE_eq_false, Except.ok.injEq,
    Bool.not_eq_true', decide_eq_true_eq, decide_eq_false_iff_not]

/-- Witness for C18 amended: in the sample world `sampleSelf` may swap with its friendly
neighbour, and all the listed conditions hold. -/
theorem canSwap_iff_witness :
    sampleSelf.canSwapPositionInMovement sampleEffects sampleWorld sampleFriend = .ok true ∧
    sampleFriend.hasCondition sampleEffects CreatureCondition.RESTRICTED_MOVEMENT = false ∧
    sampleFriend.attributes.boulder = false ∧
    sampleSelf.swapPositionCooldown = 0 :=
  ⟨(canSwap_iff sampleEffects sampleWorld sampleSelf sampleFriend).mpr
      ⟨rfl, Or.inl rfl, rfl, Or.inl rfl, rfl, rfl, rfl⟩,
   rfl, rfl, rfl⟩

/-! ## The movement planner -/

lemma length8_nonneg (v : Vec2) : 0 ≤ v.length8 := le_max_of_le_left (abs_nonneg _)

lemma dist8_nonneg (p q : Position) : 0 ≤ p.dist8 q := length8_nonneg _

/-- Integer division by ten decides the same as the exact comparison with a tenth. -/
lemma tdiv_ten_iff (a b : Int) (hb : 0 ≤ b) : a > b.tdiv 10 ↔ (a : ℚ) > (b : ℚ) / 10 := by
  rw [Int.tdiv_eq_ediv hb (by norm_num), gt_iff_lt, gt_iff_lt,
    Int.ediv_lt_iff_lt_mul (by norm_num : (0 : Int) < 10), div_lt_iff₀ (by norm_num : (0 : ℚ) < 10)]
  exact_mod_cast Iff.rfl

lemma pathBias_eq (away : Bool) : pathBias away = if away then some (-1.5) else none := by
  cases away <;> rfl

lemma resetShortestPath_log (N : Navigation) (self : Creature) (pos : Position) (away : Bool) :
    (self.resetShortestPath N pos away).log =
      self.log ++ [Event.shortestPathComputed pos self.position (pathBias away)] := by
  cases away <;> rfl

lemma resetShortestPath_position (N : Navigation) (self : Creature) (pos : Position)
    (away : Bool) : (self.resetShortestPath N pos away).position = self.position := by
  cases away <;> rfl

lemma resetShortestPath_path (N : Navigation) (self : Creature) (pos : Position) (away : Bool) :
    (self.resetShortestPath N pos away).shortestPath =
      some (N.levelShortestPath self pos self.position (pathBias away)) := by
  cases away <;> rfl

lemma moveTowardsRetry_creature (L : LastingEffects) (N : Navigation) (w : World)
    (self1 : Creature) (pos : Position) (away : Bool) (flags : NavigationFlags) :
    (self1.moveTowardsRetry L N w pos away flags).2 = self1.resetShortestPath N pos away := by
  unfold Creature.moveTowardsRetry
  simp only []
  repeat' split
  all_goals rfl

/-- The creature after a `moveTowards` whose three entry checks pass: the path is computed
first if it is needed, and possibly once more by the fallback. -/
lemma moveTowards_creature (L : LastingEffects) (N : Navigation) (w : World) (self : Creature)
    (pos : Position) (away : Bool) (flags : NavigationFlags)
    (hlevel : pos.isSameLevel self.position = true)
    (hstep : (flags.stepOnTile && !w.canEnterEmpty pos self) = false)
    (hnav : (!away && !self.canNavigateTo N pos) = false) :
    (self.moveTowards L N w pos away flags).2 =
        (if self.needsNewPath pos away then self.resetShortestPath N pos away else self) ∨
      (self.moveTowards L N w pos away flags).2 =
        (if self.needsNewPath pos away then self.resetShortestPath N pos away
          else self).resetShortestPath N pos away := by
  unfold Creature.moveTowards
  simp only [hlevel, hstep, hnav, Bool.not_true, Bool.false_eq_true, if_false]
  split
  · exact Or.inl rfl
  · split
    · exact Or.inl rfl
    · exact Or.inl rfl
    · exact Or.inr (moveTowardsRetry_creature _ _ _ _ _ _ _)

/-- The recomputation condition of `moveTowards` in exact arithmetic. -/
lemma needsNewPath_iff (self : Creature) (pos : Position) (away : Bool) :
    self.needsNewPath pos away = true ↔
      (self.shortestPath = none ∨ ∃ path, self.shortestPath = some path ∧
        ((path.target.dist8 pos : ℚ) > (10 : ℚ) / 100 * (self.position.dist8 pos : ℚ) ∨
          path.reversed ≠ away)) := by
  unfold Creature.needsNewPath Creature.targetChanged
  cases hp : self.shortestPath with
  | none => simp
  | some path =>
    simp only [Bool.or_eq_true, decide_eq_true_eq, bne_iff_ne, ne_eq, false_or, reduceCtorEq,
      Option.some.injEq, exists_eq_left']
    rw [tdiv_ten_iff _ _ (dist8_nonneg _ _)]
    have : (10 : ℚ) / 100 * (self.position.dist8 pos : ℚ) = (self.position.dist8 pos : ℚ) / 10 := by
      ring
    rw [this]

/-- Claim C19: in `moveTowards(pos, away, flags)`, once the same-level check, the step-on-tile
check and the navigability check have passed, a new shortest path is needed exactly when there
is no cached path, or the cached target is farther (8-distance) from `pos` than 10% of the
creature's 8-distance to `pos`, or the cached direction differs from `away`. The call computes
at most two paths, at least one when a path is needed, each for the target `pos` from the
creature's position with the bias -1.5 when fleeing and without bias otherwise, and the path
cached afterwards is such a path. The integer division by 10 of the code decides the drift test
as the exact comparison with a tenth. -/
theorem moveTowards_new_path (L : LastingEffects) (N : Navigation) (w : World) (self : Creature)
    (pos : Position) (away : Bool) (flags : NavigationFlags)
    (hlevel : pos.isSameLevel self.position = true)
    (hstep : (flags.stepOnTile && !w.canEnterEmpty pos self) = false)
    (hnav : (!away && !self.canNavigateTo N pos) = false) :
    (self.needsNewPath pos away = true ↔
      (self.shortestPath = none ∨ ∃ path, self.shortestPath = some path ∧
        ((path.target.dist8 pos : ℚ) > (10 : ℚ) / 100 * (self.position.dist8 pos : ℚ) ∨
          path.reversed ≠ away))) ∧
    (∃ n : Nat, n ≤ 2 ∧ (self.needsNewPath pos away = true → 1 ≤ n) ∧
      (self.moveTowards L N w pos away flags).2.log = self.log ++ List.replicate n
        (Event.shortestPathComputed pos self.position (if away then some (-1.5) else none))) ∧
    (self.needsNewPath pos away = true →
      ∃ c : Creature, c.position = self.position ∧
        (self.moveTowards L N w pos away flags).2.shortestPath =
          some (N.levelShortestPath c pos self.position (if away then some (-1.5) else none))) ∧
    (∀ path, self.shortestPath = some path →
      (self.targetChanged pos = true ↔
        (path.target.dist8 pos : ℚ) > (self.position.dist8 pos : ℚ) / 10)) := by
  refine ⟨needsNewPath_iff self pos away, ?_, ?_, ?_⟩
  · rw [← pathBias_eq]
    rcases moveTowards_creature L N w self pos away flags hlevel hstep hnav with h | h
    · rw [h]
      cases hn : self.needsNewPath pos away
      · exact ⟨0, by norm_num, by simp, by simp⟩
      · exact ⟨1, by norm_num, by simp, by simp [resetShortestPath_log]⟩
    · rw [h]
      cases hn : self.needsNewPath pos away
      · exact ⟨1, by norm_num, by simp, by simp [resetShortestPath_log]⟩
      · refine ⟨2, le_refl _, by simp, ?_⟩
        simp [resetShortestPath_log, resetShortestPath_position, List.replicate]
  · intro hn
    rw [← pathBias_eq]
    rcases moveTowards_creature L N w self pos away flags hlevel hstep hnav with h | h
    · rw [h, hn]
      exact ⟨self, rfl, by simp [resetShortestPath_path]⟩
    · rw [h, hn]
      refine ⟨self.resetShortestPath N pos away, resetShortestPath_position _ _ _ _, ?_⟩
      simp [resetShortestPath_path, resetShortestPath_position]
  · intro path hp
    unfold Creature.targetChanged
    rw [hp]
    simp only [decide_eq_true_eq]
    exact tdiv_ten_iff _ _ (dist8_nonneg _ _)

/-- The sample creature without a cached path computes one unbiased path towards (5,0). -/
theorem moveTowards_new_path_witness :
    (sampleSelf.needsNewPath ⟨0, ⟨5, 0⟩⟩ false = true) ∧
    (sampleSelf.moveTowards sampleEffects sampleNavigation sampleWorld ⟨0, ⟨5, 0⟩⟩ false
        ⟨false, true⟩).2.log =
      [Event.shortestPathComputed ⟨0, ⟨5, 0⟩⟩ ⟨0, ⟨0, 0⟩⟩ none] ∧
    (∃ n : Nat, n ≤ 2 ∧ (sampleSelf.needsNewPath ⟨0, ⟨5, 0⟩⟩ false = true → 1 ≤ n) ∧
      (sampleSelf.moveTowards sampleEffects sampleNavigation sampleWorld ⟨0, ⟨5, 0⟩⟩ false
          ⟨false, true⟩).2.log = sampleSelf.log ++ List.replicate n
        (Event.shortestPathComputed ⟨0, ⟨5, 0⟩⟩ sampleSelf.position
          (if false then some (-1.5) else none))) :=
  ⟨by with_unfolding_all decide, by with_unfolding_all decide,
    (moveTowards_new_path sampleEffects sampleNavigation sampleWorld sampleSelf ⟨0, ⟨5, 0⟩⟩ false
      ⟨false, true⟩ (by decide) (by decide) (by decide)).2.1⟩

/-- Claim C20 (amended): for a creature with a cached path in the requested direction whose
target is one tile (8-distance 1) from the requested target `pos`, the drift test is negative,
and no new path is needed, exactly when the creature's 8-distance to `pos` is at least 10.
Below that distance every such call of `moveTowards` computes a new path first; from that
distance on a call whose first step is valid leaves the creature, cached path included,
unchanged. -/
theorem one_tile_drift_threshold (L : LastingEffects) (N : Navigation) (w : World)
    (self : Creature) (pos : Position) (away : Bool) (flags : NavigationFlags)
    (path : ShortestPath)
    (hpath : self.shortestPath = some path)
    (hdrift : path.target.dist8 pos = 1)
    (hdir : path.reversed = away)
    (hlevel : pos.isSameLevel self.position = true)
    (hstep : (flags.stepOnTile && !w.canEnterEmpty pos self) = false)
    (hnav : (!away && !self.canNavigateTo N pos) = false) :
    (self.targetChanged pos = false ↔ 10 ≤ self.position.dist8 pos) ∧
    (self.needsNewPath pos away = false ↔ 10 ≤ self.position.dist8 pos) ∧
    (self.position.dist8 pos < 10 →
      ∃ rest, (self.moveTowards L N w pos away flags).2.log =
        self.log ++ Event.shortestPathComputed pos self.position (pathBias away) :: rest) ∧
    (10 ≤ self.position.dist8 pos → path.isReachable self.position = true →
      returnsValid (self.move L w (path.getNextMove self.position)) = true →
      (self.moveTowards L N w pos away flags).2 = self) := by
  have hd := dist8_nonneg self.position pos
  have h1 : self.targetChanged pos = false ↔ 10 ≤ self.position.dist8 pos := by
    unfold Creature.targetChanged
    rw [hpath]
    simp only [hdrift, decide_eq_false_iff_not, gt_iff_lt, not_lt]
    rw [Int.tdiv_eq_ediv hd (by norm_num)]
    omega
  have h2 : self.needsNewPath pos away = false ↔ 10 ≤ self.position.dist8 pos := by
    rw [← h1]
    unfold Creature.needsNewPath
    rw [hpath]
    simp [hdir]
  refine ⟨h1, h2, ?_, ?_⟩
  · intro hlt
    have hn : self.needsNewPath pos away = true := by
      cases hc : self.needsNewPath pos away
      · have := h2.mp hc
        omega
      · rfl
    rcases moveTowards_creature L N w self pos away flags hlevel hstep hnav with h | h
    · rw [h, hn]
      exact ⟨[], by simp [resetShortestPath_log]⟩
    · rw [h, hn]
      exact ⟨[Event.shortestPathComputed pos self.position (pathBias away)], by
        simp [resetShortestPath_log, resetShortestPath_position]⟩
  · intro hge hreach hvalid
    have hn := h2.mpr hge
    unfold Creature.moveTowards
    simp only [hlevel, hstep, hnav, hn, Bool.not_true, Bool.false_eq_true, if_false, hpath,
      hreach, if_true]
    unfold returnsValid at hvalid
    cases hm : self.move L w (path.getNextMove self.position) with
    | error e => simp [hm] at hvalid
    | ok a =>
      cases a with
      | valid id body => rfl
      | invalid msg => simp [hm, CreatureAction.isValid] at hvalid

/-- At distance 19 a one-tile drift does not trigger the drift test. -/
theorem one_tile_drift_threshold_witness :
    ((pathedSelf ⟨0, ⟨20, 0⟩⟩).targetChanged ⟨0, ⟨19, 0⟩⟩ = false ↔
      10 ≤ (pathedSelf ⟨0, ⟨20, 0⟩⟩).position.dist8 ⟨0, ⟨19, 0⟩⟩) ∧
    (pathedSelf ⟨0, ⟨20, 0⟩⟩).targetChanged ⟨0, ⟨19, 0⟩⟩ = false ∧
    (pathedSelf ⟨0, ⟨20, 0⟩⟩).position.dist8 ⟨0, ⟨19, 0⟩⟩ = 19 :=
  ⟨(one_tile_drift_threshold sampleEffects sampleNavigation sampleWorld
      (pathedSelf ⟨0, ⟨20, 0⟩⟩) ⟨0, ⟨19, 0⟩⟩ false ⟨false, true⟩
      (sampleNavigation.levelShortestPath sampleSelf ⟨0, ⟨20, 0⟩⟩ sampleSelf.position none)
      rfl (by decide) rfl (by decide) (by decide) (by decide)).1,
    by decide, by decide⟩

/-- Claim C20 as stated fails: the sample creature chasing a target that comes one tile closer
between calls, from distance 5, finds the drift test positive at every call and computes a
path in each of the four calls. -/
theorem drift_recomputes_every_call_counterexample :
    (chase sampleSelf [⟨0, ⟨5, 0⟩⟩]).targetChanged ⟨0, ⟨4, 0⟩⟩ = true ∧
    (chase sampleSelf [⟨0, ⟨5, 0⟩⟩, ⟨0, ⟨4, 0⟩⟩]).targetChanged ⟨0, ⟨3, 0⟩⟩ = true ∧
    (chase sampleSelf [⟨0, ⟨5, 0⟩⟩, ⟨0, ⟨4, 0⟩⟩, ⟨0, ⟨3, 0⟩⟩]).targetChanged ⟨0, ⟨2, 0⟩⟩ = true ∧
    (chase sampleSelf [⟨0, ⟨5, 0⟩⟩, ⟨0, ⟨4, 0⟩⟩, ⟨0, ⟨3, 0⟩⟩, ⟨0, ⟨2, 0⟩⟩]).log =
      [Event.shortestPathComputed ⟨0, ⟨5, 0⟩⟩ ⟨0, ⟨0, 0⟩⟩ none,
       Event.shortestPathComputed ⟨0, ⟨4, 0⟩⟩ ⟨0, ⟨0, 0⟩⟩ none,
       Event.shortestPathComputed ⟨0, ⟨3, 0⟩⟩ ⟨0, ⟨0, 0⟩⟩ none,
       Event.shortestPathComputed ⟨0, ⟨2, 0⟩⟩ ⟨0, ⟨0, 0⟩⟩ none] := by
  refine ⟨?_, ?_, ?_, ?_⟩ <;> with_unfolding_all decide

/-! ## Taking damage -/

lemma afterDamageLoop_filter (S : Combat) (p : Event → Bool)
    (hp : ∀ effect, p (Event.afterCreatureDamage effect) = false)
    (effects : List LastingEffect) (self : Creature) (calls : List Event) :
    ((self.afterDamageLoop S calls effects).2).filter p = calls.filter p := by
  induction effects generalizing self calls with
  | nil => rfl
  | cons effect rest ih =>
    unfold Creature.afterDamageLoop
    split
    · rw [ih, List.filter_append]
      simp [hp]
    · exact ih _ _

lemma takeDamageTail_result (S : Combat) (w : World) (selfId : UniqueId) (self : Creature)
    (attack : Attack) (calls : List Event) :
    (w.takeDamageTail S selfId self attack calls).result = false := rfl

lemma takeDamageTail_bodyDamage (S : Combat) (w : World) (selfId : UniqueId) (self : Creature)
    (attack : Attack) (calls : List Event) :
    (w.takeDamageTail S selfId self attack calls).calls.filter Event.isBodyDamage =
      calls.filter Event.isBodyDamage := by
  unfold World.takeDamageTail
  simp only []
  rw [afterDamageLoop_filter S _ (fun _ => rfl)]
  cases attack.effect <;> simp [Event.isBodyDamage]

lemma takeDamageTail_effectApplied (S : Combat) (w : World) (selfId : UniqueId)
    (self : Creature) (attack : Attack) (calls : List Event) :
    (w.takeDamageTail S selfId self attack calls).calls.filter Event.isEffectApplied =
      calls.filter Event.isEffectApplied ++
        (match attack.effect with
          | some effect => [Event.effectApplied effect attack.attacker]
          | none => []) := by
  unfold World.takeDamageTail
  simp only []
  rw [afterDamageLoop_filter S _ (fun _ => rfl)]
  cases attack.effect <;> simp [Event.isEffectApplied]

lemma attackSoundCalls_ok (S : Combat) (self : Creature) (attack : Attack) (damage : ℚ)
    (hgame : self.game.isSome = true) :
    ∃ calls, self.attackSoundCalls S attack damage = .ok calls ∧
      calls.filter Event.isBodyDamage = [] ∧ calls.filter Event.isEffectApplied = [] := by
  unfold Creature.attackSoundCalls
  cases hg : self.game with
  | none => rw [hg] at hgame; exact absurd hgame (by simp)
  | some g =>
    split
    · exact ⟨_, rfl, rfl, rfl⟩
    · exact ⟨_, rfl, rfl, rfl⟩

lemma damageFraction_nonneg (S : Combat) (L : LastingEffects) (self : Creature)
    (attack : Attack) : 0 ≤ self.damageFraction S L attack := by
  unfold Creature.damageFraction
  cases divDouble (attack.strength : ℚ) (self.defenseAgainst S L attack) with
  | finite q => exact (getDamage_range q).1
  | posInf => exact zero_le_one
  | negInf => exact le_refl _
  | nan => exact zero_le_one

/-- Claim C14: `takeDamage(attack)` on a creature whose attacker block has completed and
which has a game and a controller runs to completion. It returns true iff the damage fraction
`getDamage(strength / defense)` is positive and the body's damage application reports that the
creature died. The body's damage application is called exactly once, with that fraction, when
the fraction is positive, and not at all otherwise; the fraction is never negative, and when
it is 0 the result is false. The triggered effect of the attack, if there is one, is applied
exactly once when the result is false (the creature was not killed by the physical damage),
whatever the fraction, and not at all when the result is true. -/
theorem takeDamage_result (S : Combat) (L : LastingEffects) (w w1 : World) (selfId : UniqueId)
    (self : Creature) (attack : Attack)
    (hpre : w.takeDamagePrelude S L selfId attack = .done w1)
    (hself : w1.creature selfId = some self)
    (hgame : self.game.isSome = true)
    (hctrl : self.getController.isSome = true) :
    ∃ run, w.takeDamage S L selfId attack = .done run ∧
      (run.result = true ↔ (0 < self.damageFraction S L attack ∧
        (S.bodyTakeDamage self attack (self.damageFraction S L attack)).1 = true)) ∧
      run.calls.filter Event.isBodyDamage =
        (if 0 < self.damageFraction S L attack then
          [Event.bodyTakeDamage (self.damageFraction S L attack)] else []) ∧
      0 ≤ self.damageFraction S L attack ∧
      (self.damageFraction S L attack = 0 →
        run.result = false ∧ run.calls.filter Event.isBodyDamage = []) ∧
      run.calls.filter Event.isEffectApplied =
        (match attack.effect with
          | some effect =>
            if run.result then [] else [Event.effectApplied effect attack.attacker]
          | none => []) := by
  unfold World.takeDamage
  rw [hpre]
  simp only [hself]
  unfold World.takeDamageCore
  simp only []
  obtain ⟨calls, hcalls, hb, he⟩ :=
    attackSoundCalls_ok S self attack (self.damageFraction S L attack) hgame
  rw [hcalls]
  simp only []
  by_cases hd : 0 < self.damageFraction S L attack
  · have hd2 : self.damageFraction S L attack > 0 := hd
    simp only [hd2, if_true]
    cases hr : (S.bodyTakeDamage self attack (self.damageFraction S L attack)).1
    · refine ⟨_, rfl, ?_, ?_, ?_, ?_, ?_⟩
      · simp [takeDamageTail_result, hr]
      · rw [takeDamageTail_bodyDamage]
        simp [hb, hd, Event.isBodyDamage]
      · exact damageFraction_nonneg S L self attack
      · intro hle
        exact absurd hd (not_lt.mpr hle.le)
      · rw [takeDamageTail_effectApplied, takeDamageTail_result]
        cases attack.effect <;> simp [he, Event.isEffectApplied]
    · refine ⟨_, rfl, ?_, ?_, ?_, ?_, ?_⟩
      · simp [hd, hr]
      · simp [hb, hd, Event.isBodyDamage]
      · exact damageFraction_nonneg S L self attack
      · intro hle
        exact absurd hd (not_lt.mpr hle.le)
      · cases attack.effect <;> simp [he, Event.isEffectApplied]
  · have hd2 : ¬ self.damageFraction S L attack > 0 := hd
    simp only [hd2, if_false]
    cases hc : self.getController with
    | none => rw [hc] at hctrl; exact absurd hctrl (by simp)
    | some controller =>
      refine ⟨_, rfl, ?_, ?_, ?_, ?_, ?_⟩
      · simp [takeDamageTail_result, hd]
      · rw [takeDamageTail_bodyDamage]
        simp [hb, hd, Event.isBodyDamage]
      · exact damageFraction_nonneg S L self attack
      · intro _
        refine ⟨rfl, ?_⟩
        rw [takeDamageTail_bodyDamage]
        simp [hb, Event.isBodyDamage]
      · rw [takeDamageTail_effectApplied, takeDamageTail_result]
        cases attack.effect <;> simp [he, Event.isEffectApplied]


/-- An attack of strength 5 against defense 10 deals no damage: sound, message and the
triggered effect once; an attack of strength 30 kills through the body. -/
theorem takeDamage_result_witness :
    (sampleWorld.takeDamage sampleCombat sampleEffects 1 (sampleAttack 5)).state.calls =
      [Event.attackSound, Event.getHitNoDamage, Event.effectApplied ⟨7⟩ (some 2)] ∧
    (sampleWorld.takeDamage sampleCombat sampleEffects 1 (sampleAttack 30)).state.calls =
      [Event.attackSound, Event.bodyTakeDamage 1] ∧
    (sampleWorld.takeDamage sampleCombat sampleEffects 1 (sampleAttack 30)).state.result = true ∧
    attackedSelf.damageFraction sampleCombat sampleEffects (sampleAttack 5) = 0 ∧
    ∃ run, sampleWorld.takeDamage sampleCombat sampleEffects 1 (sampleAttack 5) = .done run ∧
      (run.result = true ↔
        (0 < attackedSelf.damageFraction sampleCombat sampleEffects (sampleAttack 5) ∧
          (sampleCombat.bodyTakeDamage attackedSelf (sampleAttack 5)
            (attackedSelf.damageFraction sampleCombat sampleEffects (sampleAttack 5))).1 = true)) ∧
      run.calls.filter Event.isBodyDamage =
        (if 0 < attackedSelf.damageFraction sampleCombat sampleEffects (sampleAttack 5) then
          [Event.bodyTakeDamage
            (attackedSelf.damageFraction sampleCombat sampleEffects (sampleAttack 5))]
        else []) ∧
      0 ≤ attackedSelf.damageFraction sampleCombat sampleEffects (sampleAttack 5) ∧
      (attackedSelf.damageFraction sampleCombat sampleEffects (sampleAttack 5) = 0 →
        run.result = false ∧ run.calls.filter Event.isBodyDamage = []) ∧
      run.calls.filter Event.isEffectApplied =
        (match (sampleAttack 5).effect with
          | some effect =>
            if run.result then [] else [Event.effectApplied effect (sampleAttack 5).attacker]
          | none => []) :=
  ⟨by with_unfolding_all decide, by with_unfolding_all decide, by with_unfolding_all decide,
    by with_unfolding_all decide,
    takeDamage_result sampleCombat sampleEffects sampleWorld
      (sampleWorld.takeDamagePrelude sampleCombat sampleEffects 1 (sampleAttack 5)).state 1
      attackedSelf (sampleAttack 5) (by with_unfolding_all rfl) (by with_unfolding_all rfl)
      (by decide) (by decide)⟩

/-! ## Attribute value, morale, difficulty points -/

lemma getAttr_fold (type : AttrType) (items : List Item) (acc : ℚ) :
    items.foldl
      (fun (acc : ℚ) (item : Item) =>
        if item.itemClass ≠ ItemClass.WEAPON ∨ type ≠ item.meleeAttackAttr then
          acc + (item.getModifier type : ℚ)
        else acc) acc =
    acc + ((items.filter fun item =>
          !(item.itemClass == ItemClass.WEAPON && type == item.meleeAttackAttr)).map
        fun item => (item.getModifier type : ℚ)).sum := by
  induction items generalizing acc with
  | nil => simp
  | cons item rest ih =>
    rw [List.foldl_cons, ih]
    by_cases h : item.itemClass ≠ ItemClass.WEAPON ∨ type ≠ item.meleeAttackAttr
    · have hf : (!(item.itemClass == ItemClass.WEAPON && type == item.meleeAttackAttr)) = true := by
        rcases h with h | h <;> simp [h]
      rw [if_pos h, List.filter_cons, if_pos hf, List.map_cons, List.sum_cons]
      ring
    · have hf : ¬ (!(item.itemClass == ItemClass.WEAPON && type == item.meleeAttackAttr)) = true := by
        push_neg at h
        simp [h.1, h.2]
      rw [if_neg h, List.filter_cons, if_neg hf]

lemma castInt_range (q : ℚ) : -2 ^ 31 ≤ castInt q ∧ castInt q < 2 ^ 31 := by
  unfold castInt
  split
  · assumption
  · constructor <;> norm_num

lemma castInt_of_range (q : ℚ) (h : -2 ^ 31 ≤ truncate q ∧ truncate q < 2 ^ 31) :
    castInt q = truncate q := by
  unfold castInt
  rw [if_pos h]

lemma getAttr_eq (L : LastingEffects) (c : Creature) (type : AttrType) :
    c.getAttr L type = max 0 (castInt (specAttrValue L c type)) := by
  unfold Creature.getAttr specAttrValue
  simp only []
  rw [getAttr_fold]

lemma getAttr_range (L : LastingEffects) (c : Creature) (type : AttrType) :
    0 ≤ c.getAttr L type ∧ c.getAttr L type < 2 ^ 31 := by
  rw [getAttr_eq]
  exact ⟨le_max_left _ _, max_lt (by norm_num) (castInt_range _).2⟩

/-- Claim C21: `getAttr(type)` is `max(0, (int) v)`, where `v` is the body's modification of
the raw attribute, plus the modifiers of the equipped items (an equipped weapon's modifier for
its own melee attack attribute is skipped), with the lasting-effect modifiers applied last.
Whenever the truncation of `v` is representable as an `int`, this is `max(0, trunc(v))`.
For every creature and attribute type `getAttr` is a non-negative `int`. -/
theorem getAttr_clamped (L : LastingEffects) (c : Creature) (type : AttrType) :
    c.getAttr L type = max 0 (castInt (specAttrValue L c type)) ∧
    (-2 ^ 31 ≤ truncate (specAttrValue L c type) ∧ truncate (specAttrValue L c type) < 2 ^ 31 →
      c.getAttr L type = max 0 (truncate (specAttrValue L c type))) ∧
    0 ≤ c.getAttr L type ∧ c.getAttr L type < 2 ^ 31 := by
  refine ⟨getAttr_eq L c type, ?_, (getAttr_range L c type).1, (getAttr_range L c type).2⟩
  intro h
  rw [getAttr_eq, castInt_of_range _ h]

set_option maxRecDepth 100000 in
/-- The sample creature has DEFENSE 10. With raw attributes at the largest `int` and a sword
that adds 3, the value of DEFENSE is 2147483650, outside the `int` range, and `getAttr`
yields 0; DAMAGE, the sword's own attribute, stays at 2147483647. -/
theorem getAttr_clamped_witness :
    sampleSelf.getAttr sampleEffects AttrType.DEFENSE = 10 ∧
    truncate (specAttrValue sampleEffects hugeSelf AttrType.DEFENSE) = 2147483650 ∧
    hugeSelf.getAttr sampleEffects AttrType.DEFENSE = 0 ∧
    hugeSelf.getAttr sampleEffects AttrType.DAMAGE = 2147483647 ∧
    sampleSelf.getAttr sampleEffects AttrType.DEFENSE =
      max 0 (truncate (specAttrValue sampleEffects sampleSelf AttrType.DEFENSE)) :=
  ⟨by with_unfolding_all decide, by with_unfolding_all decide, by with_unfolding_all decide,
    by with_unfolding_all decide,
    (getAttr_clamped sampleEffects sampleSelf AttrType.DEFENSE).2.1
      (by with_unfolding_all decide)⟩

/-- Claim C22: after `addMorale(v)` the stored morale is `min(1, max(-1, m + v))` for the
morale `m` stored before, and lies in [-1, 1]; `getMorale()` lies in [-1, 1] whatever the
lasting-effect morale increase is. -/
theorem morale_bounded (getMoraleIncrease : Creature → ℚ) (c : Creature) (v : ℚ) :
    (c.addMorale v).morale = min 1 (max (-1) (c.morale + v)) ∧
    -1 ≤ (c.addMorale v).morale ∧ (c.addMorale v).morale ≤ 1 ∧
    -1 ≤ c.getMorale getMoraleIncrease ∧ c.getMorale getMoraleIncrease ≤ 1 := by
  have hb : ∀ x : ℚ, -1 ≤ min 1 (max (-1) x) ∧ min 1 (max (-1) x) ≤ 1 := fun x =>
    ⟨le_min (by norm_num) (le_max_left _ _), min_le_left _ _⟩
  exact ⟨rfl, (hb _).1, (hb _).2, (hb _).1, (hb _).2⟩

lemma intAdd_exact (a b : Int) (h0 : -2 ^ 31 ≤ a + b) (h1 : a + b < 2 ^ 31) :
    intAdd a b = a + b := by
  unfold intAdd
  omega

/-- The `int` sum of the three attributes is their exact sum when that is below 2^31. -/
lemma attrSum_exact (L : LastingEffects) (c : Creature)
    (h : c.getAttr L AttrType.SPELL_DAMAGE + c.getAttr L AttrType.DEFENSE +
      c.getAttr L AttrType.DAMAGE < 2 ^ 31) :
    intAdd (intAdd (c.getAttr L AttrType.SPELL_DAMAGE) (c.getAttr L AttrType.DEFENSE))
        (c.getAttr L AttrType.DAMAGE) =
      c.getAttr L AttrType.SPELL_DAMAGE + c.getAttr L AttrType.DEFENSE +
        c.getAttr L AttrType.DAMAGE := by
  have h1 := (getAttr_range L c AttrType.SPELL_DAMAGE).1
  have h2 := (getAttr_range L c AttrType.DEFENSE).1
  have h3 := (getAttr_range L c AttrType.DAMAGE).1
  have hinner : intAdd (c.getAttr L AttrType.SPELL_DAMAGE) (c.getAttr L AttrType.DEFENSE) =
      c.getAttr L AttrType.SPELL_DAMAGE + c.getAttr L AttrType.DEFENSE :=
    intAdd_exact _ _ (by omega) (by omega)
  rw [hinner]
  exact intAdd_exact _ _ (by omega) (by omega)

lemma getDifficultyPoints_fst (L : LastingEffects) (c : Creature) :
    (c.getDifficultyPoints L).1 = max c.difficultyPoints
      (intAdd (intAdd (c.getAttr L AttrType.SPELL_DAMAGE) (c.getAttr L AttrType.DEFENSE))
        (c.getAttr L AttrType.DAMAGE)) := rfl

lemma getDifficultyPoints_cache (L : LastingEffects) (c : Creature) :
    (c.getDifficultyPoints L).2.difficultyPoints = (c.getDifficultyPoints L).1 := rfl

lemma difficultyRun_ge (steps : List (LastingEffects × (Creature → Creature)))
    (hkeep : ∀ step ∈ steps, ∀ c : Creature, (step.2 c).difficultyPoints = c.difficultyPoints)
    (c : Creature) :
    (∀ v ∈ (difficultyRun c steps).1, c.difficultyPoints ≤ v) ∧
      (difficultyRun c steps).1.Pairwise (· ≤ ·) := by
  induction steps generalizing c with
  | nil => exact ⟨by simp [difficultyRun], by simp [difficultyRun]⟩
  | cons step rest ih =>
    have hstep := hkeep step (List.mem_cons_self _ _) c
    have hrest := ih (fun s hs => hkeep s (List.mem_cons_of_mem _ hs))
      ((step.2 c).getDifficultyPoints step.1).2
    have hfirst : c.difficultyPoints ≤ ((step.2 c).getDifficultyPoints step.1).1 := by
      rw [getDifficultyPoints_fst, hstep]
      exact le_max_left _ _
    rw [getDifficultyPoints_cache] at hrest
    unfold difficultyRun
    simp only [List.mem_cons, List.pairwise_cons]
    refine ⟨?_, hrest.1, hrest.2⟩
    rintro v (rfl | hv)
    · exact hfirst
    · exact le_trans hfirst (hrest.1 v hv)

/-- Claim C23: a call of `getDifficultyPoints` returns the larger of the cached value and the
`int` sum `getAttr(SPELL_DAMAGE) + getAttr(DEFENSE) + getAttr(DAMAGE)` and stores it; when
the exact sum of the three attributes is below 2^31 the `int` sum is the exact sum, and the
result is at least that sum. Over a sequence of calls, between which the creature and the
lasting-effect modifiers change in any way that leaves the cache alone, the returned values
never decrease and none is below the value cached at the start. -/
theorem difficultyPoints_monotone (L : LastingEffects) (c : Creature)
    (steps : List (LastingEffects × (Creature → Creature)))
    (hkeep : ∀ step ∈ steps, ∀ c : Creature, (step.2 c).difficultyPoints = c.difficultyPoints) :
    (c.getDifficultyPoints L).1 = max c.difficultyPoints
      (intAdd (intAdd (c.getAttr L AttrType.SPELL_DAMAGE) (c.getAttr L AttrType.DEFENSE))
        (c.getAttr L AttrType.DAMAGE)) ∧
    (c.getDifficultyPoints L).2 =
      { c with difficultyPoints := (c.getDifficultyPoints L).1 } ∧
    (c.getAttr L AttrType.SPELL_DAMAGE + c.getAttr L AttrType.DEFENSE +
        c.getAttr L AttrType.DAMAGE < 2 ^ 31 →
      (c.getDifficultyPoints L).1 = max c.difficultyPoints
        (c.getAttr L AttrType.SPELL_DAMAGE + c.getAttr L AttrType.DEFENSE +
          c.getAttr L AttrType.DAMAGE) ∧
      c.getAttr L AttrType.SPELL_DAMAGE + c.getAttr L AttrType.DEFENSE +
        c.getAttr L AttrType.DAMAGE ≤ (c.getDifficultyPoints L).1) ∧
    c.difficultyPoints ≤ (c.getDifficultyPoints L).1 ∧
    (difficultyRun c steps).1.Pairwise (· ≤ ·) ∧
    (∀ v ∈ (difficultyRun c steps).1, c.difficultyPoints ≤ v) ∧
    (difficultyRun c steps).1.length = steps.length := by
  refine ⟨rfl, rfl, ?_, le_max_left _ _, (difficultyRun_ge steps hkeep c).2,
    (difficultyRun_ge steps hkeep c).1, ?_⟩
  · intro h
    rw [getDifficultyPoints_fst, attrSum_exact L c h]
    exact ⟨rfl, le_max_right _ _⟩
  · clear hkeep
    induction steps generalizing c with
    | nil => rfl
    | cons step rest ih =>
      unfold difficultyRun
      simp only [List.length_cons, add_left_inj]
      exact ih _

set_option maxRecDepth 100000 in
/-- The sample creature queried, weakened and queried again: the cached 30 is returned
although the attribute sum has dropped to 3. With three attributes of 10^9 the `int` sum
overflows and the cached 0 is returned. -/
theorem difficultyPoints_monotone_witness :
    (difficultyRun sampleSelf [(sampleEffects, id), (sampleEffects, weaken)]).1 = [30, 30] ∧
    (weaken sampleSelf).getAttr sampleEffects AttrType.DAMAGE = 1 ∧
    strongSelf.getAttr sampleEffects AttrType.DAMAGE = 1000000000 ∧
    (strongSelf.getDifficultyPoints sampleEffects).1 = 0 ∧
    (difficultyRun sampleSelf [(sampleEffects, id), (sampleEffects, weaken)]).1.Pairwise
      (· ≤ ·) :=
  ⟨by with_unfolding_all decide, by with_unfolding_all decide, by with_unfolding_all decide,
    by with_unfolding_all decide,
    (difficultyPoints_monotone sampleEffects sampleSelf
      [(sampleEffects, id), (sampleEffects, weaken)]
      (by
        intro step hstep c
        simp only [List.mem_cons, List.mem_singleton, List.not_mem_nil, or_false] at hstep
        rcases hstep with rfl | rfl <;> rfl)).2.2.2.2.1⟩

/-! ## Gold, controller notifications, remaining time -/

lemma getGoldLoop_never (num : Int) (items ret : List Item)
    (h : toSizeT num ≤ (ret.length : Int)) : getGoldLoop num items ret = ret ++ items := by
  induction items generalizing ret with
  | nil => simp [getGoldLoop]
  | cons item rest ih =>
    unfold getGoldLoop
    have hlen : ((ret ++ [item]).length : Int) = (ret.length : Int) + 1 := by simp
    have hne : ¬ ((ret ++ [item]).length : Int) = toSizeT num := by omega
    simp only [hne, if_false]
    rw [ih _ (by omega)]
    simp

lemma getGoldLoop_take (num : Int) (items ret : List Item)
    (h : (ret.length : Int) < toSizeT num) :
    getGoldLoop num items ret = ret ++ items.take (toSizeT num - ret.length).toNat := by
  induction items generalizing ret with
  | nil => simp [getGoldLoop]
  | cons item rest ih =>
    unfold getGoldLoop
    have hlen : ((ret ++ [item]).length : Int) = (ret.length : Int) + 1 := by simp
    obtain ⟨k, hk⟩ : ∃ k : Nat, (toSizeT num - ret.length).toNat = k + 1 :=
      ⟨(toSizeT num - ret.length).toNat - 1, by omega⟩
    by_cases heq : ((ret ++ [item]).length : Int) = toSizeT num
    · simp only [heq, if_true]
      have hk0 : k = 0 := by omega
      rw [hk, hk0]
      simp
    · simp only [heq, if_false]
      rw [ih _ (by omega), hk, hlen]
      have hk2 : (toSizeT num - ((ret.length : Int) + 1)).toNat = k := by omega
      rw [hk2]
      simp

/-- Claim C27: `getGold(0)` returns every gold item of the equipment, not none: the test
`ret.size() == num` is made only after an item has been pushed. For `1 ≤ num < 2^64` the
result is the first `num` gold items (all of them if there are fewer). The sample creature
with three gold items hands over all three for `num = 0`. -/
theorem getGold_zero_returns_all (c : Creature) :
    c.getGold 0 = c.goldItems ∧
    (∀ num : Int, 1 ≤ num → num < 2 ^ 64 → c.getGold num = c.goldItems.take num.toNat) ∧
    (richSelf.getGold 0).map (fun it => it.id) = [8, 18, 28] ∧
    (richSelf.getGold 2).map (fun it => it.id) = [8, 18] := by
  refine ⟨?_, ?_, by with_unfolding_all decide, by with_unfolding_all decide⟩
  · unfold Creature.getGold
    rw [getGoldLoop_never 0 _ _ (by simp [toSizeT])]
    simp
  · intro num h1 h2
    have hs : toSizeT num = num := by
      unfold toSizeT
      exact Int.emod_eq_of_lt (by omega) h2
    unfold Creature.getGold
    rw [getGoldLoop_take num _ _ (by rw [hs]; simpa using h1), hs]
    simp

lemma getController_append (c : Creature) (s : List Controller) (ctrl : Controller) :
    Creature.getController { c with controllerStack := s ++ [ctrl] } = some ctrl := by
  simp [Creature.getController]

lemma pushController_log (c : Creature) (ctrl : Controller) :
    (c.pushController ctrl).log =
      c.log ++ (match c.getController with
        | some top => [Event.onEndedControl top]
        | none => []) ++ [Event.onStartedControl ctrl] := by
  unfold Creature.pushController
  cases c.getController <;> simp [Creature.emit]

lemma pushController_stack (c : Creature) (ctrl : Controller) :
    (c.pushController ctrl).controllerStack = c.controllerStack ++ [ctrl] := by
  unfold Creature.pushController
  cases c.getController <;> simp [Creature.emit]

lemma getController_push (c : Creature) (ctrl : Controller) :
    (c.pushController ctrl).getController = some ctrl := by
  simp [Creature.getController, pushController_stack]

lemma popController_of_top (c : Creature) (top : Controller)
    (h : c.getController = some top) :
    c.popController.controllerStack = c.controllerStack.dropLast ∧
    c.popController.log = c.log ++ [Event.onEndedControl top] ++
      (match c.controllerStack.dropLast.getLast? with
        | some below => [Event.onStartedControl below]
        | none => []) := by
  have hne : c.controllerStack.isEmpty = false := by
    cases hs : c.controllerStack with
    | nil => simp [Creature.getController, hs] at h
    | cons a l => rfl
  unfold Creature.popController
  rw [h]
  simp only [hne, Bool.not_false, if_true, Creature.getController, Creature.emit]
  cases c.controllerStack.dropLast.getLast? <;> simp

/-- Claim C29: `setController(ctrl)` sends `onStartedControl` to `ctrl` twice (once inside
`pushController`, once more after it), after `onEndedControl` to the controller that was
active, and leaves the stack `[ctrl]`. `pushController(ctrl)` sends `onEndedControl` once to
the controller that was active and `onStartedControl` once to `ctrl`; `popController` right
after it sends `onEndedControl` once to `ctrl` and `onStartedControl` once to the controller
that is active again, and restores the stack. -/
theorem setController_starts_twice (c : Creature) (ctrl : Controller) :
    (c.setController ctrl).log =
      c.log ++ (match c.getController with
        | some top => [Event.onEndedControl top]
        | none => []) ++ [Event.onStartedControl ctrl, Event.onStartedControl ctrl] ∧
    (c.setController ctrl).controllerStack = [ctrl] ∧
    (c.pushController ctrl).log =
      c.log ++ (match c.getController with
        | some top => [Event.onEndedControl top]
        | none => []) ++ [Event.onStartedControl ctrl] ∧
    (c.pushController ctrl).controllerStack = c.controllerStack ++ [ctrl] ∧
    ((c.pushController ctrl).popController).controllerStack = c.controllerStack ∧
    ((c.pushController ctrl).popController).log =
      (c.pushController ctrl).log ++ [Event.onEndedControl ctrl] ++
        (match c.getController with
          | some top => [Event.onStartedControl top]
          | none => []) ∧
    (sampleSelf.setController DoNothingController).log =
      [Event.onEndedControl ⟨1, false⟩, Event.onStartedControl DoNothingController,
        Event.onStartedControl DoNothingController] := by
  refine ⟨?_, ?_, pushController_log c ctrl, pushController_stack c ctrl, ?_, ?_, by decide⟩
  · unfold Creature.setController
    simp only []
    cases hc : c.getController <;>
      simp [Creature.emit, pushController_log, Creature.getController]
  · unfold Creature.setController
    simp only []
    cases hc : c.getController <;> simp [Creature.emit, pushController_stack]
  · rw [(popController_of_top _ ctrl (getController_push c ctrl)).1, pushController_stack]
    simp
  · rw [(popController_of_top _ ctrl (getController_push c ctrl)).2, pushController_stack]
    simp [Creature.getController]

/-- Claim C30 as stated fails: with the expiry of SLEEP equal to the current time 10 and no
permanent count, `getTimeRemaining(SLEEP)` is present, with value 0, while
`isAffected(SLEEP)` is false. -/
theorem timeRemaining_zero_counterexample :
    (ledgerCreature LastingEffect.SLEEP 10 0).getGlobalTime = some 10 ∧
    (ledgerCreature LastingEffect.SLEEP 10 0).attributes.permanentEffects LastingEffect.SLEEP = 0 ∧
    (ledgerCreature LastingEffect.SLEEP 10 0).getTimeRemaining LastingEffect.SLEEP = some 0 ∧
    (ledgerCreature LastingEffect.SLEEP 10 0).isAffected LastingEffect.SLEEP = false := by
  decide

lemma timeRemaining_with_time (c : Creature) (effect : LastingEffect) (now : GlobalTime)
    (hnow : c.getGlobalTime = some now)
    (hperm : c.attributes.permanentEffects effect = 0) :
    ((c.getTimeRemaining effect).isSome = true ↔ now ≤ c.attributes.getTimeOut effect) ∧
    (∀ r, c.getTimeRemaining effect = some r →
      r = c.attributes.getTimeOut effect - now ∧ 0 ≤ r) ∧
    (c.isAffected effect = true ↔ ∃ r, c.getTimeRemaining effect = some r ∧ 0 < r) := by
  unfold Creature.getTimeRemaining Creature.isAffected CreatureAttributes.isAffected
    CreatureAttributes.getTimeOut
  simp only [hnow, hperm, lt_self_iff_false, decide_False, Bool.false_or, decide_eq_true_eq]
  by_cases h : c.attributes.lastingEffects effect ≥ now
  · simp only [h, if_true, Option.isSome_some, Option.some.injEq, true_iff]
    refine ⟨trivial, ?_, ?_⟩
    · intro r hr
      subst hr
      exact ⟨rfl, sub_nonneg.mpr h⟩
    · constructor
      · intro hlt
        exact ⟨_, rfl, sub_pos.mpr hlt⟩
      · rintro ⟨r, hr, hpos⟩
        subst hr
        exact sub_pos.mp hpos
  · simp only [h, if_false, Option.isSome_none, Bool.false_eq_true, false_iff]
    refine ⟨trivial, ?_, ?_⟩
    · intro r hr
      exact absurd hr (by simp)
    · constructor
      · intro hlt
        exact absurd (le_of_lt hlt) h
      · rintro ⟨r, hr, _⟩
        exact absurd hr (by simp)

/-- Claim C30 (amended): for a creature with the global time `now` and an effect kind whose
permanent count is 0, `getTimeRemaining(kind)` is present iff the expiry is not earlier than
`now`, its value is then `expiry - now ≥ 0`, and `isAffected(kind)` is true iff it is present
with a strictly positive value; for a creature without global time `getTimeRemaining` is
absent and `isAffected` is false, for every kind. -/
theorem timeRemaining_agrees (c : Creature) (effect : LastingEffect) :
    (∀ now, c.getGlobalTime = some now → c.attributes.permanentEffects effect = 0 →
      ((c.getTimeRemaining effect).isSome = true ↔ now ≤ c.attributes.getTimeOut effect) ∧
      (∀ r, c.getTimeRemaining effect = some r →
        r = c.attributes.getTimeOut effect - now ∧ 0 ≤ r) ∧
      (c.isAffected effect = true ↔ ∃ r, c.getTimeRemaining effect = some r ∧ 0 < r)) ∧
    (c.getGlobalTime = none →
      c.getTimeRemaining effect = none ∧ c.isAffected effect = false) := by
  refine ⟨fun now hnow hperm => timeRemaining_with_time c effect now hnow hperm, ?_⟩
  intro hnow
  unfold Creature.getTimeRemaining Creature.isAffected
  simp [hnow]

/-- With expiry 15 at time 10 the remaining time is 5 and the effect is active; outside a game
there is no remaining time and no active effect, also for a kind with a permanent count. -/
theorem timeRemaining_agrees_witness :
    (ledgerCreature LastingEffect.SLEEP 15 0).getTimeRemaining LastingEffect.SLEEP = some 5 ∧
    ((ledgerCreature LastingEffect.SLEEP 15 0).isAffected LastingEffect.SLEEP = true ↔
      ∃ r, (ledgerCreature LastingEffect.SLEEP 15 0).getTimeRemaining LastingEffect.SLEEP =
        some r ∧ 0 < r) ∧
    ({ ledgerCreature LastingEffect.SLEEP 15 1 with game := none }.getTimeRemaining
        LastingEffect.SLEEP = none ∧
      { ledgerCreature LastingEffect.SLEEP 15 1 with game := none }.isAffected
        LastingEffect.SLEEP = false) :=
  ⟨by decide,
    ((timeRemaining_agrees (ledgerCreature LastingEffect.SLEEP 15 0) LastingEffect.SLEEP).1 10
      (by decide) (by decide)).2.2,
    (timeRemaining_agrees { ledgerCreature LastingEffect.SLEEP 15 1 with game := none }
      LastingEffect.SLEEP).2 (by decide)⟩

/-! ## Throwing an item -/

lemma throwDistance_ok (weight : DoubleValue) (h : weight.le 20 = true) :
    throwDistance weight =
      .ok (if weight.le 0.5 then 13 else if weight.le 5 then 6 else 2) := by
  unfold throwDistance
  cases h1 : weight.le 0.5
  · cases h2 : weight.le 5
    · simp only [h, Bool.false_eq_true, if_false, if_true]; rfl
    · simp only [Bool.false_eq_true, if_false, if_true]; rfl
  · simp only [if_true]; rfl

lemma throwDistance_error (weight : DoubleValue) (h20 : weight.le 20 = false) :
    throwDistance weight = .error "Item too heavy." ∨ weight.gt 20 = true := by
  cases weight with
  | finite a =>
    right
    simp only [DoubleValue.le, decide_eq_false_iff_not, not_le] at h20
    simpa [DoubleValue.gt] using h20
  | posInf => right; rfl
  | negInf => exact absurd h20 (by simp [DoubleValue.le])
  | nan => left; rfl

lemma double_gt_le (weight : DoubleValue) :
    (weight.gt 20 = true ∧ weight.le 20 = false) ∨
      (weight.gt 20 = false ∧ weight.le 20 = true) ∨
      (weight = DoubleValue.nan ∧ weight.gt 20 = false ∧ weight.le 20 = false) := by
  cases weight with
  | finite a =>
    by_cases h : a ≤ 20
    · right; left
      simp [DoubleValue.gt, DoubleValue.le, h]
    · left
      simp only [not_le] at h
      simp [DoubleValue.gt, DoubleValue.le, h]
  | posInf => left; exact ⟨rfl, rfl⟩
  | negInf => right; left; exact ⟨rfl, rfl⟩
  | nan => right; right; exact ⟨rfl, rfl, rfl⟩

/-- Claim C28 as stated fails: for an item whose weight is not a number every comparison of
`throwItem` is false, so the humanoid sample creature with two good arms reaches the fatal
branch "Item too heavy.". -/
theorem throwItem_nan_counterexample :
    1 ≤ sampleSelf.getBody.numGood BodyPart.ARM ∧ sampleSelf.getBody.isHumanoid = true ∧
    nanItem.weight = DoubleValue.nan ∧
    sampleSelf.throwItem sampleEffects nanItem ⟨1, 0⟩ = .error "Item too heavy." := by
  refine ⟨by decide, rfl, rfl, by with_unfolding_all rfl⟩

/-- Claim C28 (amended): for a humanoid creature with at least one good arm and every item
weight `w`, `throwItem` is rejected with the reason "<item> is too heavy!" iff `w > 20`; if
`w ≤ 20` the action is valid, with throw distance 13 if `w ≤ 0.5`, 6 if `0.5 < w ≤ 5` and 2
if `5 < w ≤ 20` (the integer quotients of 200, 100 and 40 by 15); the fatal branch
"Item too heavy." is reached exactly when the weight is not a number, for which all these
comparisons are false, and for no weight that is a number. -/
theorem throwItem_distance (L : LastingEffects) (self : Creature) (item : Item)
    (direction : Vec2)
    (harm : 1 ≤ self.getBody.numGood BodyPart.ARM)
    (hhum : self.getBody.isHumanoid = true) :
    (self.throwItem L item direction =
        .ok (.invalid (some (item.theName ++ " is too heavy!"))) ↔
      item.weight.gt 20 = true) ∧
    (item.weight.le 20 = true →
      self.throwItem L item direction =
        .ok (.valid self.id (.throwItem item direction
          (if item.weight.le 0.5 then 13 else if item.weight.le 5 then 6 else 2)
          (self.getAttr L AttrType.RANGED_DAMAGE + item.getModifier AttrType.RANGED_DAMAGE)))) ∧
    (self.throwItem L item direction = .error "Item too heavy." ↔
      item.weight = DoubleValue.nan) ∧
    (∀ e, self.throwItem L item direction = .error e → item.weight = DoubleValue.nan) ∧
    (∀ w : ℚ, item.weight = DoubleValue.finite w →
      (self.throwItem L item direction =
          .ok (.invalid (some (item.theName ++ " is too heavy!"))) ↔ w > 20) ∧
      (w ≤ 20 →
        self.throwItem L item direction =
          .ok (.valid self.id (.throwItem item direction
            (if w ≤ 0.5 then 13 else if w ≤ 5 then 6 else 2)
            (self.getAttr L AttrType.RANGED_DAMAGE +
              item.getModifier AttrType.RANGED_DAMAGE)))) ∧
      (∀ e, self.throwItem L item direction ≠ .error e)) ∧
    Int.tdiv (10 * 20) 15 = 13 ∧ Int.tdiv (5 * 20) 15 = 6 ∧ Int.tdiv (2 * 20) 15 = 2 := by
  have hguard : ¬ (self.getBody.numGood BodyPart.ARM = 0 ∨ (!self.getBody.isHumanoid) = true) := by
    rintro (h | h)
    · rw [h] at harm
      exact absurd harm (by norm_num)
    · rw [hhum] at h
      exact absurd h (by simp)
  have hvalid : item.weight.le 20 = true →
      self.throwItem L item direction =
        .ok (.valid self.id (.throwItem item direction
          (if item.weight.le 0.5 then 13 else if item.weight.le 5 then 6 else 2)
          (self.getAttr L AttrType.RANGED_DAMAGE + item.getModifier AttrType.RANGED_DAMAGE))) := by
    intro hw
    have hgt : item.weight.gt 20 = false := by
      rcases double_gt_le item.weight with h | h | h
      · rw [h.2] at hw; exact absurd hw (by simp)
      · exact h.1
      · exact h.2.1
    unfold Creature.throwItem
    rw [if_neg hguard, hgt, throwDistance_ok _ hw]
    simp only [Bool.false_eq_true, if_false]
  have hheavy : item.weight.gt 20 = true →
      self.throwItem L item direction =
        .ok (.invalid (some (item.theName ++ " is too heavy!"))) := by
    intro hw
    unfold Creature.throwItem
    rw [if_neg hguard, if_pos hw]
  have hnan : item.weight = DoubleValue.nan →
      self.throwItem L item direction = .error "Item too heavy." := by
    intro hw
    unfold Creature.throwItem
    rw [if_neg hguard, hw]
    rfl
  have herr : ∀ e, self.throwItem L item direction = .error e →
      item.weight = DoubleValue.nan := by
    intro e h
    rcases double_gt_le item.weight with hc | hc | hc
    · rw [hheavy hc.1] at h
      exact absurd h (by simp)
    · rw [hvalid hc.2] at h
      exact absurd h (by simp)
    · exact hc.1
  refine ⟨⟨?_, hheavy⟩, hvalid, ⟨herr _, hnan⟩, herr, ?_, by decide, by decide, by decide⟩
  · intro h
    rcases double_gt_le item.weight with hc | hc | hc
    · exact hc.1
    · rw [hvalid hc.2] at h
      exact absurd h (by simp)
    · rw [hnan hc.1] at h
      exact absurd h (by simp)
  · intro w hw
    have hgt : item.weight.gt 20 = decide (w > 20) := by rw [hw]; rfl
    have hle : ∀ q : ℚ, item.weight.le q = decide (w ≤ q) := by intro q; rw [hw]; rfl
    refine ⟨⟨?_, ?_⟩, ?_, ?_⟩
    · intro h
      rcases double_gt_le item.weight with hc | hc | hc
      · rw [hgt] at hc
        exact of_decide_eq_true hc.1
      · rw [hvalid hc.2] at h
        exact absurd h (by simp)
      · rw [hw] at hc
        exact absurd hc.1 (by simp)
    · intro h
      exact hheavy (by rw [hgt]; exact decide_eq_true h)
    · intro h
      rw [hvalid (by rw [hle]; exact decide_eq_true h)]
      simp only [hle, decide_eq_true_eq]
    · intro e h
      have := herr e h
      rw [hw] at this
      exact absurd this (by simp)

/-- The sample creature throws the sword (weight 4) 6 tiles far and cannot throw the
corpse (weight 50). -/
theorem throwItem_distance_witness :
    sampleSelf.throwItem sampleEffects sampleSword ⟨1, 0⟩ =
      .ok (.valid 1 (.throwItem sampleSword ⟨1, 0⟩ 6 13)) ∧
    (sampleSelf.throwItem sampleEffects sampleCorpse ⟨1, 0⟩ =
      .ok (.invalid (some (sampleCorpse.theName ++ " is too heavy!"))) ↔
        sampleCorpse.weight.gt 20 = true) ∧
    sampleCorpse.weight.gt 20 = true :=
  ⟨by with_unfolding_all rfl,
    (throwItem_distance sampleEffects sampleSelf sampleCorpse ⟨1, 0⟩ (by decide) rfl).1,
    by with_unfolding_all decide⟩

/-! ## Time cost of an action -/

lemma spendTimeAlive_counter (self : Creature) (counter : Int) (m : Model)
    (ret : MovementInfo) (t : TimeInterval) :
    Creature.spendTimeAlive { self with lastMoveCounter := counter } m ret t =
      self.spendTimeAlive m ret t := rfl

lemma spendTime_dead (self : Creature) (m : Model) (t : TimeInterval)
    (hd : self.isDead = true) :
    self.spendTime (some m) t =
      (some ⟨⟨0, 0⟩, m.localTime, m.localTime + t, m.moveCounter, false⟩,
        { self with lastMoveCounter := m.moveCounter, hidden := false },
        some { m with moveCounter := m.moveCounter + 1 }) := by
  have hd1 : Creature.isDead { self with lastMoveCounter := m.moveCounter } = true := hd
  unfold Creature.spendTime
  simp only [hd1, Bool.not_true, Bool.false_eq_true, if_false]

lemma spendTime_alive (self : Creature) (m : Model) (t : TimeInterval)
    (hd : self.isDead = false) :
    self.spendTime (some m) t =
      (some (self.spendTimeAlive m
          ⟨⟨0, 0⟩, m.localTime, m.localTime + t, m.moveCounter, false⟩ t).1,
        { self with lastMoveCounter := m.moveCounter, hidden := false },
        some { m with
          timeQueue := (self.spendTimeAlive m
            ⟨⟨0, 0⟩, m.localTime, m.localTime + t, m.moveCounter, false⟩ t).2,
          moveCounter := m.moveCounter + 1 }) := by
  have hd1 : Creature.isDead { self with lastMoveCounter := m.moveCounter } = false := hd
  unfold Creature.spendTime
  simp only [hd1, Bool.not_false, if_true, spendTimeAlive_counter]

/-- Claim C26: `spendTime(t)` for a creature outside any model returns none and changes
nothing. Inside a model, for a dead creature the time queue is not touched. For a living
creature with SPEED active and `t` equal to one visible unit the time queue gets the single
call `makeExtraMove` and the returned interval has length one half: it is
`[now + 1/2, now + 1]` when an extra move was pending and `[now, now + 1/2]` otherwise. For
a living creature otherwise the time queue gets the single call `increaseTime` with
`t - 1` if SPEED is active and `t` if not, doubled if SLOWED is active, and the returned
interval is `[now, now + t]`. -/
theorem spendTime_cost (self : Creature) (m : Model) (t : TimeInterval) :
    self.spendTime none t = (none, self, none) ∧
    (self.isDead = true →
      ∃ ret m1, self.spendTime (some m) t =
          (some ret, { self with lastMoveCounter := m.moveCounter, hidden := false }, some m1) ∧
        m1.timeQueue = m.timeQueue) ∧
    (self.isDead = false → self.isAffected LastingEffect.SPEED = true → t = 1 →
      ∃ ret m1, self.spendTime (some m) t =
          (some ret, { self with lastMoveCounter := m.moveCounter, hidden := false }, some m1) ∧
        m1.timeQueue.calls = m.timeQueue.calls ++ [TimeQueueCall.makeExtraMove self.id] ∧
        ret.tEnd - ret.tBegin = 1 / 2 ∧
        ret.tBegin =
          (m.localTime : ℚ) + (if m.timeQueue.hasExtraMove self.id then 1 / 2 else 0) ∧
        ret.tEnd =
          (m.localTime : ℚ) + 1 - (if m.timeQueue.hasExtraMove self.id then 0 else 1 / 2)) ∧
    (self.isDead = false → ¬ (self.isAffected LastingEffect.SPEED = true ∧ t = 1) →
      ∃ ret m1, self.spendTime (some m) t =
          (some ret, { self with lastMoveCounter := m.moveCounter, hidden := false }, some m1) ∧
        m1.timeQueue.calls = m.timeQueue.calls ++
          [TimeQueueCall.increaseTime self.id
            ((if self.isAffected LastingEffect.SPEED then t - 1 else t) *
              (if self.isAffected LastingEffect.SLOWED then 2 else 1))] ∧
        ret.tBegin = (m.localTime : ℚ) ∧ ret.tEnd = (m.localTime : ℚ) + t) := by
  refine ⟨rfl, ?_, ?_, ?_⟩
  · intro hd
    exact ⟨_, _, spendTime_dead self m t hd, rfl⟩
  · intro hd hspeed ht
    refine ⟨_, _, spendTime_alive self m t hd, ?_⟩
    subst ht
    unfold Creature.spendTimeAlive
    simp only [hspeed, beq_self_eq_true, Bool.and_self, if_true, TimeQueue.record]
    cases m.timeQueue.hasExtraMove self.id <;> simp <;> constructor <;> ring
  · intro hd hnot
    refine ⟨_, _, spendTime_alive self m t hd, ?_⟩
    have hcond : (self.isAffected LastingEffect.SPEED && t == 1) = false := by
      cases hs : self.isAffected LastingEffect.SPEED
      · rfl
      · have : ¬ t = 1 := fun h => hnot ⟨hs, h⟩
        simp [this]
    unfold Creature.spendTimeAlive
    simp only [hcond, Bool.false_eq_true, if_false, TimeQueue.record]
    cases self.isAffected LastingEffect.SPEED <;> cases self.isAffected LastingEffect.SLOWED <;>
      simp

/-- A speedy creature spending one unit at local time 7 makes an extra move and gets the
interval [7, 7.5]; spending three units advances its time by two. -/
theorem spendTime_cost_witness :
    (speedySelf.spendTime (some sampleModel) 1).1 = some ⟨⟨0, 0⟩, 7, 15 / 2, 3, false⟩ ∧
    ((speedySelf.spendTime (some sampleModel) 3).2.2.map fun m1 => m1.timeQueue.calls) =
      some [TimeQueueCall.increaseTime 1 2] ∧
    speedySelf.spendTime none 1 = (none, speedySelf, none) :=
  ⟨by with_unfolding_all decide, by with_unfolding_all decide,
    (spendTime_cost speedySelf sampleModel 1).1⟩

/-! ## The per-tick update -/

set_option maxRecDepth 100000 in
/-- Every entry of the macro is found by its type and by its index, and its index lies in
0..53. -/
lemma effect_entries :
    ∀ p ∈ EFFECT_TYPES_LIST,
      overloadOf p.1 = some p ∧ caseOf p.2 = some p ∧ 0 ≤ p.2 ∧ p.2 ≤ 53 := by
  decide

set_option maxRecDepth 100000 in
/-- Every struct type has an entry in the macro. -/
lemma overloadOf_isSome (type : EffectStruct) : (overloadOf type).isSome = true := by
  cases type <;> rfl

lemma overloadOf_some {type : EffectStruct} {p : EffectStruct × Int}
    (h : overloadOf type = some p) :
    p.1 = type ∧ caseOf p.2 = some p ∧ 0 ≤ p.2 ∧ p.2 ≤ 53 := by
  have hmem : p ∈ EFFECT_TYPES_LIST := List.mem_of_find?_eq_some h
  have hp := List.find?_some h
  obtain ⟨_, h2, h3, h4⟩ := effect_entries p hmem
  exact ⟨by simpa using hp, h2, h3, h4⟩

lemma caseOf_some {index : Int} {p : EffectStruct × Int} (h : caseOf index = some p) :
    p.2 = index ∧ overloadOf p.1 = some p ∧ 0 ≤ p.2 ∧ p.2 ≤ 53 := by
  have hmem : p ∈ EFFECT_TYPES_LIST := List.mem_of_find?_eq_some h
  have hp := List.find?_some h
  exact ⟨by simpa using hp, (effect_entries p hmem).1, (effect_entries p hmem).2.2⟩

lemma holds_default : EffectType.default.holds ⟨EffectStruct.Escape, 0⟩ :=
  ⟨rfl, rfl, by decide⟩

lemma holds_ofValue (t : EffectValue) :
    ∃ e, EffectType.ofValue t = .ok e ∧ e.holds t := by
  unfold EffectType.ofValue
  cases h : overloadOf t.type with
  | none =>
    have := overloadOf_isSome t.type
    rw [h] at this
    exact absurd this (by simp)
  | some p =>
    obtain ⟨h1, h2, _, _⟩ := overloadOf_some h
    refine ⟨⟨p.2, p.2, t⟩, rfl, rfl, rfl, ?_⟩
    show caseOf p.2 = some (t.type, p.2)
    rw [h2, ← h1]

lemma holds_copy {e : EffectType} {v : EffectValue} (h : e.holds v) :
    ∃ e1, e.copy = .ok e1 ∧ e1.holds v := by
  obtain ⟨hm, he, hc⟩ := h
  unfold EffectType.copy EffectType.readElem
  rw [hc]
  simp only [hm, if_true]
  exact ⟨_, rfl, rfl, he, hc⟩

lemma holds_moveFrom {e : EffectType} {v : EffectValue} (h : e.holds v) :
    ∃ e1, e.moveFrom = .ok e1 ∧ e1.holds v := by
  obtain ⟨hm, he, hc⟩ := h
  unfold EffectType.moveFrom EffectType.readElem
  rw [hc]
  simp only [hm, if_true]
  exact ⟨_, rfl, rfl, he, hc⟩

lemma holds_destroy {e : EffectType} {v : EffectValue} (h : e.holds v) :
    e.destroy = .ok () := by
  obtain ⟨hm, _, hc⟩ := h
  unfold EffectType.destroy EffectType.readElem
  rw [hc]
  simp only [hm, if_true]

lemma holds_assign {d s : EffectType} {vd vs : EffectValue} (hd : d.holds vd)
    (hs : s.holds vs) : ∃ e1, d.assign s = .ok e1 ∧ e1.holds vs := by
  unfold EffectType.assign
  by_cases hi : d.index = s.index
  · obtain ⟨hm, _, hc⟩ := hd
    obtain ⟨hm2, he2, hc2⟩ := hs
    rw [if_pos hi, hc]
    simp only [EffectType.readElem, hm, hm2, hi, if_true]
    exact ⟨_, rfl, rfl, he2, hc2⟩
  · rw [if_neg hi, holds_destroy hd]
    exact holds_copy hs

lemma holds_moveAssign {d s : EffectType} {vd vs : EffectValue} (hd : d.holds vd)
    (hs : s.holds vs) : ∃ e1, d.moveAssign s = .ok e1 ∧ e1.holds vs := by
  unfold EffectType.moveAssign
  by_cases hi : d.index = s.index
  · obtain ⟨hm, _, hc⟩ := hd
    obtain ⟨hm2, he2, hc2⟩ := hs
    rw [if_pos hi, hc]
    simp only [EffectType.readElem, hm, hm2, hi, if_true]
    exact ⟨_, rfl, rfl, he2, hc2⟩
  · rw [if_neg hi, holds_destroy hd]
    exact holds_moveFrom hs

lemma holds_eval (b : EffectBuild) : ∃ e, b.eval = .ok e ∧ e.holds b.source := by
  induction b with
  | default => exact ⟨_, rfl, holds_default⟩
  | ofValue t => exact holds_ofValue t
  | copy b ih =>
    obtain ⟨e, he, hh⟩ := ih
    unfold EffectBuild.eval
    rw [he]
    exact holds_copy hh
  | move b ih =>
    obtain ⟨e, he, hh⟩ := ih
    unfold EffectBuild.eval
    rw [he]
    exact holds_moveFrom hh
  | assign dst src ihd ihs =>
    obtain ⟨d, hd, hhd⟩ := ihd
    obtain ⟨s, hs, hhs⟩ := ihs
    unfold EffectBuild.eval
    rw [hd, hs]
    exact holds_assign hhd hhs
  | moveAssign dst src ihd ihs =>
    obtain ⟨d, hd, hhd⟩ := ihd
    obtain ⟨s, hs, hhs⟩ := ihs
    unfold EffectBuild.eval
    rw [hd, hs]
    exact holds_moveAssign hhd hhs

lemma holds_visit {e : EffectType} {v : EffectValue} (h : e.holds v) (β : Type)
    (f : EffectStruct → EffectValue → β) : e.visit f = .ok (f v.type v) := by
  obtain ⟨hm, he, hc⟩ := h
  unfold EffectType.visit EffectType.readElem
  rw [hc]
  simp only [hm, if_true, he]

lemma holds_getValueMaybe {e : EffectType} {v : EffectValue} (h : e.holds v)
    (T : EffectStruct) :
    e.getValueMaybe T = .ok (if T = v.type then some v else none) := by
  obtain ⟨hm, he, hc⟩ := h
  unfold EffectType.getValueMaybe
  cases ho : overloadOf T with
  | none =>
    have := overloadOf_isSome T
    rw [ho] at this
    exact absurd this (by simp)
  | some p =>
    obtain ⟨h1, h2, _, _⟩ := overloadOf_some ho
    simp only []
    by_cases hi : e.index = p.2
    · have hT : T = v.type := by
        rw [hi, h2] at hc
        simp only [Option.some.injEq] at hc
        rw [← h1, hc]
      simp only [hi, if_true, EffectType.readElem, hm, hT, he]
    · have hT : ¬ T = v.type := by
        intro hT
        obtain ⟨_, h3, _, _⟩ := caseOf_some hc
        simp only at h3
        rw [← hT, ho] at h3
        simp only [Option.some.injEq] at h3
        exact hi (by rw [h3])
      simp only [hi, if_false, hT]

/-- Claim C24: the macro `EFFECT_TYPES_LIST` has 54 entries, with pairwise distinct types and
with the tags 0, 1, ..., 53 in this order. Every `EffectType` value obtained from the default
constructor, from a struct value, or by copy or move construction or assignment of such
values is obtained without a fault; its tag lies in 0..53 and identifies the struct value it
was built from (Escape for the default constructor, the source for a copy, move or
assignment): `visit` applies the handler for the type of that value to that value and does
not reach the `default:` branch, and `getValueMaybe<T>` returns that value if it is of type
`T` and none otherwise. -/
theorem effectType_closed (b : EffectBuild) :
    EFFECT_TYPES_LIST.length = 54 ∧
    EFFECT_TYPES_LIST.map Prod.snd = (List.range 54).map Int.ofNat ∧
    (EFFECT_TYPES_LIST.map Prod.fst).Nodup ∧
    ∃ e, b.eval = .ok e ∧ 0 ≤ e.index ∧ e.index ≤ 53 ∧ e.holds b.source ∧
      (∀ (β : Type) (f : EffectStruct → EffectValue → β),
        e.visit f = .ok (f b.source.type b.source)) ∧
      (∀ T : EffectStruct,
        e.getValueMaybe T = .ok (if T = b.source.type then some b.source else none)) := by
  refine ⟨rfl, by decide, by decide, ?_⟩
  obtain ⟨e, he, hh⟩ := holds_eval b
  obtain ⟨h1, _, h3, h4⟩ := caseOf_some hh.2.2
  simp only at h1 h3 h4
  exact ⟨e, he, h3, h4, hh, holds_visit hh, holds_getValueMaybe hh⟩

end KeeperRL
